import Mathlib

/-!
# The video-frame texture pipeline of the GVR video plugin

A shallow embedding of the native video plugin (`video_player_impl.cc`,
`gvrvideo_unity.cc`, `frame_buffer.cc`, `video_quad_screen.cc`,
`external_texture.h`, `video_externs.h`) and theorems about it.

Conventions of the embedding.

* A C `int` is an `Int`; where the source computes with it the result is
  reduced to the signed 32-bit range by `wrapInt32`.  `/` and `%` of C are the
  truncating `Int.tdiv` and `Int.tmod`.
* A `GLuint` is a `Nat` below `2 ^ 32`; a pointer or a JNI object reference is a
  `Nat`, the null pointer being `0`.
* A `float` that is only stored and copied is a `Rat`.
* A step whose behaviour is undefined in C++ (a null or out-of-bounds access, a
  failing `assert`, a JNI call on a null object) returns `none`.
* Every answer of the outside world (JNI results, GL queries, GL errors) is a
  field of an environment record handed to the step that asks for it.
* The GL calls a step issues are appended to the `calls` log of the GL context.
-/

namespace gvrvideo

/-! ## Machine integers -/

/-- Reduction of an integer to the signed 32-bit range of a C `int`. -/
def wrapInt32 (x : Int) : Int := (x + 2147483648) % 4294967296 - 2147483648

/-- The cast `(GLuint) x` of a C `int`. -/
def toGLuint (x : Int) : Nat := (x % 4294967296).toNat

/-- The cast `(GLint) n` of a `GLuint`. -/
def toGLint (n : Nat) : Int := wrapInt32 (n : Int)

/-- A pointer or object reference; `0` is null. -/
abbrev Ptr := Nat

/-! ## `external_texture.h` -/

/-- The class `ExternalTexture`: a texture id and the dimensions of the texture. -/
structure ExternalTexture where
  texture : Nat
  texWidth : Int
  texHeight : Int
deriving DecidableEq, Repr

namespace ExternalTexture

/-- The default constructor `ExternalTexture()`. -/
def default : ExternalTexture := { texture := 0, texWidth := 0, texHeight := 0 }

def GetTexture (t : ExternalTexture) : Nat := t.texture

def GetWidth (t : ExternalTexture) : Int := t.texWidth

def GetHeight (t : ExternalTexture) : Int := t.texHeight

def SetTexture (t : ExternalTexture) (texture : Nat) : ExternalTexture :=
  { t with texture := texture }

def SetWidth (t : ExternalTexture) (w : Int) : ExternalTexture :=
  { t with texWidth := w }

def SetHeight (t : ExternalTexture) (h : Int) : ExternalTexture :=
  { t with texHeight := h }

/-- The free function `operator==` on two textures. -/
def opEq (left right : ExternalTexture) : Bool :=
  left.GetTexture == right.GetTexture &&
  left.GetWidth == right.GetWidth &&
  left.GetHeight == right.GetHeight

/-- The free function `operator!=` on two textures. -/
def opNe (left right : ExternalTexture) : Bool :=
  !(opEq left right)

end ExternalTexture

/-! ## `video_player_holder` (the part the pipeline reads) -/

/-- The class `VideoPlayerHolder`: the wrapper of the Java player object. -/
structure VideoPlayerHolder where
  playerObj : Ptr
deriving DecidableEq, Repr

/-- The method `VideoPlayerHolder::GetRawObject`. -/
def VideoPlayerHolder.GetRawObject (h : VideoPlayerHolder) : Ptr := h.playerObj

/-- The method `VideoPlayerHolder::IsVideoReady`; `jniReady` is the answer of the
Java method `isVideoReady`. -/
def VideoPlayerHolder.IsVideoReady (h : VideoPlayerHolder) (jniReady : Bool) : Bool :=
  if h.playerObj = 0 then false else jniReady

/-! ## `video_player_impl`: the per-instance state -/

/-- The 4x4 identity matrix `ndk_helper::Mat4::Identity()`, as 16 floats. -/
def Mat4Identity : List Rat := [1, 0, 0, 0, 0, 1, 0, 0, 0, 0, 1, 0, 0, 0, 0, 1]

/-- The data members of the class `VideoPlayerImpl`.  `externalTexture` is `none`
for the null pointer and `some ring` for an allocated array. -/
structure VideoPlayerImpl where
  pVideoFactoryHolder : Ptr
  video_player_obj : Option VideoPlayerHolder
  onevent_callback : Ptr
  callback_data : Ptr
  onexception_callback : Ptr
  exceptioncallback_data : Ptr
  video_texture_obj : Ptr
  listener_obj : Ptr
  videoMatrix : List Rat
  videoTimestampNs : Int
  renderableTexture : Int
  drawableTexture : Int
  newFrameAvail : Bool
  num_textures : Int
  externalTexture : Option (List ExternalTexture)
  eventBase : Int
  initial_resolution : Int
deriving DecidableEq, Repr

/-- The values of the members that the constructor leaves uninitialised. -/
structure Uninit where
  callback_data : Ptr
  exceptioncallback_data : Ptr
  videoTimestampNs : Int
deriving DecidableEq, Repr

namespace VideoPlayerImpl

/-- The member initialisation of the constructor `VideoPlayerImpl::VideoPlayerImpl`,
for an instance whose event base has been computed from the global counter. -/
def construct (eventBase : Int) (u : Uninit) : VideoPlayerImpl :=
  { pVideoFactoryHolder := 0
    video_player_obj := none
    onevent_callback := 0
    callback_data := u.callback_data
    onexception_callback := 0
    exceptioncallback_data := u.exceptioncallback_data
    video_texture_obj := 0
    listener_obj := 0
    videoMatrix := Mat4Identity
    videoTimestampNs := u.videoTimestampNs
    renderableTexture := 0
    drawableTexture := 0
    newFrameAvail := false
    num_textures := 0
    externalTexture := none
    eventBase := eventBase
    initial_resolution := 0 }

def GetVideoMatrix (p : VideoPlayerImpl) : List Rat := p.videoMatrix

def GetVideoTimestampNs (p : VideoPlayerImpl) : Int := p.videoTimestampNs

def GetEventBase (p : VideoPlayerImpl) : Int := p.eventBase

def GetVideoPlayer (p : VideoPlayerImpl) : Option VideoPlayerHolder := p.video_player_obj

/-- The static method `VideoPlayerImpl::EventOperation`. -/
def EventOperation (eventId : Int) : Int := Int.tmod eventId 100

def SetInitialResolution (p : VideoPlayerImpl) (initialResolution : Int) : VideoPlayerImpl :=
  { p with initial_resolution := initialResolution }

/-- The method `VideoPlayerImpl::SetExternalTextures`.  `size` is a C `int`; a
negative `size` makes `new ExternalTexture[size]` fail and reading `texture_ids`
past its end is undefined, so these return `none`. -/
def SetExternalTextures (p : VideoPlayerImpl) (texture_ids : List Int) (size w h : Int) :
    Option VideoPlayerImpl :=
  if size < 0 ∨ 2147483648 ≤ size ∨ (texture_ids.length : Int) < size then none
  else
    some { p with
      num_textures := size
      externalTexture := some ((List.range size.toNat).map fun i =>
        ((ExternalTexture.default.SetTexture (toGLuint (texture_ids.getD i 0))).SetWidth w).SetHeight h) }

/-- Element `i` of a C array given as a list; out of bounds is undefined. -/
def arrayAt (arr : Option (List ExternalTexture)) (i : Int) : Option ExternalTexture :=
  match arr with
  | none => none
  | some ring => if 0 ≤ i then ring.get? i.toNat else none

/-- The method `VideoPlayerImpl::GetDrawableExternalTexture`. -/
def GetDrawableExternalTexture (p : VideoPlayerImpl) : Option ExternalTexture :=
  arrayAt p.externalTexture p.drawableTexture

/-- The method `VideoPlayerImpl::GetRenderableExternalTexture`. -/
def GetRenderableExternalTexture (p : VideoPlayerImpl) : Option ExternalTexture :=
  arrayAt p.externalTexture p.renderableTexture

/-- The method `VideoPlayerImpl::SwapExternalTexture`. -/
def SwapExternalTexture (p : VideoPlayerImpl) : VideoPlayerImpl :=
  if 0 < p.num_textures then
    { p with
      renderableTexture := p.drawableTexture
      drawableTexture := Int.tmod (wrapInt32 (p.drawableTexture + 1)) p.num_textures
      newFrameAvail := true }
  else p

/-- The method `VideoPlayerImpl::FrameDrawn`. -/
def FrameDrawn (p : VideoPlayerImpl) : VideoPlayerImpl :=
  { p with newFrameAvail := false }

/-- The method `VideoPlayerImpl::IsNewFrameAvailable`. -/
def IsNewFrameAvailable (p : VideoPlayerImpl) : Bool := p.newFrameAvail

end VideoPlayerImpl

/-! ## The outside world: GL state, the call log and the answers it gives -/

/-- The struct `GraphicsState` of `gvrvideo_unity.cc`. -/
structure GraphicsState where
  Cullface : Bool
  Blend : Bool
  DepthFunc : Nat
  DepthTest : Bool
  DepthMask : Bool
  Viewport : Int × Int × Int × Int
deriving DecidableEq, Repr

/-- The JNI methods of the Java class `VideoTexture` the plugin calls. -/
inductive VideoTextureMethod where
  | getSurfaceTexture
  | getVideoTextureId
  | updateTexture
  | getVideoMatrix
  | getVideoTimestampNs
  | release
deriving DecidableEq, Repr

/-- The JNI methods of the Java class `VideoPlayer` whose calls the log records (the
methods that only return a value are answered by the environment and not logged). -/
inductive VideoPlayerMethod where
  | addListener
  | playerInitialize
  | setCurrentPosition
  | setCurrentVolume
deriving DecidableEq, Repr

/-- A call that leaves the plugin, in the order of the source. -/
inductive Call where
  | initGL
  | getGraphicsState
  | setGraphicsState (s : GraphicsState)
  | genFramebuffers (id : Nat)
  | deleteFramebuffers (id : Nat)
  | bindFramebuffer (id : Nat)
  | bindTexture2D (texture : Nat)
  | framebufferTexture2D (texture : Nat)
  | drawBuffers
  | clear
  | useProgram
  | bindTextureExternal (texture : Nat)
  | uniformST (m : List Rat)
  | bindArrayBuffer (view : Int)
  | uniformMVP
  | drawArrays (count : Nat)
  | videoTexture (obj : Ptr) (m : VideoTextureMethod)
  | newVideoTexture (player : Ptr)
  | setSurfaceTexture (surface : Ptr)
  | videoPlayer (obj : Ptr) (m : VideoPlayerMethod)
  | releaseString (s : Ptr)
  | deleteTrackInfo
deriving DecidableEq, Repr

/-- The GL state the copy pass saves and restores, and the log of issued calls
(the most recent call last). -/
structure Device where
  cullFace : Bool
  blend : Bool
  depthFunc : Nat
  depthTest : Bool
  depthMask : Bool
  viewport : Int × Int × Int × Int
  calls : List Call
deriving DecidableEq, Repr

/-- Appends calls to the log. -/
def Device.issue (dev : Device) (cs : List Call) : Device :=
  { dev with calls := dev.calls ++ cs }

def GL_NO_ERROR : Int := 0

def GL_LEQUAL : Nat := 515

def GL_FRAMEBUFFER_COMPLETE : Nat := 36053

/-- The answers `FrameBuffer::Initialize` gets when it creates a framebuffer
object: the name `glGenFramebuffers` writes, the value of
`glCheckFramebufferStatus` and the error `CheckGLError("End of initialize")` reads. -/
structure InitEnv where
  genId : Nat
  status : Nat
  endError : Int
deriving DecidableEq, Repr

/-- The answers `FrameBuffer::Bind` gets: those of its `Initialize` and the error
read after `glBindFramebuffer`. -/
structure BindEnv where
  init : InitEnv
  bindError : Int
deriving DecidableEq, Repr

/-- The answers `StartFramebuffer` gets. -/
structure StartEnv where
  reinit : InitEnv
  bind : BindEnv
deriving DecidableEq, Repr

/-- The answers `GetTextureData` gets: the two results of the Java method
`getVideoTextureId` (on entry and inside `DrawVideo`), the result of
`isVideoReady`, the result of `glIsTexture` and the answers to the framebuffer. -/
structure RenderEnv where
  videoTextureId : Int
  jniReady : Bool
  isTexture : Bool
  start : StartEnv
  drawTextureId : Int
deriving DecidableEq, Repr

/-- The answers `UpdateVideo` gets: the result of `updateTexture`, the timestamp
and the matrix (`none`: no array object; `some none`: its elements cannot be
read; `some (some a)`: the floats). -/
structure UpdateEnv where
  updateTexture : Bool
  timestampNs : Int
  jmat : Option (Option (List Rat))
deriving DecidableEq, Repr

/-- The answers `CreateVideoTexture` gets: the global reference to the new
`VideoTexture` object and the surface texture it hands out. -/
structure CreateEnv where
  newGlobalRef : Ptr
  surfaceTexture : Ptr
deriving DecidableEq, Repr

/-- The answers one render event may ask for. -/
structure EventEnv where
  create : CreateEnv
  update : UpdateEnv
  render : RenderEnv
deriving DecidableEq, Repr

/-! ## `frame_buffer.cc` -/

/-- The data members of the class `FrameBuffer`. -/
structure FrameBuffer where
  framebufferID : Nat
  externalTexture : ExternalTexture
deriving DecidableEq, Repr

namespace FrameBuffer

/-- Modelled from the spec: the accessor `FrameBuffer::GetExternalTexture`, declared
in the header `frame_buffer.h` that is not among the sources; it returns the
destination texture the framebuffer is bound to. -/
def GetExternalTexture (fb : FrameBuffer) : ExternalTexture := fb.externalTexture

/-- The method `FrameBuffer::Initialize` (with `assert` compiled out). -/
def Initialize (fb : FrameBuffer) (dev : Device) (env : InitEnv) :
    Bool × FrameBuffer × Device :=
  if fb.framebufferID = 0 then
    let fb1 := { fb with framebufferID := env.genId }
    let dev1 := dev.issue
      [ Call.genFramebuffers fb1.framebufferID,
        Call.bindFramebuffer fb1.framebufferID,
        Call.bindTexture2D fb1.externalTexture.GetTexture,
        Call.framebufferTexture2D fb1.externalTexture.GetTexture,
        Call.drawBuffers ]
    (decide (env.status = GL_FRAMEBUFFER_COMPLETE) && decide (env.endError = GL_NO_ERROR),
      fb1, dev1)
  else
    (decide (fb.framebufferID > 0), fb, dev)

/-- The method `FrameBuffer::ReInitialize`. -/
def ReInitialize (fb : FrameBuffer) (dev : Device) (texture : ExternalTexture)
    (env : InitEnv) : Bool × FrameBuffer × Device :=
  let fb1 := { fb with externalTexture := texture }
  if fb1.framebufferID ≠ 0 then
    Initialize { fb1 with framebufferID := 0 }
      (dev.issue [Call.deleteFramebuffers fb1.framebufferID]) env
  else
    Initialize fb1 dev env

/-- The method `FrameBuffer::Bind`. -/
def Bind (fb : FrameBuffer) (dev : Device) (env : BindEnv) :
    Bool × FrameBuffer × Device :=
  match Initialize fb dev env.init with
  | (true, fb1, dev1) =>
    (decide (env.bindError = GL_NO_ERROR), fb1,
      dev1.issue [Call.bindFramebuffer fb1.framebufferID])
  | (false, fb1, dev1) =>
    (false, { fb1 with framebufferID := 0 },
      dev1.issue [Call.deleteFramebuffers fb1.framebufferID])

end FrameBuffer

/-! ## `video_quad_screen` -/

namespace VideoQuadScreen

def MONO_VIEW : Int := 0

def RIGHT_EYE_VIEW : Int := 1

def LEFT_EYE_VIEW : Int := 2

def INVERTED_MONO_VIEW : Int := 3

/-- The constant `kNumScreenVertices`: 20 floats of 4 bytes over a stride of 20 bytes. -/
def kNumScreenVertices : Nat := (20 * 4) / (5 * 4)

/-- The static method `VideoQuadScreen::InitGL`: the shader program and the four
vertex buffers are created; the log keeps one entry for it. -/
def InitGL (dev : Device) : Device := dev.issue [Call.initGL]

/-- The method `VideoQuadScreen::Draw`.  `array_buffers_` has four elements, so a
`view` outside `0..3` (which the `assert` of the source excludes) is undefined. -/
def Draw (dev : Device) (videoTextureId : Nat) (videoTransformMatrix : List Rat)
    (view : Int) : Option Device :=
  if videoTextureId ≤ 0 then some dev
  else if 0 ≤ view ∧ view < 4 then
    some (dev.issue
      [ Call.useProgram,
        Call.bindTextureExternal videoTextureId,
        Call.uniformST videoTransformMatrix,
        Call.bindArrayBuffer view,
        Call.uniformMVP,
        Call.drawArrays kNumScreenVertices,
        Call.bindTextureExternal 0 ])
  else none

end VideoQuadScreen

/-! ## `video_quad_screen.cc`: the vertex tables -/

/-- The table `inverted_screen_vertices`: four vertices of five floats, X, Y, Z, U, V. -/
def inverted_screen_vertices : List Rat :=
  [ -1/2,  1/2, 0, 0, 0,
    -1/2, -1/2, 0, 0, 1,
     1/2, -1/2, 0, 1, 1,
     1/2,  1/2, 0, 1, 0 ]

/-- The table `screen_vertices`. -/
def screen_vertices : List Rat :=
  [ -1/2,  1/2, 0, 0, 1,
    -1/2, -1/2, 0, 0, 0,
     1/2, -1/2, 0, 1, 0,
     1/2,  1/2, 0, 1, 1 ]

/-- The table `right_vertices`. -/
def right_vertices : List Rat :=
  [ -1/2,  1/2, 0, 1, 1,
    -1/2, -1/2, 0, 1, 1/2,
     1/2, -1/2, 0, 0, 1/2,
     1/2,  1/2, 0, 0, 1 ]

/-- The table `left_vertices`. -/
def left_vertices : List Rat :=
  [ -1/2,  1/2, 0, 1, 1/2,
    -1/2, -1/2, 0, 1, 0,
     1/2, -1/2, 0, 0, 0,
     1/2,  1/2, 0, 0, 1/2 ]

namespace VideoQuadScreen

/-- The table `InitGL` uploads with `glBufferData` into `array_buffers_[view]`. -/
def bufferData (view : Int) : Option (List Rat) :=
  if view = MONO_VIEW then some screen_vertices
  else if view = RIGHT_EYE_VIEW then some right_vertices
  else if view = LEFT_EYE_VIEW then some left_vertices
  else if view = INVERTED_MONO_VIEW then some inverted_screen_vertices
  else none

/-- The number of floats of one vertex (`kVertexStrideBytes` is `5 * sizeof(float)`). -/
def kVertexStride : Nat := 5

/-- The number of floats before the texture coordinates of a vertex
(`kTexCoordOffsetBytes` is `3 * sizeof(float)`). -/
def kTexCoordOffset : Nat := 3

/-- The position attribute of vertex `i` as `Draw` declares it with
`glVertexAttribPointer`: three floats at the start of the vertex. -/
def position (table : List Rat) (i : Nat) : Rat × Rat × Rat :=
  (table.getD (kVertexStride * i) 0, table.getD (kVertexStride * i + 1) 0,
    table.getD (kVertexStride * i + 2) 0)

/-- The texture-coordinate attribute of vertex `i` as `Draw` declares it: two floats
after the position. -/
def texCoord (table : List Rat) (i : Nat) : Rat × Rat :=
  (table.getD (kVertexStride * i + kTexCoordOffset) 0,
    table.getD (kVertexStride * i + kTexCoordOffset + 1) 0)

end VideoQuadScreen

/-! ## `video_player_impl`: methods that talk to the decoder surface -/

namespace VideoPlayerImpl

/-- The method `VideoPlayerImpl::GetVideoTextureId`; `jniResult` is the `jint` the
Java method returns.  The JNI call on a null `video_texture_obj` is undefined. -/
def GetVideoTextureId (p : VideoPlayerImpl) (dev : Device) (jniResult : Int) :
    Option (Nat × Device) :=
  if p.video_texture_obj = 0 then none
  else some (toGLuint jniResult,
    dev.issue [Call.videoTexture p.video_texture_obj VideoTextureMethod.getVideoTextureId])

/-- The method `VideoPlayerImpl::UpdateVideo`.  `memcpy` reads 16 floats, so a
shorter array is undefined. -/
def UpdateVideo (p : VideoPlayerImpl) (dev : Device) (env : UpdateEnv) :
    Option (Bool × VideoPlayerImpl × Device) :=
  if p.video_texture_obj = 0 then some (false, p, dev)
  else
    let dev1 := dev.issue [Call.videoTexture p.video_texture_obj VideoTextureMethod.updateTexture]
    if env.updateTexture then
      let p1 := { p with videoTimestampNs := env.timestampNs }
      let dev2 := dev1.issue
        [ Call.videoTexture p.video_texture_obj VideoTextureMethod.getVideoTimestampNs,
          Call.videoTexture p.video_texture_obj VideoTextureMethod.getVideoMatrix ]
      match env.jmat with
      | some (some arr) =>
        if arr.length < 16 then none
        else some (true, { p1 with videoMatrix := arr.take 16 }, dev2)
      | some none => some (true, { p1 with videoMatrix := Mat4Identity }, dev2)
      | none => some (true, p1, dev2)
    else some (false, p, dev1)

/-- The method `VideoPlayerImpl::SetVideoTexture`: hands the surface of the video
texture to the player. -/
def SetVideoTexture (p : VideoPlayerImpl) (dev : Device) (surfaceTexture : Ptr) : Device :=
  match p.video_player_obj with
  | none => dev
  | some _ =>
    if p.video_texture_obj = 0 then dev
    else
      let dev1 := dev.issue
        [Call.videoTexture p.video_texture_obj VideoTextureMethod.getSurfaceTexture]
      if surfaceTexture ≠ 0 then dev1.issue [Call.setSurfaceTexture surfaceTexture] else dev1

/-- The method `VideoPlayerImpl::CreateVideoTexture`; `video_texture_class` is the
static class reference. -/
def CreateVideoTexture (p : VideoPlayerImpl) (dev : Device) (video_texture_class : Ptr)
    (env : CreateEnv) : VideoPlayerImpl × Device :=
  if video_texture_class = 0 then (p, dev)
  else
    match p.video_player_obj with
    | none => (p, dev)
    | some holder =>
      if holder.GetRawObject = 0 then (p, dev)
      else
        let dev1 := dev.issue [Call.newVideoTexture holder.GetRawObject]
        let p1 := { p with video_texture_obj := env.newGlobalRef }
        (p1, SetVideoTexture p1 dev1 env.surfaceTexture)

/-- The method `VideoPlayerImpl::DrawVideo`; the matrix `mvpMatrix` is not part of
the model. -/
def DrawVideo (p : VideoPlayerImpl) (dev : Device) (view : Int) (jniTextureId : Int) :
    Option Device :=
  match p.GetVideoTextureId dev jniTextureId with
  | none => none
  | some (id, dev1) => VideoQuadScreen.Draw dev1 id p.videoMatrix view

end VideoPlayerImpl

/-! ## `video_player_holder.cc`: the methods behind the exported functions -/

/-- The struct `ExoTrackInfo` of `video_externs.h`; a string is the address of its
buffer, 0 for a null pointer. -/
structure ExoTrackInfo where
  Index : Int
  BitRate : Int
  FrameRate : Rat
  Width : Int
  Height : Int
  MimeType : Ptr
  DisplayName : Ptr
  Language : Ptr
  Name : Ptr
  Channels : Int
  SampleRate : Int
deriving DecidableEq, Repr

/-- A pointer to an array of `ExoTrackInfo`: `none` is the null pointer. -/
abbrev TrackInfoPtr := Option (List ExoTrackInfo)

/-- The answers of the Java player to the JNI calls of `VideoPlayerHolder`;
`trackCount` and `track` depend on the renderer index, `track` also on the track. -/
structure PlayerEnv where
  isVideoReady : Bool
  isPaused : Bool
  playbackState : Int
  duration : Int
  bufferedPosition : Int
  currentPosition : Int
  bufferedPercentage : Int
  playVideo : Int
  pauseVideo : Int
  width : Int
  height : Int
  maxVolume : Int
  currentVolume : Int
  trackCount : Int → Int
  track : Int → Nat → ExoTrackInfo
  stereoMode : Int
  projectionSize : Int

/-- The method `JNIHelper::ReleaseString`: deletes a string that is not null. -/
def ReleaseString (dev : Device) (string : Ptr) : Device :=
  if string ≠ 0 then dev.issue [Call.releaseString string] else dev

namespace VideoPlayerHolder

/-- A JNI method call on the Java player whose value is `answer`; the call on a null
reference is undefined. -/
def callMethod {α : Type} (h : VideoPlayerHolder) (answer : α) : Option α :=
  if h.playerObj = 0 then none else some answer

/-- The method `VideoPlayerHolder::AddListener`. -/
def AddListener (h : VideoPlayerHolder) (dev : Device) : Option Device :=
  h.callMethod (dev.issue [Call.videoPlayer h.playerObj VideoPlayerMethod.addListener])

/-- The method `VideoPlayerHolder::Initialize`; its boolean result is not used. -/
def Initialize (h : VideoPlayerHolder) (dev : Device) : Option Device :=
  h.callMethod (dev.issue [Call.videoPlayer h.playerObj VideoPlayerMethod.playerInitialize])

def PlayVideo (h : VideoPlayerHolder) (jni : PlayerEnv) : Option Int :=
  h.callMethod jni.playVideo

def PauseVideo (h : VideoPlayerHolder) (jni : PlayerEnv) : Option Int :=
  h.callMethod jni.pauseVideo

/-- The method `VideoPlayerHolder::IsVideoPaused`. -/
def IsVideoPaused (h : VideoPlayerHolder) (jni : PlayerEnv) : Bool :=
  if h.playerObj = 0 then false else jni.isPaused

def GetPlaybackState (h : VideoPlayerHolder) (jni : PlayerEnv) : Option Int :=
  h.callMethod jni.playbackState

def GetDuration (h : VideoPlayerHolder) (jni : PlayerEnv) : Option Int :=
  h.callMethod jni.duration

def GetBufferedPosition (h : VideoPlayerHolder) (jni : PlayerEnv) : Option Int :=
  h.callMethod jni.bufferedPosition

def GetCurrentPosition (h : VideoPlayerHolder) (jni : PlayerEnv) : Option Int :=
  h.callMethod jni.currentPosition

/-- The method `VideoPlayerHolder::SetCurrentPosition`. -/
def SetCurrentPosition (h : VideoPlayerHolder) (dev : Device) : Option Device :=
  h.callMethod (dev.issue [Call.videoPlayer h.playerObj VideoPlayerMethod.setCurrentPosition])

def GetBufferedPercentage (h : VideoPlayerHolder) (jni : PlayerEnv) : Option Int :=
  h.callMethod jni.bufferedPercentage

def GetWidth (h : VideoPlayerHolder) (jni : PlayerEnv) : Int :=
  if h.playerObj ≠ 0 then jni.width else -1

def GetHeight (h : VideoPlayerHolder) (jni : PlayerEnv) : Int :=
  if h.playerObj ≠ 0 then jni.height else -1

def GetMaxVolume (h : VideoPlayerHolder) (jni : PlayerEnv) : Int :=
  if h.playerObj ≠ 0 then jni.maxVolume else -1

def GetCurrentVolume (h : VideoPlayerHolder) (jni : PlayerEnv) : Int :=
  if h.playerObj ≠ 0 then jni.currentVolume else -1

/-- The method `VideoPlayerHolder::SetCurrentVolume`. -/
def SetCurrentVolume (h : VideoPlayerHolder) (dev : Device) : Device :=
  if h.playerObj ≠ 0 then
    dev.issue [Call.videoPlayer h.playerObj VideoPlayerMethod.setCurrentVolume]
  else dev

/-- The method `VideoPlayerHolder::GetTrackCount`. -/
def GetTrackCount (h : VideoPlayerHolder) (jni : PlayerEnv) (rendererIndex : Int) : Int :=
  if h.playerObj ≠ 0 then jni.trackCount rendererIndex else 0

/-- The method `VideoPlayerHolder::GetTrackInfo`: an array of `ct` entries filled from
the answers of the player, or null. -/
def GetTrackInfo (h : VideoPlayerHolder) (jni : PlayerEnv) (rendererIndex : Int) :
    TrackInfoPtr :=
  if h.playerObj ≠ 0 then
    let ct := h.GetTrackCount jni rendererIndex
    if ct > 0 then
      some ((List.range ct.toNat).map fun i =>
        { jni.track rendererIndex i with Index := (i : Int) })
    else none
  else none

def GetStereoMode (h : VideoPlayerHolder) (jni : PlayerEnv) : Int :=
  if h.playerObj ≠ 0 then jni.stereoMode else -1

/-- The method `VideoPlayerHolder::HasProjectionData`; `projectionSize` is the length
of the byte array the player returns, 0 if it returns none. -/
def HasProjectionData (h : VideoPlayerHolder) (jni : PlayerEnv) : Bool :=
  let size := if h.playerObj ≠ 0 then jni.projectionSize else 0
  decide (size > 0)

/-- The four `ReleaseString` calls of one round of the loop of `ReleaseTrackInfo`;
`info->Name` and the others read the first entry of the array. -/
def releaseRound (first : ExoTrackInfo) (dev : Device) : Device :=
  ReleaseString (ReleaseString (ReleaseString (ReleaseString dev first.Name) first.Language)
    first.DisplayName) first.MimeType

/-- The method `VideoPlayerHolder::ReleaseTrackInfo`.  The loop runs `ct` times, each
time on `info->Name`, `info->Language`, `info->DisplayName` and `info->MimeType`, and
`delete info` follows.  Reading the first entry of an array without entries is
undefined. -/
def ReleaseTrackInfo (_h : VideoPlayerHolder) (dev : Device) (info : TrackInfoPtr) (ct : Int) :
    Option Device :=
  match info with
  | none => some dev
  | some arr =>
    if ct = 0 then some dev
    else if ct < 0 then some (dev.issue [Call.deleteTrackInfo])
    else
      match arr.head? with
      | none => none
      | some first => some (((releaseRound first)^[ct.toNat] dev).issue [Call.deleteTrackInfo])

end VideoPlayerHolder

/-! ## `video_player_impl.cc`: the methods behind the exported functions -/

/-- The answers `VideoPlayerImpl::CreateVideoPlayer` gets: the factory holder
`VideoSupportImpl::Create` returns for the default class name, the Java player the
factory creates (0 if it creates none), the global reference of the listener and the
surface texture of the video texture. -/
structure InitPlayerEnv where
  factory : Ptr
  player : Ptr
  listener : Ptr
  surfaceTexture : Ptr
deriving DecidableEq, Repr

namespace VideoPlayerImpl

/-- The method `VideoPlayerImpl::SetSupportClassname`; `clzname` is the address of the
name and `created` the result of `VideoSupportImpl::Create`. -/
def SetSupportClassname (p : VideoPlayerImpl) (clzname created : Ptr) :
    Bool × VideoPlayerImpl :=
  if clzname ≠ 0 then (decide (created ≠ 0), { p with pVideoFactoryHolder := created })
  else (false, p)

/-- The method `VideoPlayerImpl::GetVideoSupportImpl`; the default class name is a
string literal, here the non-null address 1. -/
def GetVideoSupportImpl (p : VideoPlayerImpl) (created : Ptr) : Ptr × VideoPlayerImpl :=
  if p.pVideoFactoryHolder ≠ 0 then (p.pVideoFactoryHolder, p)
  else
    let p1 := (p.SetSupportClassname 1 created).2
    (p1.pVideoFactoryHolder, p1)

/-- The method `VideoPlayerImpl::SetOnEventCallback`. -/
def SetOnEventCallback (p : VideoPlayerImpl) (callback cb_data : Ptr) : VideoPlayerImpl :=
  { p with onevent_callback := callback, callback_data := cb_data }

/-- The method `VideoPlayerImpl::SetOnExceptionCallback`. -/
def SetOnExceptionCallback (p : VideoPlayerImpl) (callback cb_data : Ptr) : VideoPlayerImpl :=
  { p with onexception_callback := callback, exceptioncallback_data := cb_data }

/-- The method `VideoPlayerImpl::AddNativeListener`. -/
def AddNativeListener (p : VideoPlayerImpl) (dev : Device) (listener : Ptr) :
    Option (VideoPlayerImpl × Device) :=
  let p1 := if p.listener_obj = 0 then { p with listener_obj := listener } else p
  match p1.video_player_obj with
  | none => none
  | some holder => (holder.AddListener dev).map fun dev1 => (p1, dev1)

/-- The method `VideoPlayerImpl::CreateVideoPlayer`; the result `this` is not part of
the value.  The calls to the factory leave no trace in the model. -/
def CreateVideoPlayer (p : VideoPlayerImpl) (dev : Device) (useExisting : Bool)
    (env : InitPlayerEnv) : Option (VideoPlayerImpl × Device) :=
  let (fac, p0) := p.GetVideoSupportImpl env.factory
  if fac = 0 then some (p0, dev)
  else
    let p1 :=
      if p0.video_player_obj.isSome ∧ useExisting = false then
        { p0 with video_player_obj := none }
      else p0
    let created : Option (VideoPlayerImpl × Device) :=
      match p1.video_player_obj with
      | some _ => some (p1, dev)
      | none =>
        let holder : Option VideoPlayerHolder :=
          if env.player ≠ 0 then some { playerObj := env.player } else none
        match ({ p1 with video_player_obj := holder }).AddNativeListener dev env.listener with
        | none => none
        | some (p2, dev1) => some (p2, p2.SetVideoTexture dev1 env.surfaceTexture)
    match created with
    | none => none
    | some (p3, dev2) =>
      match p3.video_player_obj with
      | none => none
      | some holder => (holder.Initialize dev2).map fun dev3 => (p3, dev3)

end VideoPlayerImpl

/-! ## The process state: globals of `video_player_impl.cc` and `gvrvideo_unity.cc` -/

/-- The globals of the plugin and the live `VideoPlayerImpl` objects.
`g_instances` is the `std::map`: `none` for an absent key, `some ptr` for an entry. -/
structure World where
  g_instances : Int → Option Ptr
  g_instanceNumber : Int
  heap : Ptr → Option VideoPlayerImpl
  video_texture_class : Ptr
  g_framebuffer : FrameBuffer
  g_GraphicsState : GraphicsState
  device : Device

/-- The state of the globals when the library is loaded: an empty map and the
counter at 1.  The framebuffer, the class reference and the GL state are given. -/
def World.initial (video_texture_class : Ptr) (fb : FrameBuffer) (gs : GraphicsState)
    (dev : Device) : World :=
  { g_instances := fun _ => none
    g_instanceNumber := 1
    heap := fun _ => none
    video_texture_class := video_texture_class
    g_framebuffer := fb
    g_GraphicsState := gs
    device := dev }

/-- Replaces the object at `ptr`. -/
def World.store (w : World) (ptr : Ptr) (p : VideoPlayerImpl) : World :=
  { w with heap := Function.update w.heap ptr (some p) }

namespace VideoPlayerImpl

/-- The constructor `VideoPlayerImpl::VideoPlayerImpl` run on the object at `this`:
the counter is incremented, the event base computed and the instance registered. -/
def ctor (w : World) (this : Ptr) (u : Uninit) : World :=
  let n := wrapInt32 (w.g_instanceNumber + 1)
  let eventBase := wrapInt32 (n * 100)
  { w with
    g_instanceNumber := n
    g_instances := Function.update w.g_instances n (some this)
    heap := Function.update w.heap this (some (construct eventBase u)) }

/-- The destructor `VideoPlayerImpl::~VideoPlayerImpl` followed by the release of
the object: the video texture is released and the registry entry erased.  The
calls that destroy the Java player and the factory leave no trace in the model. -/
def dtor (w : World) (this : Ptr) (p : VideoPlayerImpl) : World :=
  { w with
    device :=
      if p.video_texture_obj ≠ 0 then
        w.device.issue [Call.videoTexture p.video_texture_obj VideoTextureMethod.release]
      else w.device
    g_instances := Function.update w.g_instances (Int.tdiv p.eventBase 100) none
    heap := Function.update w.heap this none }

/-- The static method `VideoPlayerImpl::GetInstance`; `g_instances[index]` inserts a
null entry when the key is absent. -/
def GetInstance (w : World) (id : Int) : World × Ptr :=
  let index := Int.tdiv id 100
  match w.g_instances index with
  | some impl => (w, impl)
  | none => ({ w with g_instances := Function.update w.g_instances index (some 0) }, 0)

end VideoPlayerImpl

/-! ## `video_externs.h`: the event ids -/

def EVENT_NONE : Int := -1

def EVENT_INITIALIZE : Int := 0

def EVENT_UPDATE : Int := 1

def EVENT_RENDER_MONO : Int := 2

def EVENT_RENDER_LEFT : Int := 3

def EVENT_RENDER_RIGHT : Int := 4

def EVENT_SHUTDOWN : Int := 5

def EVENT_UE4INITIALIZE : Int := 6

def EVENT_RENDER_INVERTED_MONO : Int := 7

/-! ## `gvrvideo_unity.cc` -/

/-- The exported function `CreateVideoPlayer`: `new VideoPlayerImpl()`.  `addr` is the
address the allocator returns, which is neither null nor that of a live object;
any other `addr` gives `none`. -/
def CreateVideoPlayer (w : World) (addr : Ptr) (u : Uninit) : Option (World × Ptr) :=
  if addr = 0 ∨ (w.heap addr).isSome then none
  else some (VideoPlayerImpl.ctor w addr u, addr)

/-- The exported function `DestroyVideoPlayer`; deleting through a pointer to no
live object is undefined. -/
def DestroyVideoPlayer (w : World) (ptr : Ptr) : Option World :=
  if ptr = 0 then some w
  else
    match w.heap ptr with
    | none => none
    | some p => some (VideoPlayerImpl.dtor w ptr p)

/-- The exported function `GetVideoPlayerEventBase`. -/
def GetVideoPlayerEventBase (w : World) (ptr : Ptr) : Option Int :=
  if ptr = 0 then some 0
  else (w.heap ptr).map VideoPlayerImpl.GetEventBase

/-- The exported function `SetExternalTextures`. -/
def SetExternalTextures (w : World) (ptr : Ptr) (texture_ids : List Int) (size tw th : Int) :
    Option World :=
  if ptr = 0 then some w
  else
    match w.heap ptr with
    | none => none
    | some p => (p.SetExternalTextures texture_ids size tw th).map (w.store ptr)

/-- The device events of Unity (`UnityGfxDeviceEventType`). -/
inductive UnityGfxDeviceEventType where
  | kUnityGfxDeviceEventInitialize
  | kUnityGfxDeviceEventShutdown
  | kUnityGfxDeviceEventBeforeReset
  | kUnityGfxDeviceEventAfterReset
deriving DecidableEq, Repr

/-- The function `OnGraphicsDeviceEvent`. -/
def OnGraphicsDeviceEvent (w : World) (eventType : UnityGfxDeviceEventType) : World :=
  match eventType with
  | .kUnityGfxDeviceEventInitialize => { w with device := VideoQuadScreen.InitGL w.device }
  | .kUnityGfxDeviceEventShutdown => w
  | .kUnityGfxDeviceEventBeforeReset => w
  | .kUnityGfxDeviceEventAfterReset => w

/-- The function `DoVideoUpdate`. -/
def DoVideoUpdate (w : World) (pObj : Ptr) (env : UpdateEnv) : Option World :=
  if pObj = 0 then some w
  else
    match w.heap pObj with
    | none => none
    | some p =>
      match p.UpdateVideo w.device env with
      | none => none
      | some (true, p1, dev1) =>
        some ({ w with device := dev1 }.store pObj p1.SwapExternalTexture)
      | some (false, p1, dev1) =>
        some ({ w with device := dev1 }.store pObj p1)

/-- The function `StartFramebuffer`, on the global framebuffer. -/
def StartFramebuffer (fb : FrameBuffer) (dev : Device) (p : VideoPlayerImpl)
    (env : StartEnv) : Option (Bool × FrameBuffer × Device) :=
  match p.GetDrawableExternalTexture with
  | none => none
  | some texture =>
    let r :=
      if ExternalTexture.opNe fb.GetExternalTexture texture then
        fb.ReInitialize dev texture env.reinit
      else (true, fb, dev)
    match r with
    | (true, fb1, dev1) => some (fb1.Bind dev1 env.bind)
    | (false, fb1, dev1) => some (false, fb1, dev1)

/-- The GL state the six `glGet` queries of `SetGraphicsState` read. -/
def Device.graphicsState (dev : Device) : GraphicsState :=
  { Cullface := dev.cullFace
    Blend := dev.blend
    DepthFunc := dev.depthFunc
    DepthTest := dev.depthTest
    DepthMask := dev.depthMask
    Viewport := dev.viewport }

/-- The function `SetGraphicsState`.  `oldState` is `none` for a null pointer and
`some s` for a pointer to a struct holding `s`; the struct after the call is
returned.  `glViewport` rejects a negative width or height and then changes nothing. -/
def SetGraphicsState (dev : Device) (newState : GraphicsState) (oldState : Option GraphicsState) :
    Device × Option GraphicsState :=
  let saved := oldState.map fun _ => dev.graphicsState
  let dev1 := if oldState.isSome then dev.issue [Call.getGraphicsState] else dev
  ({ dev1 with
      cullFace := newState.Cullface
      blend := newState.Blend
      depthTest := newState.DepthTest
      depthMask := newState.DepthMask
      depthFunc := newState.DepthFunc
      viewport :=
        if newState.Viewport.2.2.1 < 0 ∨ newState.Viewport.2.2.2 < 0 then dev1.viewport
        else newState.Viewport
      calls := dev1.calls ++ [Call.setGraphicsState newState] },
    saved)

/-- The function `GetTextureData`: the copy pass of one render operation. -/
def GetTextureData (w : World) (pObj : Ptr) (view : Int) (env : RenderEnv) : Option World :=
  match w.heap pObj with
  | none => none
  | some p =>
    match p.GetVideoTextureId w.device env.videoTextureId with
    | none => none
    | some (id, dev0) =>
      let w0 := { w with device := dev0 }
      if toGLint id ≤ 0 then some w0
      else if (match p.GetVideoPlayer with
               | none => true
               | some holder => !(holder.IsVideoReady env.jniReady)) then some w0
      else
        match p.GetDrawableExternalTexture with
        | none => none
        | some texture =>
          if texture.GetTexture = 0 then some w0
          else if !env.isTexture then some w0
          else if !p.IsNewFrameAvailable then some w0
          else
            let gs : GraphicsState :=
              { Cullface := false
                Blend := false
                DepthFunc := GL_LEQUAL
                DepthTest := true
                DepthMask := false
                Viewport := (0, 0, texture.GetWidth, texture.GetHeight) }
            let (dev1, oldState) := SetGraphicsState dev0 gs (some gs)
            match StartFramebuffer w.g_framebuffer dev1 p env.start with
            | none => none
            | some (true, fb1, dev2) =>
              match p.DrawVideo (dev2.issue [Call.clear]) view env.drawTextureId with
              | none => none
              | some dev3 =>
                let dev4 := dev3.issue [Call.bindFramebuffer 0]
                let p1 := p.FrameDrawn
                some ({ w with
                  g_GraphicsState := gs
                  g_framebuffer := fb1
                  device := (SetGraphicsState dev4 (oldState.getD gs) none).1 }.store pObj p1)
            | some (false, fb1, dev2) =>
              some { w with
                g_GraphicsState := gs
                g_framebuffer := fb1
                device := (SetGraphicsState dev2 (oldState.getD gs) none).1 }

/-- The function `OnRenderEvent`, the entry point the engine calls on the render
thread.  The two reads of the GL error flag only write to the log file. -/
def OnRenderEvent (w : World) (eventID : Int) (env : EventEnv) : Option World :=
  if eventID = EVENT_UE4INITIALIZE then
    some (OnGraphicsDeviceEvent w UnityGfxDeviceEventType.kUnityGfxDeviceEventInitialize)
  else
    let (w1, pObj) := VideoPlayerImpl.GetInstance w eventID
    let operation := VideoPlayerImpl.EventOperation eventID
    if pObj = 0 then some w1
    else if operation = EVENT_INITIALIZE then
      match w1.heap pObj with
      | none => none
      | some p =>
        let (p1, dev1) := p.CreateVideoTexture w1.device w1.video_texture_class env.create
        some ({ w1 with device := dev1 }.store pObj p1)
    else if operation = EVENT_UPDATE then DoVideoUpdate w1 pObj env.update
    else if operation = EVENT_SHUTDOWN then some w1
    else if operation = EVENT_RENDER_MONO then
      GetTextureData w1 pObj VideoQuadScreen.MONO_VIEW env.render
    else if operation = EVENT_RENDER_LEFT then
      GetTextureData w1 pObj VideoQuadScreen.LEFT_EYE_VIEW env.render
    else if operation = EVENT_RENDER_RIGHT then
      GetTextureData w1 pObj VideoQuadScreen.RIGHT_EYE_VIEW env.render
    else if operation = EVENT_RENDER_INVERTED_MONO then
      GetTextureData w1 pObj VideoQuadScreen.INVERTED_MONO_VIEW env.render
    else some w1

/-! ## `gvrvideo_unity.cc`: the exported functions that take a player handle -/

/-- The object a member function is called on through the pointer `ptr`: a call
through a null pointer, or through a pointer to no live object, is undefined. -/
def World.deref (w : World) (ptr : Ptr) : Option VideoPlayerImpl :=
  if ptr = 0 then none else w.heap ptr

/-- The exported function `SetVideoPlayerSupportClassname`; it has no test of the
handle. -/
def SetVideoPlayerSupportClassname (w : World) (ptr : Ptr) (clzname created : Ptr) :
    Option (Bool × World) :=
  match w.deref ptr with
  | none => none
  | some p =>
    some ((p.SetSupportClassname clzname created).1,
      w.store ptr (p.SetSupportClassname clzname created).2)

/-- The exported function `GetRawPlayer`; it tests neither the handle nor the
holder. -/
def GetRawPlayer (w : World) (ptr : Ptr) : Option Ptr :=
  match w.deref ptr with
  | none => none
  | some p =>
    match p.GetVideoPlayer with
    | none => none
    | some holder => some holder.GetRawObject

/-- The exported function `SetOnVideoEventCallback`. -/
def SetOnVideoEventCallback (w : World) (ptr : Ptr) (callback cb_data : Ptr) : Option World :=
  if ptr = 0 then some w
  else
    match w.heap ptr with
    | none => none
    | some p => some (w.store ptr (p.SetOnEventCallback callback cb_data))

/-- The exported function `SetOnExceptionCallback`. -/
def SetOnExceptionCallback (w : World) (ptr : Ptr) (callback cb_data : Ptr) : Option World :=
  if ptr = 0 then some w
  else
    match w.heap ptr with
    | none => none
    | some p => some (w.store ptr (p.SetOnExceptionCallback callback cb_data))

/-- The exported function `GetRenderableTextureId`. -/
def GetRenderableTextureId (w : World) (ptr : Ptr) : Option Ptr :=
  if ptr = 0 then some 0
  else
    match w.heap ptr with
    | none => none
    | some p => p.GetRenderableExternalTexture.map ExternalTexture.GetTexture

/-- The exported function `GetExternalSurfaceTextureId`. -/
def GetExternalSurfaceTextureId (w : World) (ptr : Ptr) (jniResult : Int) :
    Option (Int × World) :=
  if ptr = 0 then some (0, w)
  else
    match w.heap ptr with
    | none => none
    | some p =>
      (p.GetVideoTextureId w.device jniResult).map fun r =>
        (toGLint r.1, { w with device := r.2 })

/-- The exported function `GetVideoMatrix`: the buffer `vMat` after the call.
`memcpy` writes 16 floats, so a shorter buffer is undefined. -/
def GetVideoMatrix (w : World) (ptr : Ptr) (vMat : List Rat) : Option (List Rat) :=
  if ptr = 0 then some vMat
  else
    match w.heap ptr with
    | none => none
    | some p =>
      if vMat.length < 16 then none
      else some (p.GetVideoMatrix.take 16 ++ vMat.drop 16)

/-- The exported function `GetVideoTimestampNs`. -/
def GetVideoTimestampNs (w : World) (ptr : Ptr) : Option Int :=
  if ptr = 0 then some (-1)
  else (w.heap ptr).map VideoPlayerImpl.GetVideoTimestampNs

/-- The exported function `InitVideoPlayer`; the result is the handle. -/
def InitVideoPlayer (w : World) (ptr : Ptr) (useExisting : Bool) (env : InitPlayerEnv) :
    Option (Ptr × World) :=
  if ptr = 0 then some (0, w)
  else
    match w.heap ptr with
    | none => none
    | some p =>
      (p.CreateVideoPlayer w.device useExisting env).map fun r =>
        (ptr, { w with device := r.2 }.store ptr r.1)

/-- The exported function `SetInitialResolution`. -/
def SetInitialResolution (w : World) (ptr : Ptr) (initialResolution : Int) : Option World :=
  if ptr = 0 then some w
  else
    match w.heap ptr with
    | none => none
    | some p => some (w.store ptr (p.SetInitialResolution initialResolution))

/-- The exported function `IsVideoReady`. -/
def IsVideoReady (w : World) (ptr : Ptr) (jni : PlayerEnv) : Option Bool :=
  if ptr = 0 then some false
  else
    match w.heap ptr with
    | none => none
    | some p =>
      match p.GetVideoPlayer with
      | none => some false
      | some holder => some (holder.IsVideoReady jni.isVideoReady)

/-- The exported function `IsVideoPaused`. -/
def IsVideoPaused (w : World) (ptr : Ptr) (jni : PlayerEnv) : Option Bool :=
  if ptr = 0 then some false
  else
    match w.heap ptr with
    | none => none
    | some p =>
      match p.GetVideoPlayer with
      | none => some false
      | some holder => some (holder.IsVideoPaused jni)

/-- The shape shared by the exported functions that test the handle, return
`sentinel` for a null handle, -1 for a player without holder and the value of a
holder method otherwise. -/
def guardedGetter (w : World) (ptr : Ptr) (sentinel : Int)
    (method : VideoPlayerHolder → Option Int) : Option Int :=
  if ptr = 0 then some sentinel
  else
    match w.heap ptr with
    | none => none
    | some p =>
      match p.GetVideoPlayer with
      | none => some (-1)
      | some holder => method holder

/-- The exported function `GetPlayerState`. -/
def GetPlayerState (w : World) (ptr : Ptr) (jni : PlayerEnv) : Option Int :=
  guardedGetter w ptr (-1) fun holder => holder.GetPlaybackState jni

/-- The exported function `GetDuration`. -/
def GetDuration (w : World) (ptr : Ptr) (jni : PlayerEnv) : Option Int :=
  guardedGetter w ptr (-2) fun holder => holder.GetDuration jni

/-- The exported function `GetBufferedPosition`. -/
def GetBufferedPosition (w : World) (ptr : Ptr) (jni : PlayerEnv) : Option Int :=
  guardedGetter w ptr (-2) fun holder => holder.GetBufferedPosition jni

/-- The exported function `GetCurrentPosition`. -/
def GetCurrentPosition (w : World) (ptr : Ptr) (jni : PlayerEnv) : Option Int :=
  guardedGetter w ptr (-2) fun holder => holder.GetCurrentPosition jni

/-- The exported function `SetCurrentPosition`; the position is not part of the
model. -/
def SetCurrentPosition (w : World) (ptr : Ptr) : Option World :=
  if ptr = 0 then some w
  else
    match w.heap ptr with
    | none => none
    | some p =>
      match p.GetVideoPlayer with
      | none => some w
      | some holder =>
        (holder.SetCurrentPosition w.device).map fun dev => { w with device := dev }

/-- The exported function `GetBufferedPercentage`. -/
def GetBufferedPercentage (w : World) (ptr : Ptr) (jni : PlayerEnv) : Option Int :=
  guardedGetter w ptr (-2) fun holder => holder.GetBufferedPercentage jni

/-- The exported function `PlayVideo`. -/
def PlayVideo (w : World) (ptr : Ptr) (jni : PlayerEnv) : Option Int :=
  guardedGetter w ptr (-2) fun holder => holder.PlayVideo jni

/-- The exported function `PauseVideo`. -/
def PauseVideo (w : World) (ptr : Ptr) (jni : PlayerEnv) : Option Int :=
  guardedGetter w ptr (-2) fun holder => holder.PauseVideo jni

/-- The exported function `GetWidth`. -/
def GetWidth (w : World) (ptr : Ptr) (jni : PlayerEnv) : Option Int :=
  guardedGetter w ptr (-2) fun holder => some (holder.GetWidth jni)

/-- The exported function `GetHeight`. -/
def GetHeight (w : World) (ptr : Ptr) (jni : PlayerEnv) : Option Int :=
  guardedGetter w ptr (-2) fun holder => some (holder.GetHeight jni)

/-- The exported function `GetMaxVolume`. -/
def GetMaxVolume (w : World) (ptr : Ptr) (jni : PlayerEnv) : Option Int :=
  guardedGetter w ptr (-2) fun holder => some (holder.GetMaxVolume jni)

/-- The exported function `GetCurrentVolume`. -/
def GetCurrentVolume (w : World) (ptr : Ptr) (jni : PlayerEnv) : Option Int :=
  guardedGetter w ptr (-2) fun holder => some (holder.GetCurrentVolume jni)

/-- The exported function `SetCurrentVolume`: the test of the handle only writes to
the log file, the call `pObj->GetVideoPlayer()` follows in every case.  The volume is
not part of the model. -/
def SetCurrentVolume (w : World) (ptr : Ptr) : Option World :=
  match w.deref ptr with
  | none => none
  | some p =>
    match p.GetVideoPlayer with
    | none => some w
    | some holder => some { w with device := holder.SetCurrentVolume w.device }

/-- The exported function `GetTrackCount`: the test of the handle only writes to the
log file. -/
def GetTrackCount (w : World) (ptr : Ptr) (jni : PlayerEnv) (rendererIndex : Int) :
    Option Int :=
  match w.deref ptr with
  | none => none
  | some p =>
    match p.GetVideoPlayer with
    | none => some 0
    | some holder => some (holder.GetTrackCount jni rendererIndex)

/-- The exported function `GetTrackInfo`: the test of the handle only writes to the
log file. -/
def GetTrackInfo (w : World) (ptr : Ptr) (jni : PlayerEnv) (rendererIndex : Int) :
    Option TrackInfoPtr :=
  match w.deref ptr with
  | none => none
  | some p =>
    match p.GetVideoPlayer with
    | none => some none
    | some holder => some (holder.GetTrackInfo jni rendererIndex)

/-- The exported function `GetStereoMode`: the test of the handle only writes to the
log file. -/
def GetStereoMode (w : World) (ptr : Ptr) (jni : PlayerEnv) : Option Int :=
  match w.deref ptr with
  | none => none
  | some p =>
    match p.GetVideoPlayer with
    | none => some (-1)
    | some holder => some (holder.GetStereoMode jni)

/-- The exported function `HasProjectionData`: the test of the handle only writes to
the log file. -/
def HasProjectionData (w : World) (ptr : Ptr) (jni : PlayerEnv) : Option Bool :=
  match w.deref ptr with
  | none => none
  | some p =>
    match p.GetVideoPlayer with
    | none => some false
    | some holder => some (holder.HasProjectionData jni)

/-- The exported function `ReleaseTrackInfo`: the test of the handle only writes to
the log file. -/
def ReleaseTrackInfo (w : World) (ptr : Ptr) (info : TrackInfoPtr) (ct : Int) : Option World :=
  match w.deref ptr with
  | none => none
  | some p =>
    match p.GetVideoPlayer with
    | none => some w
    | some holder =>
      (holder.ReleaseTrackInfo w.device info ct).map fun dev => { w with device := dev }

/-- The answers of a Java player that plays a 1920 x 1080 video with one track. -/
def somePlayerEnv : PlayerEnv :=
  { isVideoReady := true
    isPaused := false
    playbackState := 4
    duration := 60000
    bufferedPosition := 5000
    currentPosition := 1000
    bufferedPercentage := 8
    playVideo := 0
    pauseVideo := 0
    width := 1920
    height := 1080
    maxVolume := 15
    currentVolume := 7
    trackCount := fun _ => 1
    track := fun _ _ =>
      { Index := 0, BitRate := 128000, FrameRate := 30, Width := 1920, Height := 1080,
        MimeType := 41, DisplayName := 42, Language := 43, Name := 44, Channels := 2,
        SampleRate := 48000 }
    stereoMode := 0
    projectionSize := 0 }

/-! ## Call sequences on one player -/

/-- A call of one of the ring methods of a player. -/
inductive RingOp where
  | setExternalTextures (texture_ids : List Int) (size w h : Int)
  | swapExternalTexture
  | frameDrawn
deriving DecidableEq, Repr

/-- The effect of one ring method. -/
def RingOp.apply (op : RingOp) (p : VideoPlayerImpl) : Option VideoPlayerImpl :=
  match op with
  | .setExternalTextures ids size w h => p.SetExternalTextures ids size w h
  | .swapExternalTexture => some p.SwapExternalTexture
  | .frameDrawn => some p.FrameDrawn

/-- Runs a sequence of ring methods; the second component is the ring size that
was in force at the most recent rotation (a `SwapExternalTexture` on a non-empty
ring), `none` before the first one. -/
def runRingOps : List RingOp → VideoPlayerImpl × Option Int →
    Option (VideoPlayerImpl × Option Int)
  | [], x => some x
  | op :: ops, (p, last) =>
    match op.apply p with
    | none => none
    | some p1 =>
      runRingOps ops
        (p1, if op = RingOp.swapExternalTexture ∧ 0 < p.num_textures
             then some p.num_textures else last)

/-- A player with a ring of three textures, as `SetExternalTextures` leaves it,
whose drawable index is 1. -/
def ringPlayer : VideoPlayerImpl :=
  { VideoPlayerImpl.construct 200 { callback_data := 0, exceptioncallback_data := 0,
                                    videoTimestampNs := 0 } with
    num_textures := 3
    externalTexture := some [⟨11, 64, 32⟩, ⟨12, 64, 32⟩, ⟨13, 64, 32⟩]
    renderableTexture := 0
    drawableTexture := 1 }

/-! ## Call sequences on the process state -/

/-- Applies a method to the live object at `ptr`; a pointer to no live object is
undefined. -/
def World.onPlayer (w : World) (ptr : Ptr) (f : VideoPlayerImpl → VideoPlayerImpl) :
    Option World :=
  match w.heap ptr with
  | none => none
  | some p => some (w.store ptr (f p))

/-- An operation on the process state: a ring method of the player at `ptr`, or a
render event. -/
inductive Step where
  | frameDrawn (ptr : Ptr)
  | setExternalTextures (ptr : Ptr) (texture_ids : List Int) (size w h : Int)
  | swapExternalTexture (ptr : Ptr)
  | renderEvent (eventID : Int) (env : EventEnv)

/-- The effect of one operation. -/
def Step.apply (w : World) : Step → Option World
  | .frameDrawn ptr => w.onPlayer ptr VideoPlayerImpl.FrameDrawn
  | .setExternalTextures ptr ids size tw th => SetExternalTextures w ptr ids size tw th
  | .swapExternalTexture ptr => w.onPlayer ptr VideoPlayerImpl.SwapExternalTexture
  | .renderEvent id env => OnRenderEvent w id env

/-- Runs a sequence of operations. -/
def runSteps : World → List Step → Option World
  | w, [] => some w
  | w, st :: rest =>
    match st.apply w with
    | none => none
    | some w1 => runSteps w1 rest

/-- Does the UPDATE step of this render event rotate a non-empty ring of the player
at `ptr`: the event is addressed to `ptr`, which is not null, its operation is
`EVENT_UPDATE`, `UpdateVideo` returns true and the ring is not empty. -/
def eventRotates (w : World) (ptr : Ptr) (eventID : Int) (env : EventEnv) : Bool :=
  decide (eventID ≠ EVENT_UE4INITIALIZE) &&
  decide ((VideoPlayerImpl.GetInstance w eventID).2 = ptr) &&
  decide (ptr ≠ 0) &&
  decide (VideoPlayerImpl.EventOperation eventID = EVENT_UPDATE) &&
  (match w.heap ptr with
   | none => false
   | some p =>
     decide (0 < p.num_textures) &&
     (match p.UpdateVideo w.device env.update with
      | some (true, _, _) => true
      | _ => false))

/-- Does the operation rotate a non-empty ring of the player at `ptr`? -/
def Step.rotates (w : World) (ptr : Ptr) : Step → Bool
  | .frameDrawn _ => false
  | .setExternalTextures _ _ _ _ _ => false
  | .swapExternalTexture q =>
    decide (q = ptr) &&
    (match w.heap ptr with
     | none => false
     | some p => decide (0 < p.num_textures))
  | .renderEvent id env => eventRotates w ptr id env

/-- No operation of the sequence rotates a non-empty ring of the player at `ptr`. -/
def noRotation (ptr : Ptr) : World → List Step → Bool
  | _, [] => true
  | w, st :: rest =>
    !(st.rotates w ptr) &&
    (match st.apply w with
     | none => true
     | some w1 => noRotation ptr w1 rest)

/-- Is the call a draw call? -/
def Call.isDraw : Call → Bool
  | .drawArrays _ => true
  | _ => false

/-- Did the step from `w` to `w1` issue a draw call? -/
def issuedDraw (w w1 : World) : Bool :=
  (w1.device.calls.drop w.device.calls.length).any Call.isDraw

/-- What is known of the copy passes of one player along a sequence of render
events: the drawable index at the most recent event that drew (`lastCopy`), the
destination texture of the framebuffer at that moment (`target`), and the number
of rotations of the ring since then. -/
structure CopyTrack where
  lastCopy : Option Int
  target : Option ExternalTexture
  rotations : Nat
deriving DecidableEq, Repr

/-- Updates the record over one render event from `w` to `w1`. -/
def CopyTrack.next (t : CopyTrack) (ptr : Ptr) (w : World) (eventID : Int) (env : EventEnv)
    (w1 : World) : CopyTrack :=
  if (VideoPlayerImpl.GetInstance w eventID).2 = ptr ∧ issuedDraw w w1 = true then
    { lastCopy := (w.heap ptr).map VideoPlayerImpl.drawableTexture
      target := some w1.g_framebuffer.GetExternalTexture
      rotations := 0 }
  else if eventRotates w ptr eventID env = true then
    { t with rotations := t.rotations + 1 }
  else t

/-- Runs a sequence of render events, keeping the record of the copy passes of the
player at `ptr`. -/
def runEvents (ptr : Ptr) : List (Int × EventEnv) → World × CopyTrack →
    Option (World × CopyTrack)
  | [], x => some x
  | (id, env) :: rest, (w, t) =>
    match OnRenderEvent w id env with
    | none => none
    | some w1 => runEvents ptr rest (w1, t.next ptr w id env w1)

/-! ## Call sequences on the exported interface -/

/-- A call of the exported interface.  `playerMethod ptr p1` stands for every entry
point not listed (`InitVideoPlayer`, `SetInitialResolution`, the callback setters
and so on): it replaces the members of the live object at `ptr` by those of `p1`,
except `eventBase`, which only the constructor assigns. -/
inductive ApiCall where
  | createVideoPlayer (addr : Ptr) (u : Uninit)
  | destroyVideoPlayer (ptr : Ptr)
  | setExternalTextures (ptr : Ptr) (texture_ids : List Int) (size w h : Int)
  | onRenderEvent (eventID : Int) (env : EventEnv)
  | playerMethod (ptr : Ptr) (p1 : VideoPlayerImpl)

/-- The effect of one call of the exported interface. -/
def ApiCall.apply (w : World) : ApiCall → Option World
  | .createVideoPlayer addr u => (CreateVideoPlayer w addr u).map Prod.fst
  | .destroyVideoPlayer ptr => DestroyVideoPlayer w ptr
  | .setExternalTextures ptr ids size tw th => SetExternalTextures w ptr ids size tw th
  | .onRenderEvent id env => OnRenderEvent w id env
  | .playerMethod ptr p1 =>
    match w.heap ptr with
    | none => none
    | some p => if p1.eventBase = p.eventBase then some (w.store ptr p1) else none

/-- Runs a sequence of calls of the exported interface. -/
def runApi : World → List ApiCall → Option World
  | w, [] => some w
  | w, c :: rest =>
    match c.apply w with
    | none => none
    | some w1 => runApi w1 rest

/-- The number of `CreateVideoPlayer` calls in a sequence. -/
def creations : List ApiCall → Nat
  | [] => 0
  | .createVideoPlayer _ _ :: rest => creations rest + 1
  | _ :: rest => creations rest

/-- The sequence that `n` times creates a player at address 1 and destroys it. -/
def churn (u : Uninit) : Nat → List ApiCall
  | 0 => []
  | n + 1 => ApiCall.createVideoPlayer 1 u :: ApiCall.destroyVideoPlayer 1 :: churn u n

/-- The registry is consistent and no event base has overflowed: the counter is
between 1 and 21474836, null is not a live object, every live object carries the
event base `100 * n` of the index `n ≥ 2` it is registered under, and every
non-null registry entry is a live object with that event base. -/
def RegistryOK (w : World) : Prop :=
  1 ≤ w.g_instanceNumber ∧ w.g_instanceNumber ≤ 21474836 ∧ w.heap 0 = none ∧
  (∀ ptr s, w.heap ptr = some s →
    ∃ n, 2 ≤ n ∧ n ≤ w.g_instanceNumber ∧ s.eventBase = 100 * n ∧
      w.g_instances n = some ptr) ∧
  (∀ n ptr, w.g_instances n = some ptr → ptr ≠ 0 →
    2 ≤ n ∧ n ≤ w.g_instanceNumber ∧ ∃ s, w.heap ptr = some s ∧ s.eventBase = 100 * n)

/-! ## Concrete states used as examples -/

/-- An environment in which the decoder has a new frame, every GL object is valid
and no GL error occurs. -/
def goodEnv : EventEnv :=
  { create := { newGlobalRef := 5, surfaceTexture := 6 }
    update := { updateTexture := true, timestampNs := 1000, jmat := some (some Mat4Identity) }
    render :=
      { videoTextureId := 9
        jniReady := true
        isTexture := true
        start :=
          { reinit := { genId := 3, status := GL_FRAMEBUFFER_COMPLETE, endError := GL_NO_ERROR }
            bind := { init := { genId := 4, status := GL_FRAMEBUFFER_COMPLETE,
                                endError := GL_NO_ERROR }
                      bindError := GL_NO_ERROR } }
        drawTextureId := 9 } }

/-- A player, numbered 2, with a ring of two textures, a decoder and a video texture. -/
def readyPlayer : VideoPlayerImpl :=
  { VideoPlayerImpl.construct 200 { callback_data := 0, exceptioncallback_data := 0,
                                    videoTimestampNs := 0 } with
    video_player_obj := some { playerObj := 7 }
    video_texture_obj := 5
    num_textures := 2
    externalTexture := some [⟨11, 64, 32⟩, ⟨12, 64, 32⟩] }

/-- The GL state of the engine in the examples. -/
def engineDevice : Device :=
  { cullFace := true, blend := true, depthFunc := 513, depthTest := true, depthMask := true,
    viewport := (0, 0, 1920, 1080), calls := [] }

/-- A process with one live player, at address 1 and registered under index 2. -/
def readyWorld : World :=
  { g_instances := fun n => if n = 2 then some 1 else none
    g_instanceNumber := 2
    heap := fun q => if q = 1 then some readyPlayer else none
    video_texture_class := 8
    g_framebuffer := { framebufferID := 0, externalTexture := ExternalTexture.default }
    g_GraphicsState := engineDevice.graphicsState
    device := engineDevice }

/-- An environment in which the decoder has no new frame. -/
def idleEnv : EventEnv :=
  { goodEnv with update := { updateTexture := false, timestampNs := 0, jmat := none } }

/-- A sequence of operations on the player at address 1, none of which rotates a
non-empty ring. -/
def quietSteps : List Step :=
  [ Step.renderEvent 202 goodEnv,
    Step.setExternalTextures 1 [21, 22, 23] 3 64 32,
    Step.renderEvent 201 idleEnv,
    Step.frameDrawn 1,
    Step.renderEvent 200 goodEnv,
    Step.renderEvent 204 goodEnv ]

/-- The members the constructor leaves uninitialised, in the examples. -/
def someUninit : Uninit :=
  { callback_data := 0, exceptioncallback_data := 0, videoTimestampNs := 0 }

/-- The state of the process when the library has been loaded, in the examples. -/
def freshWorld : World :=
  World.initial 8 { framebufferID := 0, externalTexture := ExternalTexture.default }
    engineDevice.graphicsState engineDevice

/-- Three render events for the player at address 1: an UPDATE that rotates, a
RENDER_MONO that copies, and a second UPDATE that rotates. -/
def copyEvents : List (Int × EventEnv) := [(201, goodEnv), (202, goodEnv), (201, goodEnv)]

/-- A sequence of ring methods whose last rotation happens on a ring of three. -/
def ringOps : List RingOp :=
  [ RingOp.setExternalTextures [11, 12, 13] 3 64 32,
    RingOp.swapExternalTexture,
    RingOp.frameDrawn,
    RingOp.setExternalTextures [11] 1 64 32 ]

/-- Two players are created, the first is destroyed. -/
def twoPlayers : List ApiCall :=
  [ ApiCall.createVideoPlayer 1 someUninit,
    ApiCall.createVideoPlayer 2 someUninit,
    ApiCall.destroyVideoPlayer 1 ]

/-- The record with which a run of render events starts: no copy pass yet. -/
def CopyTrack.start : CopyTrack := { lastCopy := none, target := none, rotations := 0 }

/-- The state and the record after the events `copyEvents`. -/
def copyResult : World × CopyTrack :=
  (runEvents 1 copyEvents (readyWorld, CopyTrack.start)).getD (readyWorld, CopyTrack.start)

/-- The state after the ring methods `ringOps` on a fresh player. -/
def ringResult : VideoPlayerImpl × Option Int :=
  (runRingOps ringOps (VideoPlayerImpl.construct 200 someUninit, none)).getD (ringPlayer, none)

/-- The process after the calls `twoPlayers`. -/
def twoPlayersWorld : World := (runApi freshWorld twoPlayers).getD freshWorld

/-- The process after the operations `quietSteps`. -/
def quietWorld : World := (runSteps readyWorld quietSteps).getD readyWorld

/-- The process `readyWorld` after an UPDATE event that rotated the ring of its
player: the new-frame flag is set. -/
def rotatedWorld : World := (OnRenderEvent readyWorld 201 goodEnv).getD readyWorld

/-- The player of `rotatedWorld`. -/
def rotatedPlayer : VideoPlayerImpl := (rotatedWorld.heap 1).getD readyPlayer

/-- An environment in which the framebuffer object that `ReInitialize` creates is
incomplete (status `GL_FRAMEBUFFER_INCOMPLETE_ATTACHMENT`). -/
def incompleteEnv : RenderEnv :=
  { goodEnv.render with
    start :=
      { reinit := { genId := 3, status := 36054, endError := GL_NO_ERROR }
        bind := goodEnv.render.start.bind } }

/-- No live player is registered under the instance index of the event id: if the
map has an entry for the index, it points to no live object. -/
def NoLivePlayer (w : World) (id : Int) : Prop :=
  ∀ ptr, w.g_instances (Int.tdiv id 100) = some ptr → w.heap ptr = none

/-- Two players are created at the addresses 5 and 6, then 42949671 players are
created and destroyed at address 1, and a last player, the 42949674th, is created at
address 1. -/
def manyPlayers : List ApiCall :=
  [ApiCall.createVideoPlayer 5 someUninit, ApiCall.createVideoPlayer 6 someUninit] ++
    churn someUninit 42949671 ++ [ApiCall.createVideoPlayer 1 someUninit]

/-! ## Names for lists of calls and states of the copy pass -/

/-- Is the call one of the GL calls of `frame_buffer.cc`? -/
def Call.isFramebufferCall : Call → Bool
  | .genFramebuffers _ => true
  | .deleteFramebuffers _ => true
  | .bindFramebuffer _ => true
  | .bindTexture2D _ => true
  | .framebufferTexture2D _ => true
  | .drawBuffers => true
  | _ => false

/-- The GL calls with which `FrameBuffer::Initialize` creates the framebuffer object
`id` and attaches the texture `t` to it. -/
def createCalls (id : Nat) (t : ExternalTexture) : List Call :=
  [ Call.genFramebuffers id, Call.bindFramebuffer id, Call.bindTexture2D t.GetTexture,
    Call.framebufferTexture2D t.GetTexture, Call.drawBuffers ]

/-- The GL calls of `VideoQuadScreen::Draw` for a texture it accepts. -/
def drawCalls (videoTextureId : Nat) (videoTransformMatrix : List Rat) (view : Int) :
    List Call :=
  [ Call.useProgram, Call.bindTextureExternal videoTextureId,
    Call.uniformST videoTransformMatrix, Call.bindArrayBuffer view, Call.uniformMVP,
    Call.drawArrays VideoQuadScreen.kNumScreenVertices, Call.bindTextureExternal 0 ]

/-- The state `GetTextureData` forces for the copy into the texture `texture`. -/
def copyState (texture : ExternalTexture) : GraphicsState :=
  { Cullface := false
    Blend := false
    DepthFunc := GL_LEQUAL
    DepthTest := true
    DepthMask := false
    Viewport := (0, 0, texture.GetWidth, texture.GetHeight) }

/-- The JNI call with which `GetVideoTextureId` asks the surface of the player for its
texture id. -/
def textureIdQuery (p : VideoPlayerImpl) : Call :=
  Call.videoTexture p.video_texture_obj VideoTextureMethod.getVideoTextureId

/-- The device at the moment `GetTextureData` calls `StartFramebuffer`: the texture id
has been asked for, the state of the engine read and the state of the copy forced. -/
def copyEntry (w : World) (p : VideoPlayerImpl) (texture : ExternalTexture) : Device :=
  (SetGraphicsState (w.device.issue [textureIdQuery p]) (copyState texture)
    (some (copyState texture))).1

/-- A framebuffer object that exists, attached to the first texture of the ring of
`readyPlayer`. -/
def boundFramebuffer : FrameBuffer :=
  { framebufferID := 3, externalTexture := ⟨11, 64, 32⟩ }

/-- An environment in which `glGenFramebuffers` returns 4 and the new framebuffer is
complete. -/
def secondInit : InitEnv :=
  { genId := 4, status := GL_FRAMEBUFFER_COMPLETE, endError := GL_NO_ERROR }

/-! ## States and answers used as examples of the framebuffer, the update step and the ring -/

/-- An environment in which the framebuffer object that `Initialize` creates gets the
name 3 and is incomplete (status `GL_FRAMEBUFFER_INCOMPLETE_ATTACHMENT`). -/
def incompleteInit : InitEnv := { genId := 3, status := 36054, endError := GL_NO_ERROR }

/-- A framebuffer without object, for the first texture of the ring of `readyPlayer`. -/
def emptyFramebuffer : FrameBuffer :=
  { framebufferID := 0, externalTexture := ⟨11, 64, 32⟩ }

/-- An environment in which `glBindFramebuffer` raises `GL_INVALID_OPERATION`. -/
def bindErrorEnv : BindEnv := { init := secondInit, bindError := 1282 }

/-- The player `readyPlayer` with the matrix of a scaling by 2 in its cache, as an
earlier `UpdateVideo` can have left it. -/
def scaledPlayer : VideoPlayerImpl :=
  { readyPlayer with videoMatrix := [2, 0, 0, 0, 0, 2, 0, 0, 0, 0, 2, 0, 0, 0, 0, 1] }

/-- The surface has advanced and returns no matrix object. -/
def noMatrixEnv : UpdateEnv := { updateTexture := true, timestampNs := 2000, jmat := none }

/-- The player `readyPlayer` before `SetExternalTextures` has been called: it has a
decoder and a surface object, and no ring. -/
def ringlessPlayer : VideoPlayerImpl :=
  { readyPlayer with num_textures := 0, externalTexture := none }

/-- The process `readyWorld` with `ringlessPlayer` as its player. -/
def ringlessWorld : World :=
  { readyWorld with heap := fun q => if q = 1 then some ringlessPlayer else none }

/-- A ring of three is set, rotated twice and replaced by a ring of one. -/
def shrinkOps : List RingOp :=
  [ RingOp.setExternalTextures [11, 12, 13] 3 64 32,
    RingOp.swapExternalTexture,
    RingOp.swapExternalTexture,
    RingOp.setExternalTextures [11] 1 64 32 ]

/-- The player after the first three calls of `shrinkOps`. -/
def twiceRotated : VideoPlayerImpl :=
  ((runRingOps (shrinkOps.take 3) (VideoPlayerImpl.construct 200 someUninit, none)).getD
    (ringPlayer, none)).1

/-- The answers of a Java player with two tracks whose strings are all different:
41, 42, 43, 44 for track 0 and 51, 52, 53, 54 for track 1. -/
def twoTrackEnv : PlayerEnv :=
  { somePlayerEnv with
    trackCount := fun _ => 2
    track := fun _ i =>
      { Index := 0, BitRate := 128000, FrameRate := 30, Width := 1920, Height := 1080,
        MimeType := 41 + 10 * i, DisplayName := 42 + 10 * i, Language := 43 + 10 * i,
        Name := 44 + 10 * i, Channels := 2, SampleRate := 48000 } }

/-- The JNI call with which `UpdateVideo` asks the surface of the player whether it
has advanced. -/
def updateQuery (p : VideoPlayerImpl) : Call :=
  Call.videoTexture p.video_texture_obj VideoTextureMethod.updateTexture

/-- The JNI calls with which `UpdateVideo` reads the timestamp and the matrix back
from the surface of the player. -/
def readbackCalls (p : VideoPlayerImpl) : List Call :=
  [ Call.videoTexture p.video_texture_obj VideoTextureMethod.getVideoTimestampNs,
    Call.videoTexture p.video_texture_obj VideoTextureMethod.getVideoMatrix ]

/-- The `delete` calls of one round of the loop of `ReleaseTrackInfo` on the entry
`first`: one for each of its four strings that is not null. -/
def releaseCalls (first : ExoTrackInfo) : List Call :=
  ([first.Name, first.Language, first.DisplayName, first.MimeType].filter (· ≠ 0)).map
    Call.releaseString

/-! ## Relations used to state what a step leaves unchanged -/

/-- The log of `dev1` extends that of `dev` by calls none of which is a draw call. -/
def Grows (dev dev1 : Device) : Prop :=
  ∃ l, dev1.calls = dev.calls ++ l ∧ l.any Call.isDraw = false

/-- The players `p` and `p1` have the same ring, indices, flag and event base. -/
def Agree (p p1 : VideoPlayerImpl) : Prop :=
  p1.drawableTexture = p.drawableTexture ∧ p1.renderableTexture = p.renderableTexture ∧
  p1.num_textures = p.num_textures ∧ p1.externalTexture = p.externalTexture ∧
  p1.eventBase = p.eventBase ∧ p1.newFrameAvail = p.newFrameAvail

/-- What one render event from `w` to `w1` does to the player at `ptr`, whose state
goes from `s` to `s1`: the ring, its size and the event base stay; if the event
rotates the ring the indices move as in `SwapExternalTexture`, the flag is set and
nothing is drawn; otherwise the indices stay, the flag stays or is cleared, and if
the event is addressed to the player and draws, the framebuffer is bound to the
texture of the drawable slot. -/
def PlayerStep (w : World) (ptr : Ptr) (id : Int) (env : EventEnv) (w1 : World)
    (s s1 : VideoPlayerImpl) : Prop :=
  s1.externalTexture = s.externalTexture ∧ s1.eventBase = s.eventBase ∧
  s1.num_textures = s.num_textures ∧
  (eventRotates w ptr id env = true →
    s1.renderableTexture = s.drawableTexture ∧
    s1.drawableTexture = Int.tmod (wrapInt32 (s.drawableTexture + 1)) s.num_textures ∧
    s1.newFrameAvail = true ∧ issuedDraw w w1 = false) ∧
  (eventRotates w ptr id env = false →
    s1.drawableTexture = s.drawableTexture ∧ s1.renderableTexture = s.renderableTexture ∧
    (s1.newFrameAvail = s.newFrameAvail ∨ s1.newFrameAvail = false) ∧
    (issuedDraw w w1 = true → (VideoPlayerImpl.GetInstance w id).2 = ptr →
      s.GetDrawableExternalTexture = some w1.g_framebuffer.GetExternalTexture))

/-! ## Theorems -/

open VideoPlayerImpl

/-! ### Basic facts -/

theorem wrapInt32_of_range {x : Int} (h0 : -2147483648 ≤ x) (h1 : x < 2147483648) :
    wrapInt32 x = x := by
  unfold wrapInt32
  omega

theorem eq_some_getD {α : Type} (o : Option α) (d : α) (h : o.isSome = true) :
    o = some (o.getD d) := by
  cases o with
  | none => exact absurd h (by simp)
  | some x => rfl

/-! ### The ring rotation -/

theorem swap_num_textures (s : VideoPlayerImpl) :
    s.SwapExternalTexture.num_textures = s.num_textures := by
  unfold SwapExternalTexture
  split <;> rfl

theorem swap_renderable (s : VideoPlayerImpl) (hN : 0 < s.num_textures) :
    s.SwapExternalTexture.renderableTexture = s.drawableTexture := by
  unfold SwapExternalTexture
  rw [if_pos hN]

theorem swap_drawable (s : VideoPlayerImpl) (hN : 0 < s.num_textures)
    (hd : 0 ≤ s.drawableTexture) (hmax : s.drawableTexture < 2147483647) :
    s.SwapExternalTexture.drawableTexture = (s.drawableTexture + 1) % s.num_textures := by
  unfold SwapExternalTexture
  rw [if_pos hN]
  show Int.tmod (wrapInt32 (s.drawableTexture + 1)) s.num_textures = _
  rw [wrapInt32_of_range (by omega) (by omega), Int.tmod_eq_emod (by omega) (by omega)]

/-- C1: `SwapExternalTexture` on a ring of size `N = num_textures`.  If `N > 0`
(and the drawable index is a non-negative `int` below `INT_MAX`, as it is in
every state a player reaches, see `runRingOps_index`), then afterwards renderable
is the old drawable index, drawable is `(old drawable + 1) mod N`, the new-frame
flag is true and every other field is unchanged.  If `N ≤ 0` the whole state is
unchanged. -/
theorem swapExternalTexture_spec (s : VideoPlayerImpl) :
    (0 < s.num_textures → 0 ≤ s.drawableTexture → s.drawableTexture < 2147483647 →
      s.SwapExternalTexture =
        { s with
          renderableTexture := s.drawableTexture
          drawableTexture := (s.drawableTexture + 1) % s.num_textures
          newFrameAvail := true }) ∧
    (s.num_textures ≤ 0 → s.SwapExternalTexture = s) := by
  constructor
  · intro hN hd hmax
    unfold SwapExternalTexture
    rw [if_pos hN, wrapInt32_of_range (by omega) (by omega),
      Int.tmod_eq_emod (by omega) (by omega)]
  · intro hN
    unfold SwapExternalTexture
    rw [if_neg (by omega)]

/-- Witness of C1: the rotation of a ring of three textures whose drawable index is 1. -/
theorem swapExternalTexture_spec_witness :
    ringPlayer.SwapExternalTexture =
      { ringPlayer with renderableTexture := 1, drawableTexture := 2, newFrameAvail := true } :=
  (swapExternalTexture_spec ringPlayer).1 (by decide) (by decide) (by decide)

theorem swap_iterate_aux (s : VideoPlayerImpl) (h1 : 1 ≤ s.num_textures)
    (hN : s.num_textures < 2147483648) (hd0 : 0 ≤ s.drawableTexture)
    (hd1 : s.drawableTexture < s.num_textures) (k : Nat) :
    (SwapExternalTexture^[k] s).num_textures = s.num_textures ∧
    (SwapExternalTexture^[k] s).drawableTexture = (s.drawableTexture + k) % s.num_textures := by
  induction k with
  | zero =>
    simp only [Function.iterate_zero, id_eq, Nat.cast_zero, add_zero, true_and]
    exact (Int.emod_eq_of_lt hd0 hd1).symm
  | succ k ih =>
    obtain ⟨ihN, ihd⟩ := ih
    have hpos : (0 : Int) < s.num_textures := by omega
    have hlo : 0 ≤ (SwapExternalTexture^[k] s).drawableTexture := by
      rw [ihd]; exact Int.emod_nonneg _ (by omega)
    have hhi : (SwapExternalTexture^[k] s).drawableTexture < s.num_textures := by
      rw [ihd]; exact Int.emod_lt_of_pos _ hpos
    rw [Function.iterate_succ_apply']
    refine ⟨by rw [swap_num_textures, ihN], ?_⟩
    rw [swap_drawable _ (by omega) hlo (by omega), ihN, ihd, Int.emod_add_emod]
    push_cast
    rw [add_assoc]

/-- C2: for every ring size `N ≥ 1` (a C `int`), every initial drawable index `d0`
with `0 ≤ d0 < N` and every `K ≥ 1`, after `K` consecutive `SwapExternalTexture`
calls drawable is `(d0 + K) mod N` and renderable is `(d0 + K - 1) mod N`. -/
theorem swapExternalTexture_iterate (s : VideoPlayerImpl) (K : Nat)
    (h1 : 1 ≤ s.num_textures) (hN : s.num_textures < 2147483648)
    (hd0 : 0 ≤ s.drawableTexture) (hd1 : s.drawableTexture < s.num_textures)
    (hK : 1 ≤ K) :
    (SwapExternalTexture^[K] s).drawableTexture = (s.drawableTexture + K) % s.num_textures ∧
    (SwapExternalTexture^[K] s).renderableTexture =
      (s.drawableTexture + K - 1) % s.num_textures := by
  refine ⟨(swap_iterate_aux s h1 hN hd0 hd1 K).2, ?_⟩
  obtain ⟨k, rfl⟩ : ∃ k, K = k + 1 := ⟨K - 1, by omega⟩
  obtain ⟨ihN, ihd⟩ := swap_iterate_aux s h1 hN hd0 hd1 k
  rw [Function.iterate_succ_apply', swap_renderable _ (by omega), ihd]
  push_cast
  congr 1
  ring

/-- Witness of C2: four rotations of a ring of three textures from drawable index 1
end at drawable 2 and renderable 1. -/
theorem swapExternalTexture_iterate_witness :
    (SwapExternalTexture^[4] ringPlayer).drawableTexture = 2 ∧
    (SwapExternalTexture^[4] ringPlayer).renderableTexture = 1 :=
  swapExternalTexture_iterate ringPlayer 4 (by decide) (by decide) (by decide) (by decide)
    (by decide)

/-! ### Sequences of ring methods -/

theorem setExternalTextures_flag {p p1 : VideoPlayerImpl} {ids : List Int} {size w h : Int}
    (hset : p.SetExternalTextures ids size w h = some p1) :
    p1.newFrameAvail = p.newFrameAvail ∧ p1.drawableTexture = p.drawableTexture ∧
    p1.renderableTexture = p.renderableTexture ∧ p1.num_textures = size ∧
    0 ≤ size ∧ size < 2147483648 := by
  unfold VideoPlayerImpl.SetExternalTextures at hset
  split at hset
  · exact absurd hset (by simp)
  · rename_i hc
    simp only [Option.some.injEq] at hset; subst hset
    exact ⟨rfl, rfl, rfl, rfl, by omega, by omega⟩

theorem ringOp_step {op : RingOp} {p p1 : VideoPlayerImpl} {last : Option Int}
    (hap : op.apply p = some p1)
    (hd : 0 ≤ p.drawableTexture ∧ p.drawableTexture < 2147483647)
    (hn : p.num_textures < 2147483648)
    (hl : ∀ N, last = some N → 2 ≤ N → p.renderableTexture ≠ p.drawableTexture) :
    (0 ≤ p1.drawableTexture ∧ p1.drawableTexture < 2147483647) ∧
    p1.num_textures < 2147483648 ∧
    (∀ N, (if op = RingOp.swapExternalTexture ∧ 0 < p.num_textures
            then some p.num_textures else last) = some N → 2 ≤ N →
      p1.renderableTexture ≠ p1.drawableTexture) := by
  cases op with
  | setExternalTextures ids size w h =>
    simp only [RingOp.apply] at hap
    obtain ⟨-, h1, h2, h3, -, h5⟩ := setExternalTextures_flag hap
    refine ⟨by rw [h1]; exact hd, by rw [h3]; exact h5, fun N hN h2N => ?_⟩
    simp only [reduceCtorEq, false_and, if_false] at hN
    rw [h1, h2]; exact hl N hN h2N
  | frameDrawn =>
    simp only [RingOp.apply, Option.some.injEq] at hap; subst hap
    refine ⟨hd, hn, fun N hN h2N => ?_⟩
    simp only [reduceCtorEq, false_and, if_false] at hN
    exact hl N hN h2N
  | swapExternalTexture =>
    simp only [RingOp.apply, Option.some.injEq] at hap; subst hap
    by_cases hpos : 0 < p.num_textures
    · have hdr := swap_drawable p hpos hd.1 hd.2
      have hre := swap_renderable p hpos
      have hlo := Int.emod_nonneg (p.drawableTexture + 1) (show p.num_textures ≠ 0 by omega)
      have hhi := Int.emod_lt_of_pos (p.drawableTexture + 1) hpos
      refine ⟨by rw [hdr]; omega, by rw [swap_num_textures]; exact hn, fun N hN h2N => ?_⟩
      simp only [true_and, hpos, if_true, Option.some.injEq] at hN
      subst hN
      rw [hdr, hre]
      intro heq
      by_cases hlt : p.drawableTexture + 1 < p.num_textures
      · rw [Int.emod_eq_of_lt (by omega) hlt] at heq; omega
      · by_cases hge : p.drawableTexture + 1 = p.num_textures
        · rw [hge, Int.emod_self] at heq; omega
        · omega
    · have hsw : p.SwapExternalTexture = p := by
        unfold SwapExternalTexture; rw [if_neg hpos]
      rw [hsw]
      refine ⟨hd, hn, fun N hN h2N => ?_⟩
      simp only [hpos, and_false, if_false] at hN
      exact hl N hN h2N

theorem runRingOps_inv (ops : List RingOp) :
    ∀ (p p1 : VideoPlayerImpl) (last last1 : Option Int),
      runRingOps ops (p, last) = some (p1, last1) →
      (0 ≤ p.drawableTexture ∧ p.drawableTexture < 2147483647) →
      p.num_textures < 2147483648 →
      (∀ N, last = some N → 2 ≤ N → p.renderableTexture ≠ p.drawableTexture) →
      (0 ≤ p1.drawableTexture ∧ p1.drawableTexture < 2147483647) ∧
      p1.num_textures < 2147483648 ∧
      (∀ N, last1 = some N → 2 ≤ N → p1.renderableTexture ≠ p1.drawableTexture) := by
  induction ops with
  | nil =>
    intro p p1 last last1 hrun hd hn hl
    simp only [runRingOps, Option.some.injEq, Prod.mk.injEq] at hrun
    obtain ⟨rfl, rfl⟩ := hrun
    exact ⟨hd, hn, hl⟩
  | cons op rest ih =>
    intro p p1 last last1 hrun hd hn hl
    simp only [runRingOps] at hrun
    cases hap : op.apply p with
    | none => rw [hap] at hrun; exact absurd hrun (by simp)
    | some p2 =>
      rw [hap] at hrun
      obtain ⟨hd2, hn2, hl2⟩ := ringOp_step hap hd hn hl
      exact ih p2 p1 _ last1 hrun hd2 hn2 hl2

/-- In every state a freshly constructed player reaches through its ring methods the
drawable index is a non-negative `int` below `INT_MAX`. -/
theorem runRingOps_index (eventBase : Int) (u : Uninit) (ops : List RingOp)
    (p : VideoPlayerImpl) (last : Option Int)
    (hrun : runRingOps ops (VideoPlayerImpl.construct eventBase u, none) = some (p, last)) :
    0 ≤ p.drawableTexture ∧ p.drawableTexture < 2147483647 :=
  (runRingOps_inv ops _ p none last hrun
    ⟨le_refl _, show (0 : Int) < 2147483647 by decide⟩
    (show (0 : Int) < 2147483648 by decide) (fun N h => absurd h (by simp))).1

/-- C5, as amended: in every state a freshly constructed player reaches through
`SetExternalTextures`, `SwapExternalTexture` and `FrameDrawn`, if the most recent
rotation was performed on a ring of size `N ≥ 2` then renderable differs from
drawable, whatever `SetExternalTextures` calls came before or after it. -/
theorem renderable_ne_drawable (eventBase : Int) (u : Uninit) (ops : List RingOp)
    (p : VideoPlayerImpl) (N : Int)
    (hrun : runRingOps ops (VideoPlayerImpl.construct eventBase u, none) = some (p, some N))
    (hN : 2 ≤ N) : p.renderableTexture ≠ p.drawableTexture :=
  (runRingOps_inv ops _ p none (some N) hrun
    ⟨le_refl _, show (0 : Int) < 2147483647 by decide⟩
    (show (0 : Int) < 2147483648 by decide) (fun M h => absurd h (by simp))).2.2 N rfl hN

/-- Witness of C5: a rotation on a ring of three, followed by `FrameDrawn` and a
`SetExternalTextures` that shrinks the ring to one texture. -/
theorem renderable_ne_drawable_witness :
    ringResult.1.renderableTexture ≠ ringResult.1.drawableTexture :=
  renderable_ne_drawable 200 someUninit ringOps ringResult.1 3
    (eq_some_getD _ (ringPlayer, none) rfl) (by decide)

/-- Counterexample to C5 as stated: a rotation on a ring of one texture followed by a
`SetExternalTextures` of two textures gives a state with ring size 2, reached after
a rotation, in which renderable and drawable are both 0. -/
theorem renderable_eq_drawable_after_resize :
    (runRingOps
      [ RingOp.setExternalTextures [11] 1 64 32,
        RingOp.swapExternalTexture,
        RingOp.setExternalTextures [11, 12] 2 64 32 ]
      (VideoPlayerImpl.construct 200 someUninit, none)).map
      (fun x => (x.1.num_textures, x.1.renderableTexture, x.1.drawableTexture, x.2)) =
    some (2, 0, 0, some 1) := by
  decide

/-! ### `ExternalTexture` -/

/-- C6: for every pair of `ExternalTexture` values `a` and `b`, `a == b` is true if
and only if their handle, width and height are pairwise equal, and `a != b` is the
negation of `a == b`. -/
theorem externalTexture_eq_spec (a b : ExternalTexture) :
    (ExternalTexture.opEq a b = true ↔
      a.GetTexture = b.GetTexture ∧ a.GetWidth = b.GetWidth ∧ a.GetHeight = b.GetHeight) ∧
    ExternalTexture.opNe a b = !(ExternalTexture.opEq a b) := by
  constructor
  · simp [ExternalTexture.opEq, and_assoc]
  · rfl

/-! ### The call log only grows -/

theorem Grows.same (dev : Device) : Grows dev dev :=
  ⟨[], (List.append_nil _).symm, rfl⟩

theorem Grows.of_calls_eq {dev dev1 : Device} (h : dev1.calls = dev.calls) : Grows dev dev1 :=
  ⟨[], by rw [h, List.append_nil], rfl⟩

theorem Grows.trans {a b c : Device} (hab : Grows a b) (hbc : Grows b c) : Grows a c := by
  obtain ⟨l, hl, hld⟩ := hab
  obtain ⟨m, hm, hmd⟩ := hbc
  refine ⟨l ++ m, by rw [hm, hl, List.append_assoc], ?_⟩
  rw [List.any_append, hld, hmd]; rfl

theorem Grows.issue (dev : Device) (cs : List Call) (h : cs.any Call.isDraw = false) :
    Grows dev (dev.issue cs) :=
  ⟨cs, rfl, h⟩

theorem issuedDraw_of_append {w w1 : World} {l : List Call}
    (h : w1.device.calls = w.device.calls ++ l) : issuedDraw w w1 = l.any Call.isDraw := by
  unfold issuedDraw
  rw [h, List.drop_left]

theorem issuedDraw_of_grows {w w1 : World} (h : Grows w.device w1.device) :
    issuedDraw w w1 = false := by
  obtain ⟨l, hl, hd⟩ := h
  rw [issuedDraw_of_append hl, hd]

/-! ### The framebuffer -/

theorem initialize_texture (fb : FrameBuffer) (dev : Device) (env : InitEnv) :
    (fb.Initialize dev env).2.1.externalTexture = fb.externalTexture := by
  unfold FrameBuffer.Initialize
  split <;> rfl

theorem initialize_grows (fb : FrameBuffer) (dev : Device) (env : InitEnv) :
    Grows dev (fb.Initialize dev env).2.2 := by
  unfold FrameBuffer.Initialize
  split
  · refine ⟨_, rfl, ?_⟩
    rfl
  · exact Grows.same _

theorem reInitialize_texture (fb : FrameBuffer) (dev : Device) (t : ExternalTexture)
    (env : InitEnv) : (fb.ReInitialize dev t env).2.1.externalTexture = t := by
  simp only [FrameBuffer.ReInitialize]
  split <;> rw [initialize_texture]

theorem reInitialize_grows (fb : FrameBuffer) (dev : Device) (t : ExternalTexture)
    (env : InitEnv) : Grows dev (fb.ReInitialize dev t env).2.2 := by
  simp only [FrameBuffer.ReInitialize]
  split
  · refine Grows.trans (b := dev.issue [Call.deleteFramebuffers fb.framebufferID]) ?_
      (initialize_grows _ _ _)
    exact Grows.issue _ _ (by rfl)
  · exact initialize_grows _ _ _

theorem bind_texture (fb : FrameBuffer) (dev : Device) (env : BindEnv) :
    (fb.Bind dev env).2.1.externalTexture = fb.externalTexture := by
  have h := initialize_texture fb dev env.init
  unfold FrameBuffer.Bind
  split <;> rename_i heq <;> rw [heq] at h <;> exact h

theorem bind_grows (fb : FrameBuffer) (dev : Device) (env : BindEnv) :
    Grows dev (fb.Bind dev env).2.2 := by
  have h := initialize_grows fb dev env.init
  unfold FrameBuffer.Bind
  split <;> rename_i heq <;> rw [heq] at h <;> exact h.trans (Grows.issue _ _ (by rfl))

theorem opNe_false {a b : ExternalTexture} (h : ¬ ExternalTexture.opNe a b = true) : a = b := by
  cases a; cases b
  simp [ExternalTexture.opNe, ExternalTexture.opEq, ExternalTexture.GetTexture,
    ExternalTexture.GetWidth, ExternalTexture.GetHeight] at h
  simp [h]

theorem startFramebuffer_effect {fb : FrameBuffer} {dev : Device} {p : VideoPlayerImpl}
    {env : StartEnv} {b : Bool} {fb1 : FrameBuffer} {dev1 : Device}
    (h : StartFramebuffer fb dev p env = some (b, fb1, dev1)) :
    p.GetDrawableExternalTexture = some fb1.externalTexture ∧ Grows dev dev1 := by
  unfold StartFramebuffer at h
  split at h
  · exact absurd h (by simp)
  · rename_i texture htex
    rw [htex]
    by_cases hne : ExternalTexture.opNe fb.GetExternalTexture texture = true
    · simp only [hne, if_true] at h
      have ht := reInitialize_texture fb dev texture env.reinit
      have hg := reInitialize_grows fb dev texture env.reinit
      split at h <;> rename_i heq <;> rw [heq] at ht hg
      · simp only [Option.some.injEq] at h
        rename_i fb0 dev0
        have hbt := bind_texture fb0 dev0 env.bind
        have hbg := bind_grows fb0 dev0 env.bind
        rw [h] at hbt hbg
        exact ⟨by rw [hbt]; exact congrArg some ht.symm, hg.trans hbg⟩
      · simp only [Option.some.injEq, Prod.mk.injEq] at h
        obtain ⟨-, rfl, rfl⟩ := h
        exact ⟨congrArg some ht.symm, hg⟩
    · have heq : fb.externalTexture = texture := opNe_false hne
      simp only [hne] at h
      simp only [Bool.false_eq_true, if_false, Option.some.injEq] at h
      have hbt := bind_texture fb dev env.bind
      have hbg := bind_grows fb dev env.bind
      rw [h] at hbt hbg
      exact ⟨by rw [hbt, heq], hbg⟩

/-! ### Methods of the player that leave the ring alone -/

theorem Agree.self (p : VideoPlayerImpl) : Agree p p :=
  ⟨rfl, rfl, rfl, rfl, rfl, rfl⟩

theorem updateVideo_effect {p : VideoPlayerImpl} {dev : Device} {env : UpdateEnv} {b : Bool}
    {p1 : VideoPlayerImpl} {dev1 : Device} (h : p.UpdateVideo dev env = some (b, p1, dev1)) :
    Agree p p1 ∧ Grows dev dev1 := by
  unfold VideoPlayerImpl.UpdateVideo at h
  split at h
  · simp only [Option.some.injEq, Prod.mk.injEq] at h
    obtain ⟨-, rfl, rfl⟩ := h
    exact ⟨Agree.self _, Grows.same _⟩
  · have g1 : Grows dev (dev.issue
        [Call.videoTexture p.video_texture_obj VideoTextureMethod.updateTexture]) :=
      Grows.issue _ _ (by rfl)
    have g2 : Grows dev ((dev.issue
        [Call.videoTexture p.video_texture_obj VideoTextureMethod.updateTexture]).issue
        [ Call.videoTexture p.video_texture_obj VideoTextureMethod.getVideoTimestampNs,
          Call.videoTexture p.video_texture_obj VideoTextureMethod.getVideoMatrix ]) :=
      g1.trans (Grows.issue _ _ (by rfl))
    simp only at h
    split at h
    · split at h
      · split at h
        · exact absurd h (by simp)
        · simp only [Option.some.injEq, Prod.mk.injEq] at h
          obtain ⟨-, rfl, rfl⟩ := h
          exact ⟨⟨rfl, rfl, rfl, rfl, rfl, rfl⟩, g2⟩
      · simp only [Option.some.injEq, Prod.mk.injEq] at h
        obtain ⟨-, rfl, rfl⟩ := h
        exact ⟨⟨rfl, rfl, rfl, rfl, rfl, rfl⟩, g2⟩
      · simp only [Option.some.injEq, Prod.mk.injEq] at h
        obtain ⟨-, rfl, rfl⟩ := h
        exact ⟨⟨rfl, rfl, rfl, rfl, rfl, rfl⟩, g2⟩
    · simp only [Option.some.injEq, Prod.mk.injEq] at h
      obtain ⟨-, rfl, rfl⟩ := h
      exact ⟨Agree.self _, g1⟩

theorem setVideoTexture_grows (p : VideoPlayerImpl) (dev : Device) (surface : Ptr) :
    Grows dev (p.SetVideoTexture dev surface) := by
  unfold VideoPlayerImpl.SetVideoTexture
  split
  · exact Grows.same _
  · split
    · exact Grows.same _
    · simp only
      split
      · exact (Grows.issue _ _ (by rfl)).trans (Grows.issue _ _ (by rfl))
      · exact Grows.issue _ _ (by rfl)

theorem createVideoTexture_effect (p : VideoPlayerImpl) (dev : Device) (cls : Ptr)
    (env : CreateEnv) :
    Agree p (p.CreateVideoTexture dev cls env).1 ∧
    Grows dev (p.CreateVideoTexture dev cls env).2 := by
  unfold VideoPlayerImpl.CreateVideoTexture
  split
  · exact ⟨Agree.self _, Grows.same _⟩
  · split
    · exact ⟨Agree.self _, Grows.same _⟩
    · split
      · exact ⟨Agree.self _, Grows.same _⟩
      · exact ⟨⟨rfl, rfl, rfl, rfl, rfl, rfl⟩,
          (Grows.issue _ _ (by rfl)).trans (setVideoTexture_grows _ _ _)⟩

theorem getVideoTextureId_grows {p : VideoPlayerImpl} {dev : Device} {j : Int} {id : Nat}
    {dev1 : Device} (h : p.GetVideoTextureId dev j = some (id, dev1)) : Grows dev dev1 := by
  unfold VideoPlayerImpl.GetVideoTextureId at h
  split at h
  · exact absurd h (by simp)
  · simp only [Option.some.injEq, Prod.mk.injEq] at h
    obtain ⟨-, rfl⟩ := h
    exact Grows.issue _ _ (by rfl)

theorem setGraphicsState_grows (dev : Device) (s : GraphicsState) (o : Option GraphicsState) :
    Grows dev (SetGraphicsState dev s o).1 := by
  cases o with
  | none => exact ⟨[Call.setGraphicsState s], rfl, by rfl⟩
  | some x =>
    exact Grows.trans (b := dev.issue [Call.getGraphicsState]) (Grows.issue _ _ (by rfl))
      ⟨[Call.setGraphicsState s], rfl, by rfl⟩

/-! ### The copy pass -/

theorem getTextureData_effect {w w1 : World} {pObj : Ptr} {view : Int} {env : RenderEnv}
    (h : GetTextureData w pObj view env = some w1) :
    w1.g_instances = w.g_instances ∧ w1.g_instanceNumber = w.g_instanceNumber ∧
    w1.video_texture_class = w.video_texture_class ∧
    ∃ p, w.heap pObj = some p ∧
      ((w1.heap = w.heap ∧ Grows w.device w1.device) ∨
       (p.newFrameAvail = true ∧
        w1.heap = Function.update w.heap pObj (some p.FrameDrawn) ∧
        p.GetDrawableExternalTexture = some w1.g_framebuffer.externalTexture)) := by
  unfold GetTextureData at h
  split at h
  · exact absurd h (by simp)
  rename_i p hp
  split at h
  · exact absurd h (by simp)
  rename_i id dev0 hid
  have g0 := getVideoTextureId_grows hid
  simp only at h
  split at h
  · simp only [Option.some.injEq] at h; subst h
    exact ⟨rfl, rfl, rfl, p, hp, Or.inl ⟨rfl, g0⟩⟩
  split at h
  · simp only [Option.some.injEq] at h; subst h
    exact ⟨rfl, rfl, rfl, p, hp, Or.inl ⟨rfl, g0⟩⟩
  split at h
  · exact absurd h (by simp)
  rename_i texture htex
  split at h
  · simp only [Option.some.injEq] at h; subst h
    exact ⟨rfl, rfl, rfl, p, hp, Or.inl ⟨rfl, g0⟩⟩
  split at h
  · simp only [Option.some.injEq] at h; subst h
    exact ⟨rfl, rfl, rfl, p, hp, Or.inl ⟨rfl, g0⟩⟩
  split at h
  · simp only [Option.some.injEq] at h; subst h
    exact ⟨rfl, rfl, rfl, p, hp, Or.inl ⟨rfl, g0⟩⟩
  rename_i hflag
  have hflag1 : p.newFrameAvail = true := by
    simpa [VideoPlayerImpl.IsNewFrameAvailable] using hflag
  split at h
  · exact absurd h (by simp)
  · rename_i fb1 dev2 hstart
    obtain ⟨htgt, -⟩ := startFramebuffer_effect hstart
    split at h
    · exact absurd h (by simp)
    · simp only [Option.some.injEq] at h; subst h
      exact ⟨rfl, rfl, rfl, p, hp, Or.inr ⟨hflag1, rfl, htgt⟩⟩
  · rename_i fb1 dev2 hstart
    obtain ⟨-, hg⟩ := startFramebuffer_effect hstart
    simp only [Option.some.injEq] at h; subst h
    exact ⟨rfl, rfl, rfl, p, hp,
      Or.inl ⟨rfl, ((g0.trans (setGraphicsState_grows _ _ _)).trans hg).trans
        (setGraphicsState_grows _ _ _)⟩⟩

/-! ### The render-event dispatcher -/

theorem getInstance_fst (w : World) (id : Int) :
    (GetInstance w id).1.heap = w.heap ∧ (GetInstance w id).1.device = w.device ∧
    (GetInstance w id).1.g_instanceNumber = w.g_instanceNumber ∧
    (GetInstance w id).1.g_framebuffer = w.g_framebuffer ∧
    (GetInstance w id).1.video_texture_class = w.video_texture_class ∧
    ∀ n, (GetInstance w id).1.g_instances n = w.g_instances n ∨
      (w.g_instances n = none ∧ (GetInstance w id).1.g_instances n = some 0) := by
  unfold GetInstance
  simp only
  split
  · exact ⟨rfl, rfl, rfl, rfl, rfl, fun n => Or.inl rfl⟩
  · rename_i hnone
    refine ⟨rfl, rfl, rfl, rfl, rfl, fun n => ?_⟩
    by_cases hn : n = Int.tdiv id 100
    · subst hn
      exact Or.inr ⟨hnone, by simp⟩
    · exact Or.inl (by simp [Function.update_noteq hn])

theorem getInstance_snd (w : World) (id : Int) :
    (GetInstance w id).2 = (w.g_instances (Int.tdiv id 100)).getD 0 := by
  unfold GetInstance
  simp only
  split <;> rename_i h <;> rw [h] <;> rfl

theorem doVideoUpdate_effect {w w1 : World} {pObj : Ptr} {env : UpdateEnv}
    (h : DoVideoUpdate w pObj env = some w1) (hne : pObj ≠ 0) :
    w1.g_instances = w.g_instances ∧ w1.g_instanceNumber = w.g_instanceNumber ∧
    w1.g_framebuffer = w.g_framebuffer ∧ Grows w.device w1.device ∧
    ∃ p b p1 dev1, w.heap pObj = some p ∧ p.UpdateVideo w.device env = some (b, p1, dev1) ∧
      Agree p p1 ∧
      w1.heap = Function.update w.heap pObj
        (some (if b = true then p1.SwapExternalTexture else p1)) := by
  unfold DoVideoUpdate at h
  rw [if_neg hne] at h
  split at h
  · exact absurd h (by simp)
  rename_i p hp
  split at h
  · exact absurd h (by simp)
  · rename_i p1 dev1 hu
    obtain ⟨ha, hg⟩ := updateVideo_effect hu
    simp only [Option.some.injEq] at h; subst h
    exact ⟨rfl, rfl, rfl, hg, p, true, p1, dev1, hp, hu, ha, rfl⟩
  · rename_i p1 dev1 hu
    obtain ⟨ha, hg⟩ := updateVideo_effect hu
    simp only [Option.some.injEq] at h; subst h
    exact ⟨rfl, rfl, rfl, hg, p, false, p1, dev1, hp, hu, ha, rfl⟩

theorem eventRotates_of_ue4 (w : World) (q : Ptr) (env : EventEnv) :
    eventRotates w q EVENT_UE4INITIALIZE env = false := by
  simp [eventRotates]

theorem eventRotates_of_null (w : World) (q : Ptr) (id : Int) (env : EventEnv)
    (h : (GetInstance w id).2 = 0) : eventRotates w q id env = false := by
  unfold eventRotates
  by_cases hq : q = 0
  · simp [hq]
  · have : ¬ (GetInstance w id).2 = q := by rw [h]; exact fun e => hq e.symm
    simp [this]

theorem eventRotates_of_op (w : World) (q : Ptr) (id : Int) (env : EventEnv)
    (h : EventOperation id ≠ EVENT_UPDATE) : eventRotates w q id env = false := by
  simp [eventRotates, h]

theorem eventRotates_of_other (w : World) (q : Ptr) (id : Int) (env : EventEnv)
    (h : (GetInstance w id).2 ≠ q) : eventRotates w q id env = false := by
  simp [eventRotates, h]

theorem eventRotates_update {w : World} {id : Int} {env : EventEnv} {p p1 : VideoPlayerImpl}
    {b : Bool} {dev1 : Device} (h6 : id ≠ EVENT_UE4INITIALIZE)
    (hne : (GetInstance w id).2 ≠ 0) (hop : EventOperation id = EVENT_UPDATE)
    (hp : w.heap (GetInstance w id).2 = some p)
    (hu : p.UpdateVideo w.device env.update = some (b, p1, dev1)) :
    eventRotates w (GetInstance w id).2 id env = (decide (0 < p.num_textures) && b) := by
  unfold eventRotates
  rw [hp]
  simp only [hu]
  cases b <;> simp [h6, hne, hop]

theorem getInstance_of_ne {w : World} {id : Int} (h : (GetInstance w id).2 ≠ 0) :
    (GetInstance w id).1 = w := by
  unfold GetInstance at h ⊢
  simp only at h ⊢
  split
  · rfl
  · rename_i hnone
    rw [hnone] at h
    exact absurd rfl h

theorem playerStep_of_agree {w w1 : World} {ptr : Ptr} {id : Int} {env : EventEnv}
    {s s1 : VideoPlayerImpl} (ha : Agree s s1) (hrot : eventRotates w ptr id env = false)
    (hg : Grows w.device w1.device) : PlayerStep w ptr id env w1 s s1 := by
  obtain ⟨hd, hr, hn, hx, he, hf⟩ := ha
  refine ⟨hx, he, hn, fun h => ?_, fun _ => ⟨hd, hr, Or.inl hf, fun h => ?_⟩⟩
  · rw [hrot] at h; exact absurd h (by simp)
  · rw [issuedDraw_of_grows hg] at h; exact absurd h (by simp)

theorem render_case {w w1 : World} {pObj : Ptr} {view : Int} {id : Int} {env : EventEnv}
    (hgt : GetTextureData w pObj view env.render = some w1)
    (hop : EventOperation id ≠ EVENT_UPDATE) (hnn : pObj ≠ 0) :
    w1.g_instanceNumber = w.g_instanceNumber ∧
    (∀ n, w1.g_instances n = w.g_instances n ∨
      (w.g_instances n = none ∧ w1.g_instances n = some 0)) ∧
    ((w1.heap = w.heap ∧ Grows w.device w1.device ∧ ∀ q, eventRotates w q id env = false) ∨
     (∃ s s1, pObj ≠ 0 ∧ w.heap pObj = some s ∧
        w1.heap = Function.update w.heap pObj (some s1) ∧
        PlayerStep w pObj id env w1 s s1)) := by
  obtain ⟨hreg, hnum, -, p, hp, hcase⟩ := getTextureData_effect hgt
  refine ⟨hnum, fun n => Or.inl (by rw [hreg]), ?_⟩
  rcases hcase with ⟨hheap, hg⟩ | ⟨hflag, hheap, htgt⟩
  · exact Or.inl ⟨hheap, hg, fun q => eventRotates_of_op w q id env hop⟩
  · refine Or.inr ⟨p, p.FrameDrawn, hnn, hp, hheap, rfl, rfl, rfl, fun h => ?_, fun _ => ?_⟩
    · rw [eventRotates_of_op w pObj id env hop] at h; exact absurd h (by simp)
    · exact ⟨rfl, rfl, Or.inr rfl, fun _ _ => htgt⟩

theorem onRenderEvent_addressed {w w1 : World} {id : Int} {env : EventEnv}
    (h : OnRenderEvent w id env = some w1) :
    w1.g_instanceNumber = w.g_instanceNumber ∧
    (∀ n, w1.g_instances n = w.g_instances n ∨
      (w.g_instances n = none ∧ w1.g_instances n = some 0)) ∧
    ((w1.heap = w.heap ∧ Grows w.device w1.device ∧ ∀ q, eventRotates w q id env = false) ∨
     (∃ s s1, (GetInstance w id).2 ≠ 0 ∧ w.heap (GetInstance w id).2 = some s ∧
        w1.heap = Function.update w.heap (GetInstance w id).2 (some s1) ∧
        PlayerStep w (GetInstance w id).2 id env w1 s s1)) := by
  unfold OnRenderEvent at h
  split at h
  · rename_i h6
    simp only [Option.some.injEq] at h; subst h
    subst h6
    exact ⟨rfl, fun n => Or.inl rfl,
      Or.inl ⟨rfl, Grows.issue _ _ (by rfl), fun q => eventRotates_of_ue4 w q env⟩⟩
  rename_i h6
  by_cases hnull : (GetInstance w id).2 = 0
  · obtain ⟨hheap, hdev, hnum, -, -, hreg⟩ := getInstance_fst w id
    simp only [hnull, if_true, Option.some.injEq] at h
    subst h
    exact ⟨hnum, hreg, Or.inl ⟨hheap, Grows.of_calls_eq (by rw [hdev]),
      fun q => eventRotates_of_null w q id env hnull⟩⟩
  have hw0 := getInstance_of_ne hnull
  generalize hgi : GetInstance w id = gi at h hnull hw0
  obtain ⟨w0, pObj⟩ := gi
  simp only at h hnull hw0 ⊢
  subst hw0
  have hsnd : (GetInstance w0 id).2 = pObj := by rw [hgi]
  rw [if_neg hnull] at h
  split at h
  · -- EVENT_INITIALIZE
    rename_i hop
    have hop1 : EventOperation id ≠ EVENT_UPDATE := by rw [hop]; decide
    split at h
    · exact absurd h (by simp)
    rename_i p hp
    simp only [Option.some.injEq] at h; subst h
    obtain ⟨ha, hg⟩ := createVideoTexture_effect p w0.device w0.video_texture_class env.create
    exact ⟨rfl, fun n => Or.inl rfl, Or.inr ⟨p, _, hnull, hp, rfl,
      playerStep_of_agree ha (eventRotates_of_op w0 pObj id env hop1) hg⟩⟩
  split at h
  · -- EVENT_UPDATE
    rename_i hop0 hop
    obtain ⟨hreg, hnum, -, hg, p, b, p1, dev1, hp, hu, ha, hheap⟩ := doVideoUpdate_effect h hnull
    refine ⟨hnum, fun n => Or.inl (by rw [hreg]), Or.inr ⟨p, _, hnull, hp, hheap, ?_⟩⟩
    have hrot := eventRotates_update h6 (by rw [hsnd]; exact hnull) hop (by rw [hsnd]; exact hp) hu
    rw [hsnd] at hrot
    obtain ⟨hd, hr, hn, hx, he, hf⟩ := ha
    cases b with
    | false =>
      rw [Bool.and_false] at hrot
      exact playerStep_of_agree ⟨hd, hr, hn, hx, he, hf⟩ hrot hg
    | true =>
      rw [Bool.and_true] at hrot
      simp only [if_true]
      by_cases hN : 0 < p.num_textures
      · have hN1 : 0 < p1.num_textures := by rw [hn]; exact hN
        refine ⟨?_, ?_, ?_, fun _ => ⟨?_, ?_, ?_, issuedDraw_of_grows hg⟩, fun hfalse => ?_⟩
        · unfold SwapExternalTexture; rw [if_pos hN1]; exact hx
        · unfold SwapExternalTexture; rw [if_pos hN1]; exact he
        · rw [swap_num_textures]; exact hn
        · rw [swap_renderable _ hN1]; exact hd
        · unfold SwapExternalTexture; rw [if_pos hN1]
          show Int.tmod (wrapInt32 (p1.drawableTexture + 1)) p1.num_textures = _
          rw [hd, hn]
        · unfold SwapExternalTexture; rw [if_pos hN1]
        · rw [hrot] at hfalse; simp [hN] at hfalse
      · have hsw : p1.SwapExternalTexture = p1 := by
          unfold SwapExternalTexture; rw [if_neg (by rw [hn]; exact hN)]
        rw [hsw]
        have : eventRotates w0 pObj id env = false := by rw [hrot]; simp [hN]
        exact playerStep_of_agree ⟨hd, hr, hn, hx, he, hf⟩ this hg
  rename_i hop0 hop1
  split at h
  · simp only [Option.some.injEq] at h; subst h
    exact ⟨rfl, fun n => Or.inl rfl,
      Or.inl ⟨rfl, Grows.same _, fun q => eventRotates_of_op w0 q id env hop1⟩⟩
  split at h
  · exact render_case h hop1 hnull
  split at h
  · exact render_case h hop1 hnull
  split at h
  · exact render_case h hop1 hnull
  split at h
  · exact render_case h hop1 hnull
  · simp only [Option.some.injEq] at h; subst h
    exact ⟨rfl, fun n => Or.inl rfl,
      Or.inl ⟨rfl, Grows.same _, fun q => eventRotates_of_op w0 q id env hop1⟩⟩

theorem onRenderEvent_player {w w1 : World} {id : Int} {env : EventEnv} {q : Ptr}
    {s : VideoPlayerImpl} (h : OnRenderEvent w id env = some w1) (hs : w.heap q = some s) :
    ∃ s1, w1.heap q = some s1 ∧ PlayerStep w q id env w1 s s1 := by
  obtain ⟨-, -, hcase⟩ := onRenderEvent_addressed h
  rcases hcase with ⟨hheap, hg, hrot⟩ | ⟨s0, s1, hnn, hp, hheap, hstep⟩
  · exact ⟨s, by rw [hheap]; exact hs, playerStep_of_agree (Agree.self s) (hrot q) hg⟩
  · by_cases hq : q = (GetInstance w id).2
    · subst hq
      rw [hs] at hp
      obtain rfl : s = s0 := Option.some.inj hp
      exact ⟨s1, by rw [hheap]; simp, hstep⟩
    · refine ⟨s, by rw [hheap, Function.update_noteq hq]; exact hs, rfl, rfl, rfl,
        fun hr => ?_, fun _ => ⟨rfl, rfl, Or.inl rfl, fun _ hq1 => absurd hq1.symm hq⟩⟩
      rw [eventRotates_of_other w q id env (fun e => hq e.symm)] at hr
      exact absurd hr (by simp)

theorem onRenderEvent_dead {w w1 : World} {id : Int} {env : EventEnv} {q : Ptr}
    (h : OnRenderEvent w id env = some w1) (hs : w.heap q = none) : w1.heap q = none := by
  obtain ⟨-, -, hcase⟩ := onRenderEvent_addressed h
  rcases hcase with ⟨hheap, -, -⟩ | ⟨s0, s1, hnn, hp, hheap, -⟩
  · rw [hheap]; exact hs
  · have hq : q ≠ (GetInstance w id).2 := by
      intro e; rw [e, hp] at hs; exact absurd hs (by simp)
    rw [hheap, Function.update_noteq hq]; exact hs

/-! ### The new-frame flag -/

theorem step_flag {w w1 : World} {ptr : Ptr} {s : VideoPlayerImpl} {st : Step}
    (hs : w.heap ptr = some s) (hflag : s.newFrameAvail = false)
    (happly : st.apply w = some w1) (hrot : st.rotates w ptr = false) :
    ∃ s1, w1.heap ptr = some s1 ∧ s1.newFrameAvail = false := by
  cases st with
  | frameDrawn q =>
    simp only [Step.apply, World.onPlayer] at happly
    split at happly
    · exact absurd happly (by simp)
    rename_i x hx
    simp only [Option.some.injEq] at happly; subst happly
    by_cases hq : ptr = q
    · subst hq; exact ⟨x.FrameDrawn, by simp [World.store], rfl⟩
    · exact ⟨s, by simp [World.store, Function.update_noteq hq, hs], hflag⟩
  | setExternalTextures q ids size tw th =>
    simp only [Step.apply, SetExternalTextures] at happly
    split at happly
    · simp only [Option.some.injEq] at happly; subst happly
      exact ⟨s, hs, hflag⟩
    split at happly
    · exact absurd happly (by simp)
    rename_i x hx
    cases hset : x.SetExternalTextures ids size tw th with
    | none => rw [hset] at happly; exact absurd happly (by simp)
    | some x1 =>
      rw [hset] at happly
      simp only [Option.map_some', Option.some.injEq] at happly; subst happly
      by_cases hq : ptr = q
      · subst hq
        rw [hs] at hx
        obtain rfl : s = x := Option.some.inj hx
        exact ⟨x1, by simp [World.store], by rw [(setExternalTextures_flag hset).1]; exact hflag⟩
      · exact ⟨s, by simp [World.store, Function.update_noteq hq, hs], hflag⟩
  | swapExternalTexture q =>
    simp only [Step.apply, World.onPlayer] at happly
    split at happly
    · exact absurd happly (by simp)
    rename_i x hx
    simp only [Option.some.injEq] at happly; subst happly
    by_cases hq : ptr = q
    · subst hq
      rw [hs] at hx
      obtain rfl : s = x := Option.some.inj hx
      simp only [Step.rotates, hs, decide_True, Bool.true_and, decide_eq_false_iff_not] at hrot
      refine ⟨s.SwapExternalTexture, by simp [World.store], ?_⟩
      unfold SwapExternalTexture
      rw [if_neg hrot]; exact hflag
    · exact ⟨s, by simp [World.store, Function.update_noteq hq, hs], hflag⟩
  | renderEvent id env =>
    simp only [Step.apply] at happly
    simp only [Step.rotates] at hrot
    obtain ⟨s1, hs1, -, -, -, -, hno⟩ := onRenderEvent_player happly hs
    obtain ⟨-, -, hf, -⟩ := hno hrot
    refine ⟨s1, hs1, ?_⟩
    rcases hf with hf | hf
    · rw [hf]; exact hflag
    · exact hf

theorem runSteps_flag (ptr : Ptr) (steps : List Step) :
    ∀ (w w1 : World) (s : VideoPlayerImpl), w.heap ptr = some s → s.newFrameAvail = false →
      runSteps w steps = some w1 → noRotation ptr w steps = true →
      ∃ s1, w1.heap ptr = some s1 ∧ s1.newFrameAvail = false := by
  induction steps with
  | nil =>
    intro w w1 s hs hflag hrun _
    simp only [runSteps, Option.some.injEq] at hrun; subst hrun
    exact ⟨s, hs, hflag⟩
  | cons st rest ih =>
    intro w w1 s hs hflag hrun hno
    simp only [runSteps] at hrun
    simp only [noRotation, Bool.and_eq_true, Bool.not_eq_true'] at hno
    cases happly : st.apply w with
    | none => rw [happly] at hrun; exact absurd hrun (by simp)
    | some w2 =>
      rw [happly] at hrun hno
      obtain ⟨s2, hs2, hflag2⟩ := step_flag hs hflag happly hno.1
      exact ih w2 w1 s2 hs2 hflag2 hrun hno.2

/-- C3: `IsNewFrameAvailable()` is true immediately after every `SwapExternalTexture`
on a non-empty ring and false immediately after every `FrameDrawn()`; and after any
sequence of operations (`FrameDrawn`, `SetExternalTextures`, render events,
`SwapExternalTexture`) that follows a `FrameDrawn` of a player and in which no
operation rotates a non-empty ring of that player, its flag is still false. -/
theorem newFrameAvail_spec :
    (∀ s : VideoPlayerImpl, 0 < s.num_textures →
      s.SwapExternalTexture.IsNewFrameAvailable = true) ∧
    (∀ s : VideoPlayerImpl, s.FrameDrawn.IsNewFrameAvailable = false) ∧
    (∀ (w w1 : World) (ptr : Ptr) (s0 : VideoPlayerImpl) (steps : List Step),
      w.heap ptr = some s0.FrameDrawn → runSteps w steps = some w1 →
      noRotation ptr w steps = true →
      (w1.heap ptr).map VideoPlayerImpl.IsNewFrameAvailable = some false) := by
  refine ⟨fun s hN => ?_, fun s => rfl, fun w w1 ptr s0 steps hs hrun hno => ?_⟩
  · unfold SwapExternalTexture; rw [if_pos hN]; rfl
  · obtain ⟨s1, hs1, hf⟩ := runSteps_flag ptr steps w w1 s0.FrameDrawn hs rfl hrun hno
    rw [hs1]
    exact congrArg some hf

/-- Witness of C3: after the operations `quietSteps`, none of which rotates a
non-empty ring, the flag of the player at address 1 is false; and the flag is true
after a rotation of a ring of three. -/
theorem newFrameAvail_spec_witness :
    ringPlayer.SwapExternalTexture.IsNewFrameAvailable = true ∧
    (quietWorld.heap 1).map VideoPlayerImpl.IsNewFrameAvailable = some false :=
  ⟨newFrameAvail_spec.1 ringPlayer (by decide),
   newFrameAvail_spec.2.2 readyWorld quietWorld 1 readyPlayer quietSteps rfl
     (eq_some_getD _ readyWorld rfl) rfl⟩

/-! ### Which slot the copy pass draws into -/

/-- The invariant of `runEvents`: the slot of the last drawing copy pass is a slot
of the ring holding the texture the framebuffer was bound to; it is the drawable
slot while no rotation has happened since, and the renderable slot after exactly
one rotation. -/
theorem copyTrack_step {ptr : Ptr} {w w1 : World} {t : CopyTrack} {id : Int} {env : EventEnv}
    (h : OnRenderEvent w id env = some w1)
    (hinv : ∀ k, t.lastCopy = some k → ∃ s tex, w.heap ptr = some s ∧ t.target = some tex ∧
      arrayAt s.externalTexture k = some tex ∧
      (t.rotations = 0 → s.drawableTexture = k) ∧ (t.rotations = 1 → s.renderableTexture = k)) :
    ∀ k, (t.next ptr w id env w1).lastCopy = some k → ∃ s tex, w1.heap ptr = some s ∧
      (t.next ptr w id env w1).target = some tex ∧
      arrayAt s.externalTexture k = some tex ∧
      ((t.next ptr w id env w1).rotations = 0 → s.drawableTexture = k) ∧
      ((t.next ptr w id env w1).rotations = 1 → s.renderableTexture = k) := by
  intro k hk
  unfold CopyTrack.next at hk ⊢
  by_cases hA : (GetInstance w id).2 = ptr ∧ issuedDraw w w1 = true
  · rw [if_pos hA] at hk ⊢
    simp only at hk ⊢
    cases hs : w.heap ptr with
    | none => rw [hs] at hk; exact absurd hk (by simp)
    | some s =>
      rw [hs] at hk
      simp only [Option.map_some', Option.some.injEq] at hk
      obtain ⟨s1, hs1, hx, -, -, hrot, hno⟩ := onRenderEvent_player h hs
      have hfalse : eventRotates w ptr id env = false := by
        cases hr : eventRotates w ptr id env with
        | false => rfl
        | true =>
          have := (hrot hr).2.2.2
          rw [hA.2] at this
          exact absurd this (by simp)
      obtain ⟨hd, -, -, htgt⟩ := hno hfalse
      refine ⟨s1, w1.g_framebuffer.GetExternalTexture, hs1, rfl, ?_, fun _ => by rw [hd]; exact hk,
        fun h1 => absurd h1 (by simp)⟩
      rw [hx, ← hk]
      exact htgt hA.2 hA.1
  · rw [if_neg hA] at hk ⊢
    by_cases hB : eventRotates w ptr id env = true
    · rw [if_pos hB] at hk ⊢
      simp only at hk ⊢
      obtain ⟨s, tex, hs, ht, harr, h0, -⟩ := hinv k hk
      obtain ⟨s1, hs1, hx, -, -, hrot, -⟩ := onRenderEvent_player h hs
      obtain ⟨hr, -, -, -⟩ := hrot hB
      refine ⟨s1, tex, hs1, ht, by rw [hx]; exact harr, fun h1 => absurd h1 (by simp), fun h1 => ?_⟩
      rw [hr]
      exact h0 (by omega)
    · rw [if_neg hB] at hk ⊢
      obtain ⟨s, tex, hs, ht, harr, h0, h1⟩ := hinv k hk
      obtain ⟨s1, hs1, hx, -, -, -, hno⟩ := onRenderEvent_player h hs
      obtain ⟨hd, hr, -, -⟩ := hno (by simpa using hB)
      exact ⟨s1, tex, hs1, ht, by rw [hx]; exact harr, fun h => by rw [hd]; exact h0 h,
        fun h => by rw [hr]; exact h1 h⟩

theorem runEvents_inv (ptr : Ptr) (events : List (Int × EventEnv)) :
    ∀ (w w1 : World) (t t1 : CopyTrack), runEvents ptr events (w, t) = some (w1, t1) →
      (∀ k, t.lastCopy = some k → ∃ s tex, w.heap ptr = some s ∧ t.target = some tex ∧
        arrayAt s.externalTexture k = some tex ∧
        (t.rotations = 0 → s.drawableTexture = k) ∧ (t.rotations = 1 → s.renderableTexture = k)) →
      ∀ k, t1.lastCopy = some k → ∃ s tex, w1.heap ptr = some s ∧ t1.target = some tex ∧
        arrayAt s.externalTexture k = some tex ∧
        (t1.rotations = 0 → s.drawableTexture = k) ∧
        (t1.rotations = 1 → s.renderableTexture = k) := by
  induction events with
  | nil =>
    intro w w1 t t1 hrun hinv
    simp only [runEvents, Option.some.injEq, Prod.mk.injEq] at hrun
    obtain ⟨rfl, rfl⟩ := hrun
    exact hinv
  | cons e rest ih =>
    intro w w1 t t1 hrun hinv
    obtain ⟨id, env⟩ := e
    simp only [runEvents] at hrun
    cases hev : OnRenderEvent w id env with
    | none => rw [hev] at hrun; exact absurd hrun (by simp)
    | some w2 =>
      rw [hev] at hrun
      exact ih w2 w1 _ t1 hrun (copyTrack_step hev hinv)

/-- C4, as amended: along every sequence of render events, once a copy pass of a
player has drawn, the slot `k` it drew into most recently is the index that was
drawable when it ran, and the framebuffer was then bound to the texture of that
ring slot; while no rotation has happened since, `k` is still the drawable index,
and after exactly one rotation since, `k` is the renderable index. -/
theorem copyPass_slot (ptr : Ptr) (w w1 : World) (events : List (Int × EventEnv))
    (t : CopyTrack) (k : Int)
    (hrun : runEvents ptr events (w, CopyTrack.start) = some (w1, t))
    (hk : t.lastCopy = some k) :
    ∃ s tex, w1.heap ptr = some s ∧ t.target = some tex ∧
      arrayAt s.externalTexture k = some tex ∧
      (t.rotations = 0 → s.drawableTexture = k) ∧
      (t.rotations = 1 → s.renderableTexture = k) :=
  runEvents_inv ptr events w w1 _ t hrun
    (fun _ h => absurd h (by simp [CopyTrack.start])) k hk

/-- Witness of C4: after an UPDATE, a RENDER_MONO and a second UPDATE on a ring of two
textures, the copy pass drew into slot 1, which is now the renderable slot. -/
theorem copyPass_slot_witness :
    ∃ s tex, copyResult.1.heap 1 = some s ∧ copyResult.2.target = some tex ∧
      arrayAt s.externalTexture 1 = some tex ∧
      (copyResult.2.rotations = 0 → s.drawableTexture = 1) ∧
      (copyResult.2.rotations = 1 → s.renderableTexture = 1) :=
  copyPass_slot 1 readyWorld copyResult.1 copyEvents copyResult.2 1
    (eq_some_getD _ (readyWorld, CopyTrack.start) rfl) rfl

/-- Counterexample to C4 as stated: after an UPDATE that rotates and a RENDER_MONO
that copies, on a ring of two textures, the copy pass has drawn into slot 1 (the
framebuffer is bound to texture 12), which is the drawable slot, while the
renderable index is 0 (texture 11). -/
theorem renderable_is_not_last_copy :
    (runEvents 1 [(201, goodEnv), (202, goodEnv)]
      (readyWorld, CopyTrack.start)).map
      (fun x =>
        (x.2.lastCopy, x.2.target.map ExternalTexture.GetTexture,
          (x.1.heap 1).map VideoPlayerImpl.drawableTexture,
          (x.1.heap 1).map VideoPlayerImpl.renderableTexture,
          ((x.1.heap 1).bind VideoPlayerImpl.GetRenderableExternalTexture).map
            ExternalTexture.GetTexture)) =
    some (some 1, some 12, some 1, some 0, some 11) := by
  decide

/-! ### Event ids -/

/-- C7: for every event id, `GetInstance` looks up registry index `id / 100` and
`EventOperation` returns `id % 100` (truncating division and remainder of C), so
`id = 100 * index + operation`; for `id ≥ 0` the operation lies in `0..99`; id 7
decodes to index 0 and operation 7, id 207 to index 2 and operation 7. -/
theorem eventId_decoding (w : World) (id : Int) :
    (GetInstance w id).2 = (w.g_instances (Int.tdiv id 100)).getD 0 ∧
    EventOperation id = Int.tmod id 100 ∧
    id = 100 * Int.tdiv id 100 + EventOperation id ∧
    (0 ≤ id → 0 ≤ EventOperation id ∧ EventOperation id ≤ 99) ∧
    ((GetInstance w 7).2 = (w.g_instances 0).getD 0 ∧ EventOperation 7 = 7) ∧
    ((GetInstance w 207).2 = (w.g_instances 2).getD 0 ∧ EventOperation 207 = 7) := by
  refine ⟨getInstance_snd w id, rfl, ?_, fun h => ?_, ⟨getInstance_snd w 7, by decide⟩,
    ⟨getInstance_snd w 207, by decide⟩⟩
  · unfold EventOperation
    have := Int.tdiv_add_tmod id 100
    omega
  · unfold EventOperation
    rw [Int.tmod_eq_emod h (by decide)]
    omega

/-- Witness of C7: id 307 addressed to a process whose index 3 holds the player at
address 2 decodes to that player and operation 7. -/
theorem eventId_decoding_witness :
    (GetInstance twoPlayersWorld 307).2 = 2 ∧
    0 ≤ EventOperation 307 ∧ EventOperation 307 ≤ 99 :=
  ⟨(eventId_decoding twoPlayersWorld 307).1,
   (eventId_decoding twoPlayersWorld 307).2.2.2.1 (by decide)⟩

/-! ### The instance registry -/

theorem registryOK_transfer {w w1 : World} (hok : RegistryOK w)
    (hnum : w1.g_instanceNumber = w.g_instanceNumber)
    (hreg : ∀ n, w1.g_instances n = w.g_instances n ∨
      (w.g_instances n = none ∧ w1.g_instances n = some 0))
    (hheap : ∀ q, (w1.heap q).map VideoPlayerImpl.eventBase =
      (w.heap q).map VideoPlayerImpl.eventBase) : RegistryOK w1 := by
  obtain ⟨h1, h2, h0, hlive, hent⟩ := hok
  have hback : ∀ q s1, w1.heap q = some s1 → ∃ s, w.heap q = some s ∧ s.eventBase = s1.eventBase := by
    intro q s1 hq
    have := hheap q
    rw [hq] at this
    cases hw : w.heap q with
    | none => rw [hw] at this; exact absurd this (by simp)
    | some s =>
      rw [hw] at this
      simp only [Option.map_some', Option.some.injEq] at this
      exact ⟨s, rfl, this.symm⟩
  have hfwd : ∀ q s, w.heap q = some s → ∃ s1, w1.heap q = some s1 ∧ s1.eventBase = s.eventBase := by
    intro q s hq
    have := hheap q
    rw [hq] at this
    cases hw : w1.heap q with
    | none => rw [hw] at this; exact absurd this (by simp)
    | some s1 =>
      rw [hw] at this
      simp only [Option.map_some', Option.some.injEq] at this
      exact ⟨s1, rfl, this⟩
  refine ⟨by rw [hnum]; exact h1, by rw [hnum]; exact h2, ?_, ?_, ?_⟩
  · cases hw : w1.heap 0 with
    | none => rfl
    | some s1 =>
      obtain ⟨s, hs, -⟩ := hback 0 s1 hw
      rw [h0] at hs; exact absurd hs (by simp)
  · intro ptr s1 hs1
    obtain ⟨s, hs, hb⟩ := hback ptr s1 hs1
    obtain ⟨n, hn2, hn, hbase, hg⟩ := hlive ptr s hs
    refine ⟨n, hn2, by rw [hnum]; exact hn, by rw [← hb]; exact hbase, ?_⟩
    rcases hreg n with hr | ⟨hr, -⟩
    · rw [hr]; exact hg
    · rw [hg] at hr; exact absurd hr (by simp)
  · intro n ptr hg hne
    rcases hreg n with hr | ⟨-, hr⟩
    · rw [hr] at hg
      obtain ⟨hn2, hn, s, hs, hbase⟩ := hent n ptr hg hne
      obtain ⟨s1, hs1, hb⟩ := hfwd ptr s hs
      exact ⟨hn2, by rw [hnum]; exact hn, s1, hs1, by rw [hb]; exact hbase⟩
    · rw [hr] at hg
      exact absurd (Option.some.inj hg).symm hne

theorem store_eventBase {w : World} {ptr : Ptr} {s s1 : VideoPlayerImpl}
    (hs : w.heap ptr = some s) (hb : s1.eventBase = s.eventBase) (q : Ptr) :
    ((w.store ptr s1).heap q).map VideoPlayerImpl.eventBase =
      (w.heap q).map VideoPlayerImpl.eventBase := by
  unfold World.store
  by_cases hq : q = ptr
  · subst hq; simp [hs, hb]
  · simp [Function.update_noteq hq]

theorem onRenderEvent_eventBase {w w1 : World} {id : Int} {env : EventEnv}
    (h : OnRenderEvent w id env = some w1) (q : Ptr) :
    (w1.heap q).map VideoPlayerImpl.eventBase = (w.heap q).map VideoPlayerImpl.eventBase := by
  cases hq : w.heap q with
  | none => rw [onRenderEvent_dead h hq]
  | some s =>
    obtain ⟨s1, hs1, -, hb, -⟩ := onRenderEvent_player h hq
    rw [hs1]; simp [hb]

theorem setExternalTextures_eventBase {p p1 : VideoPlayerImpl} {ids : List Int} {size w h : Int}
    (hset : p.SetExternalTextures ids size w h = some p1) : p1.eventBase = p.eventBase := by
  unfold VideoPlayerImpl.SetExternalTextures at hset
  split at hset
  · exact absurd hset (by simp)
  · simp only [Option.some.injEq] at hset; subst hset; rfl

theorem wrapInt32_mul100 {n : Int} (h0 : 0 ≤ n) (h1 : n ≤ 21474836) :
    wrapInt32 (n * 100) = 100 * n := by
  rw [wrapInt32_of_range (by omega) (by omega)]; ring

theorem tdiv_eventBase {n : Int} (h0 : 0 ≤ n) : Int.tdiv (100 * n) 100 = n := by
  rw [Int.tdiv_eq_ediv (by omega) (by omega)]
  omega

theorem ctor_eq (w : World) (addr : Ptr) (u : Uninit) (h1 : 1 ≤ w.g_instanceNumber)
    (hb : w.g_instanceNumber + 1 ≤ 21474836) :
    VideoPlayerImpl.ctor w addr u =
      { w with
        g_instanceNumber := w.g_instanceNumber + 1
        g_instances := Function.update w.g_instances (w.g_instanceNumber + 1) (some addr)
        heap := Function.update w.heap addr
          (some (VideoPlayerImpl.construct (100 * (w.g_instanceNumber + 1)) u)) } := by
  have hn : wrapInt32 (w.g_instanceNumber + 1) = w.g_instanceNumber + 1 :=
    wrapInt32_of_range (by omega) (by omega)
  have hbase : wrapInt32 ((w.g_instanceNumber + 1) * 100) = 100 * (w.g_instanceNumber + 1) :=
    wrapInt32_mul100 (by omega) hb
  simp only [VideoPlayerImpl.ctor, hn, hbase]

theorem createVideoPlayer_ok {w w1 : World} {addr r : Ptr} {u : Uninit}
    (hok : RegistryOK w) (hb : w.g_instanceNumber + 1 ≤ 21474836)
    (hc : CreateVideoPlayer w addr u = some (w1, r)) :
    RegistryOK w1 ∧ w1.g_instanceNumber = w.g_instanceNumber + 1 ∧ r = addr ∧
    (w1.heap addr).map VideoPlayerImpl.GetEventBase = some (100 * (w.g_instanceNumber + 1)) ∧
    w1.g_instances (w.g_instanceNumber + 1) = some addr ∧
    (∀ n, n ≠ w.g_instanceNumber + 1 → w1.g_instances n = w.g_instances n) := by
  obtain ⟨h1, h2, h0, hlive, hent⟩ := hok
  unfold CreateVideoPlayer at hc
  split at hc
  · exact absurd hc (by simp)
  rename_i hfresh
  simp only [not_or, Option.isSome_iff_exists, not_exists] at hfresh
  obtain ⟨haddr, hdead⟩ := hfresh
  simp only [Option.some.injEq, Prod.mk.injEq] at hc
  obtain ⟨hw1, rfl⟩ := hc
  rw [ctor_eq w addr u h1 hb] at hw1
  subst hw1
  refine ⟨⟨?_, hb, ?_, ?_, ?_⟩, rfl, rfl, ?_, ?_, ?_⟩
  · show (1 : Int) ≤ w.g_instanceNumber + 1
    omega
  · show Function.update w.heap addr _ 0 = none
    rw [Function.update_noteq (Ne.symm haddr)]; exact h0
  · intro ptr s hs
    change Function.update w.heap addr _ ptr = some s at hs
    by_cases hp : ptr = addr
    · subst hp
      rw [Function.update_same] at hs
      obtain rfl := Option.some.inj hs
      exact ⟨w.g_instanceNumber + 1, by omega, le_refl _, rfl, Function.update_same _ _ _⟩
    · rw [Function.update_noteq hp] at hs
      obtain ⟨n, hn2, hnle, hb1, hg⟩ := hlive ptr s hs
      refine ⟨n, hn2, ?_, hb1, ?_⟩
      · show n ≤ w.g_instanceNumber + 1
        omega
      · show Function.update w.g_instances _ _ n = _
        rw [Function.update_noteq (by omega)]; exact hg
  · intro n ptr hg hne
    change Function.update w.g_instances _ _ n = some ptr at hg
    by_cases hn1 : n = w.g_instanceNumber + 1
    · subst hn1
      rw [Function.update_same] at hg
      obtain rfl := Option.some.inj hg
      exact ⟨by omega, le_refl _, _, Function.update_same _ _ _, rfl⟩
    · rw [Function.update_noteq hn1] at hg
      obtain ⟨hn2, hnle, s, hs, hb1⟩ := hent n ptr hg hne
      have hpa : ptr ≠ addr := by
        intro e; rw [e] at hs; exact hdead s hs
      refine ⟨hn2, ?_, s, ?_, hb1⟩
      · show n ≤ w.g_instanceNumber + 1
        omega
      · show Function.update w.heap addr _ ptr = _
        rw [Function.update_noteq hpa]; exact hs
  · show (Function.update w.heap addr _ addr).map VideoPlayerImpl.GetEventBase = _
    rw [Function.update_same]; rfl
  · exact Function.update_same _ _ _
  · intro n hne
    exact Function.update_noteq hne _ _

theorem destroyVideoPlayer_ok {w w1 : World} {ptr : Ptr} (hok : RegistryOK w)
    (hd : DestroyVideoPlayer w ptr = some w1) :
    RegistryOK w1 ∧ w1.g_instanceNumber = w.g_instanceNumber := by
  unfold DestroyVideoPlayer at hd
  split at hd
  · simp only [Option.some.injEq] at hd; subst hd
    exact ⟨hok, rfl⟩
  rename_i hne
  split at hd
  · exact absurd hd (by simp)
  rename_i p hp
  simp only [Option.some.injEq] at hd; subst hd
  obtain ⟨h1, h2, h0, hlive, hent⟩ := hok
  obtain ⟨n, hn2, hnle, hbase, hg⟩ := hlive ptr p hp
  have hidx : Int.tdiv p.eventBase 100 = n := by rw [hbase]; exact tdiv_eventBase (by omega)
  unfold VideoPlayerImpl.dtor
  rw [hidx]
  refine ⟨⟨h1, h2, ?_, ?_, ?_⟩, rfl⟩
  · show Function.update w.heap ptr none 0 = none
    rw [Function.update_noteq (Ne.symm hne)]; exact h0
  · intro q s hs
    change Function.update w.heap ptr none q = some s at hs
    by_cases hq : q = ptr
    · subst hq; rw [Function.update_same] at hs; exact absurd hs (by simp)
    · rw [Function.update_noteq hq] at hs
      obtain ⟨m, hm2, hmle, hb1, hgm⟩ := hlive q s hs
      have hmn : m ≠ n := by
        intro e; rw [e, hg] at hgm; exact hq (Option.some.inj hgm).symm
      refine ⟨m, hm2, hmle, hb1, ?_⟩
      show Function.update w.g_instances n none m = _
      rw [Function.update_noteq hmn]; exact hgm
  · intro m q hgm hq0
    change Function.update w.g_instances n none m = some q at hgm
    by_cases hmn : m = n
    · subst hmn; rw [Function.update_same] at hgm; exact absurd hgm (by simp)
    · rw [Function.update_noteq hmn] at hgm
      obtain ⟨hm2, hmle, s, hs, hb1⟩ := hent m q hgm hq0
      have hqp : q ≠ ptr := by
        intro e; rw [e, hp] at hs
        obtain rfl := Option.some.inj hs
        rw [hbase] at hb1
        omega
      refine ⟨hm2, hmle, s, ?_, hb1⟩
      show Function.update w.heap ptr none q = _
      rw [Function.update_noteq hqp]; exact hs

theorem registryOK_store {w : World} {ptr : Ptr} {s s1 : VideoPlayerImpl} (hok : RegistryOK w)
    (hs : w.heap ptr = some s) (hb : s1.eventBase = s.eventBase) :
    RegistryOK (w.store ptr s1) :=
  registryOK_transfer hok rfl (fun _ => Or.inl rfl) (store_eventBase hs hb)

theorem setExternalTextures_ok {w w1 : World} {ptr : Ptr} {ids : List Int} {size tw th : Int}
    (hok : RegistryOK w) (h : SetExternalTextures w ptr ids size tw th = some w1) :
    RegistryOK w1 ∧ w1.g_instanceNumber = w.g_instanceNumber := by
  unfold SetExternalTextures at h
  split at h
  · simp only [Option.some.injEq] at h; subst h; exact ⟨hok, rfl⟩
  split at h
  · exact absurd h (by simp)
  rename_i p hp
  cases hset : p.SetExternalTextures ids size tw th with
  | none => rw [hset] at h; exact absurd h (by simp)
  | some p1 =>
    rw [hset] at h
    simp only [Option.map_some', Option.some.injEq] at h; subst h
    exact ⟨registryOK_store hok hp (setExternalTextures_eventBase hset), rfl⟩

theorem apiCall_ok {w w1 : World} {c : ApiCall} (hok : RegistryOK w)
    (hb : w.g_instanceNumber + creations [c] ≤ 21474836) (h : c.apply w = some w1) :
    RegistryOK w1 ∧ w1.g_instanceNumber = w.g_instanceNumber + creations [c] := by
  cases c with
  | createVideoPlayer addr u =>
    simp only [ApiCall.apply] at h
    cases hc : CreateVideoPlayer w addr u with
    | none => rw [hc] at h; exact absurd h (by simp)
    | some r =>
      obtain ⟨w2, r2⟩ := r
      rw [hc] at h
      simp only [Option.map_some', Option.some.injEq] at h; subst h
      simp only [creations, zero_add, Nat.cast_one] at hb ⊢
      obtain ⟨hok1, hnum, -⟩ := createVideoPlayer_ok hok hb hc
      exact ⟨hok1, hnum⟩
  | destroyVideoPlayer ptr =>
    simp only [ApiCall.apply] at h
    simpa [creations] using destroyVideoPlayer_ok hok h
  | setExternalTextures ptr ids size tw th =>
    simp only [ApiCall.apply] at h
    simpa [creations] using setExternalTextures_ok hok h
  | onRenderEvent id env =>
    simp only [ApiCall.apply] at h
    obtain ⟨hnum, hreg, -⟩ := onRenderEvent_addressed h
    simp only [creations, Nat.cast_zero, add_zero]
    exact ⟨registryOK_transfer hok hnum hreg (onRenderEvent_eventBase h), hnum⟩
  | playerMethod ptr p1 =>
    simp only [ApiCall.apply] at h
    split at h
    · exact absurd h (by simp)
    rename_i p hp
    split at h
    · rename_i hbase
      simp only [Option.some.injEq] at h; subst h
      simp only [creations, Nat.cast_zero, add_zero]
      exact ⟨registryOK_store hok hp hbase, rfl⟩
    · exact absurd h (by simp)

theorem creations_cons (c : ApiCall) (rest : List ApiCall) :
    creations (c :: rest) = creations [c] + creations rest := by
  cases c <;> simp [creations, Nat.add_comm]

theorem runApi_ok (calls : List ApiCall) :
    ∀ (w w1 : World), RegistryOK w → w.g_instanceNumber + creations calls ≤ 21474836 →
      runApi w calls = some w1 →
      RegistryOK w1 ∧ w1.g_instanceNumber = w.g_instanceNumber + creations calls := by
  induction calls with
  | nil =>
    intro w w1 hok _ hrun
    simp only [runApi, Option.some.injEq] at hrun; subst hrun
    simp [creations, hok]
  | cons c rest ih =>
    intro w w1 hok hb hrun
    simp only [runApi] at hrun
    rw [creations_cons] at hb ⊢
    push_cast at hb ⊢
    cases hc : c.apply w with
    | none => rw [hc] at hrun; exact absurd hrun (by simp)
    | some w2 =>
      rw [hc] at hrun
      obtain ⟨hok2, hnum2⟩ := apiCall_ok hok (by omega) hc
      obtain ⟨hok1, hnum1⟩ := ih w2 w1 hok2 (by rw [hnum2]; omega) hrun
      exact ⟨hok1, by rw [hnum1, hnum2]; ring⟩

theorem initial_ok (cls : Ptr) (fb : FrameBuffer) (gs : GraphicsState) (dev : Device) :
    RegistryOK (World.initial cls fb gs dev) := by
  refine ⟨?_, ?_, rfl, ?_, ?_⟩
  · show (1 : Int) ≤ 1
    decide
  · show (1 : Int) ≤ 21474836
    decide
  · intro ptr s hs; exact absurd hs (by simp [World.initial])
  · intro n ptr hg; exact absurd hg (by simp [World.initial])

theorem runApi_append (calls rest : List ApiCall) :
    ∀ w : World, runApi w (calls ++ rest) = (runApi w calls).bind fun w1 => runApi w1 rest := by
  induction calls with
  | nil => intro w; rfl
  | cons c cs ih =>
    intro w
    simp only [List.cons_append, runApi]
    cases c.apply w with
    | none => rfl
    | some w2 => exact ih w2

/-- Creating a player at address 1 in a process without live objects and destroying
it again only advances the instance counter. -/
theorem runApi_churn (u : Uninit) (n : Nat) :
    ∀ w : World, w.heap = (fun _ => none) → w.g_instances = (fun _ => none) →
      1 ≤ w.g_instanceNumber → w.g_instanceNumber + n ≤ 21474836 →
      runApi w (churn u n) = some { w with g_instanceNumber := w.g_instanceNumber + n } := by
  induction n with
  | zero =>
    intro w _ _ _ _
    simp [churn, runApi]
  | succ n ih =>
    intro w hheap hreg h1 hb
    push_cast at hb
    have hcreate : CreateVideoPlayer w 1 u = some (VideoPlayerImpl.ctor w 1 u, 1) := by
      unfold CreateVideoPlayer
      rw [if_neg]
      rw [hheap]; simp
    have hidx : Int.tdiv (100 * (w.g_instanceNumber + 1)) 100 = w.g_instanceNumber + 1 :=
      tdiv_eventBase (by omega)
    have hdestroy : DestroyVideoPlayer (VideoPlayerImpl.ctor w 1 u) 1 =
        some { w with g_instanceNumber := w.g_instanceNumber + 1 } := by
      rw [ctor_eq w 1 u h1 (by omega)]
      unfold DestroyVideoPlayer
      rw [if_neg (by decide)]
      simp only [Function.update_same, VideoPlayerImpl.dtor, VideoPlayerImpl.construct, hidx,
        ne_eq, not_true_eq_false, if_false, Function.update_idem, hheap, hreg]
      congr 2
      · funext n; simp [Function.update]
      · funext q; simp [Function.update]
    simp only [churn, runApi, ApiCall.apply, hcreate, Option.map_some', hdestroy]
    rw [ih { w with g_instanceNumber := w.g_instanceNumber + 1 } hheap hreg (by show (1 : Int) ≤ w.g_instanceNumber + 1; omega)
      (by show w.g_instanceNumber + 1 + (n : Int) ≤ 21474836; omega)]
    simp only [Option.some.injEq]
    congr 1
    push_cast
    ring

/-- C9, as amended: for every `k ≥ 1` with `100 * (k + 1) ≤ INT_MAX` (that is
`k ≤ 21474835`), the `k`-th `VideoPlayerImpl` constructed in a process gets event base
`100 * (k + 1)` and is registered under index `k + 1`; no instance is registered
under index 0 or 1; and before the construction no index from `k + 1` on holds an
instance, so no index is used twice. -/
theorem eventBase_of_instance (cls : Ptr) (fb : FrameBuffer) (gs : GraphicsState)
    (dev : Device) (calls : List ApiCall) (w w1 : World) (addr : Ptr) (u : Uninit)
    (hrun : runApi (World.initial cls fb gs dev) calls = some w)
    (hk : creations calls + 1 ≤ 21474835)
    (hc : CreateVideoPlayer w addr u = some (w1, addr)) :
    (w1.heap addr).map VideoPlayerImpl.GetEventBase =
      some (100 * (((creations calls + 1 : Nat) : Int) + 1)) ∧
    w1.g_instances (((creations calls + 1 : Nat) : Int) + 1) = some addr ∧
    (∀ ptr, w1.g_instances 0 = some ptr → ptr = 0) ∧
    (∀ ptr, w1.g_instances 1 = some ptr → ptr = 0) ∧
    (∀ n ptr, ((creations calls + 1 : Nat) : Int) + 1 ≤ n → w.g_instances n = some ptr →
      ptr = 0) := by
  obtain ⟨hok, hnum⟩ := runApi_ok calls _ w (initial_ok cls fb gs dev)
    (by show (1 : Int) + (creations calls : Int) ≤ 21474836; omega) hrun
  have hnum1 : w.g_instanceNumber = 1 + (creations calls : Int) := hnum
  obtain ⟨hok1, -, -, hbase, hidx, -⟩ := createVideoPlayer_ok hok (by omega) hc
  have hcast : (((creations calls + 1 : Nat) : Int) + 1) = w.g_instanceNumber + 1 := by
    push_cast; omega
  rw [hcast]
  refine ⟨hbase, hidx, fun ptr hg => ?_, fun ptr hg => ?_, fun n ptr hn hg => ?_⟩
  · by_contra hne
    have := (hok1.2.2.2.2 0 ptr hg hne).1
    omega
  · by_contra hne
    have := (hok1.2.2.2.2 1 ptr hg hne).1
    omega
  · by_contra hne
    have := (hok.2.2.2.2 n ptr hg hne).2.1
    omega

/-- Witness of C9: the first player constructed in a process gets event base 200 and
is registered under index 2. -/
theorem eventBase_of_instance_witness :
    ((VideoPlayerImpl.ctor freshWorld 1 someUninit).heap 1).map VideoPlayerImpl.GetEventBase =
      some 200 ∧
    (VideoPlayerImpl.ctor freshWorld 1 someUninit).g_instances 2 = some 1 :=
  ⟨(eventBase_of_instance 8 { framebufferID := 0, externalTexture := ExternalTexture.default }
      engineDevice.graphicsState engineDevice [] freshWorld
      (VideoPlayerImpl.ctor freshWorld 1 someUninit) 1 someUninit rfl (by decide) rfl).1,
   (eventBase_of_instance 8 { framebufferID := 0, externalTexture := ExternalTexture.default }
      engineDevice.graphicsState engineDevice [] freshWorld
      (VideoPlayerImpl.ctor freshWorld 1 someUninit) 1 someUninit rfl (by decide) rfl).2.1⟩

/-- Counterexample to C9 as stated: the 21474836-th player constructed in a process
is registered under index 21474837, but its event base is the wrapped value
-2147483596, not `100 * 21474837`, which no `int` holds. -/
theorem eventBase_overflow :
    (runApi freshWorld
      (churn someUninit 21474835 ++ [ApiCall.createVideoPlayer 1 someUninit])).map
      (fun w => ((w.heap 1).map VideoPlayerImpl.GetEventBase, w.g_instances 21474837)) =
    some (some (-2147483596), some 1) := by
  rw [runApi_append, runApi_churn someUninit 21474835 freshWorld rfl rfl (by decide) (by decide)]
  rfl

/-! ### The dispatcher -/

/-- C10: for an event id whose instance is registered, `OnRenderEvent` maps the
operation code to exactly one action: 0 creates the video texture, 1 runs
`DoVideoUpdate`, 5 does nothing, and 2, 3, 4, 7 run `GetTextureData` with the views
`MONO_VIEW` (0), `LEFT_EYE_VIEW` (2), `RIGHT_EYE_VIEW` (1) and `INVERTED_MONO_VIEW` (3);
each of these four views satisfies `0 ≤ view < 4`, so `VideoQuadScreen::Draw` is
defined on it for every texture and matrix. -/
theorem onRenderEvent_dispatch (w : World) (id : Int) (env : EventEnv) (pObj : Ptr)
    (hreg : w.g_instances (Int.tdiv id 100) = some pObj) (hne : pObj ≠ 0) :
    (EventOperation id = 0 →
      OnRenderEvent w id env =
        match w.heap pObj with
        | none => none
        | some p =>
          some ({ w with
            device := (p.CreateVideoTexture w.device w.video_texture_class env.create).2 }.store
              pObj (p.CreateVideoTexture w.device w.video_texture_class env.create).1)) ∧
    (EventOperation id = 1 → OnRenderEvent w id env = DoVideoUpdate w pObj env.update) ∧
    (EventOperation id = 5 → OnRenderEvent w id env = some w) ∧
    (EventOperation id = 2 → OnRenderEvent w id env = GetTextureData w pObj 0 env.render) ∧
    (EventOperation id = 3 → OnRenderEvent w id env = GetTextureData w pObj 2 env.render) ∧
    (EventOperation id = 4 → OnRenderEvent w id env = GetTextureData w pObj 1 env.render) ∧
    (EventOperation id = 7 → OnRenderEvent w id env = GetTextureData w pObj 3 env.render) ∧
    (VideoQuadScreen.MONO_VIEW = 0 ∧ VideoQuadScreen.LEFT_EYE_VIEW = 2 ∧
      VideoQuadScreen.RIGHT_EYE_VIEW = 1 ∧ VideoQuadScreen.INVERTED_MONO_VIEW = 3) ∧
    (∀ view ∈ [VideoQuadScreen.MONO_VIEW, VideoQuadScreen.LEFT_EYE_VIEW,
        VideoQuadScreen.RIGHT_EYE_VIEW, VideoQuadScreen.INVERTED_MONO_VIEW],
      (0 ≤ view ∧ view < 4) ∧
      ∀ (dev : Device) (tex : Nat) (m : List Rat),
        (VideoQuadScreen.Draw dev tex m view).isSome = true) := by
  have hgi : GetInstance w id = (w, pObj) := by
    unfold GetInstance; simp only [hreg]
  have h6 : ∀ k : Int, k ≠ 6 → EventOperation id = k → id ≠ EVENT_UE4INITIALIZE := by
    intro k hk hop e
    rw [e] at hop
    exact hk (by rw [← hop]; decide)
  have hmain : ∀ k : Int, k ≠ 6 → EventOperation id = k →
      OnRenderEvent w id env =
        if k = EVENT_INITIALIZE then
          match w.heap pObj with
          | none => none
          | some p =>
            some ({ w with
              device := (p.CreateVideoTexture w.device w.video_texture_class env.create).2 }.store
                pObj (p.CreateVideoTexture w.device w.video_texture_class env.create).1)
        else if k = EVENT_UPDATE then DoVideoUpdate w pObj env.update
        else if k = EVENT_SHUTDOWN then some w
        else if k = EVENT_RENDER_MONO then
          GetTextureData w pObj VideoQuadScreen.MONO_VIEW env.render
        else if k = EVENT_RENDER_LEFT then
          GetTextureData w pObj VideoQuadScreen.LEFT_EYE_VIEW env.render
        else if k = EVENT_RENDER_RIGHT then
          GetTextureData w pObj VideoQuadScreen.RIGHT_EYE_VIEW env.render
        else if k = EVENT_RENDER_INVERTED_MONO then
          GetTextureData w pObj VideoQuadScreen.INVERTED_MONO_VIEW env.render
        else some w := by
    intro k hk hop
    unfold OnRenderEvent
    rw [if_neg (h6 k hk hop), hgi]
    simp only [hop, if_neg hne]
  refine ⟨fun h => ?_, fun h => ?_, fun h => ?_, fun h => ?_, fun h => ?_, fun h => ?_,
    fun h => ?_, ⟨rfl, rfl, rfl, rfl⟩, ?_⟩
  · rw [hmain 0 (by decide) h]; rfl
  · rw [hmain 1 (by decide) h]; rfl
  · rw [hmain 5 (by decide) h]; rfl
  · rw [hmain 2 (by decide) h]; rfl
  · rw [hmain 3 (by decide) h]; rfl
  · rw [hmain 4 (by decide) h]; rfl
  · rw [hmain 7 (by decide) h]; rfl
  · intro view hv
    simp only [List.mem_cons, List.mem_singleton, List.not_mem_nil, or_false] at hv
    have hrange : 0 ≤ view ∧ view < 4 := by
      rcases hv with h | h | h | h <;> subst h <;> decide
    refine ⟨hrange, fun dev tex m => ?_⟩
    by_cases ht : tex ≤ 0
    · simp [VideoQuadScreen.Draw, ht]
    · simp [VideoQuadScreen.Draw, ht, hrange]

/-- Witness of C10: event 203 for the player registered under index 2 runs the copy
pass with the left-eye view. -/
theorem onRenderEvent_dispatch_witness :
    OnRenderEvent readyWorld 203 goodEnv = GetTextureData readyWorld 1 2 goodEnv.render :=
  (onRenderEvent_dispatch readyWorld 203 goodEnv 1 rfl (by decide)).2.2.2.2.1 (by decide)

/-! ## The vertex tables of the video quad -/

/-- The four corners of the unit square of texture coordinates. -/
theorem texCoord_screen :
    (List.range 4).map (VideoQuadScreen.texCoord screen_vertices)
      = [(0, 1), (0, 0), (1, 0), (1, 1)] := by
  simp [List.range, List.range.loop, VideoQuadScreen.texCoord, screen_vertices,
    VideoQuadScreen.kVertexStride, VideoQuadScreen.kTexCoordOffset]

/-- C15: the MONO and INVERTED_MONO tables, which `InitGL` uploads for the views
`MONO_VIEW` and `INVERTED_MONO_VIEW`, hold four vertices each with the same positions
(-0.5,0.5,0), (-0.5,-0.5,0), (0.5,-0.5,0), (0.5,0.5,0) in this order and the same U
at every vertex; the texture coordinates of each table are a permutation of the four
corners of the unit square; at every vertex the V of the inverted table is one minus
the V of the mono table; and the mono table gives V = 1 exactly to the vertices of the
top edge, y = 0.5. -/
theorem mono_inverted_tables :
    VideoQuadScreen.bufferData VideoQuadScreen.MONO_VIEW = some screen_vertices ∧
    VideoQuadScreen.bufferData VideoQuadScreen.INVERTED_MONO_VIEW
      = some inverted_screen_vertices ∧
    screen_vertices.length = 4 * VideoQuadScreen.kVertexStride ∧
    inverted_screen_vertices.length = 4 * VideoQuadScreen.kVertexStride ∧
    VideoQuadScreen.kNumScreenVertices = 4 ∧
    (List.range 4).map (VideoQuadScreen.position screen_vertices)
      = [(-1/2, 1/2, 0), (-1/2, -1/2, 0), (1/2, -1/2, 0), (1/2, 1/2, 0)] ∧
    (List.range 4).map (VideoQuadScreen.position inverted_screen_vertices)
      = (List.range 4).map (VideoQuadScreen.position screen_vertices) ∧
    (∀ i, i < 4 → (VideoQuadScreen.texCoord inverted_screen_vertices i).1
      = (VideoQuadScreen.texCoord screen_vertices i).1) ∧
    List.Perm ((List.range 4).map (VideoQuadScreen.texCoord screen_vertices))
      [(0, 0), (0, 1), (1, 0), (1, 1)] ∧
    List.Perm ((List.range 4).map (VideoQuadScreen.texCoord inverted_screen_vertices))
      [(0, 0), (0, 1), (1, 0), (1, 1)] ∧
    (∀ i, i < 4 → (VideoQuadScreen.texCoord inverted_screen_vertices i).2
      = 1 - (VideoQuadScreen.texCoord screen_vertices i).2) ∧
    (∀ i, i < 4 → ((VideoQuadScreen.texCoord screen_vertices i).2 = 1
      ↔ (VideoQuadScreen.position screen_vertices i).2.1 = 1/2)) := by
  refine ⟨rfl, rfl, rfl, rfl, rfl, ?_, ?_, ?_, ?_, ?_, ?_, ?_⟩
  · simp [List.range, List.range.loop, VideoQuadScreen.position, screen_vertices,
      VideoQuadScreen.kVertexStride]
  · simp [List.range, List.range.loop, VideoQuadScreen.position, screen_vertices,
      inverted_screen_vertices, VideoQuadScreen.kVertexStride]
  · intro i hi
    interval_cases i <;>
      simp [VideoQuadScreen.texCoord, screen_vertices, inverted_screen_vertices,
        VideoQuadScreen.kVertexStride, VideoQuadScreen.kTexCoordOffset]
  · rw [texCoord_screen]
    exact (List.Perm.swap _ _ _).trans (List.Perm.refl _)
  · have h : (List.range 4).map (VideoQuadScreen.texCoord inverted_screen_vertices)
        = [((0 : Rat), (0 : Rat)), (0, 1), (1, 1), (1, 0)] := by
      simp [List.range, List.range.loop, VideoQuadScreen.texCoord, inverted_screen_vertices,
        VideoQuadScreen.kVertexStride, VideoQuadScreen.kTexCoordOffset]
    rw [h]
    exact List.Perm.cons _ (List.Perm.cons _ (List.Perm.swap _ _ _))
  · intro i hi
    interval_cases i <;>
      norm_num [VideoQuadScreen.texCoord, screen_vertices, inverted_screen_vertices,
        VideoQuadScreen.kVertexStride, VideoQuadScreen.kTexCoordOffset]
  · intro i hi
    interval_cases i <;>
      norm_num [VideoQuadScreen.texCoord, VideoQuadScreen.position, screen_vertices,
        VideoQuadScreen.kVertexStride, VideoQuadScreen.kTexCoordOffset]

/-- C16: the LEFT_EYE and RIGHT_EYE tables, which `InitGL` uploads for the views
`LEFT_EYE_VIEW` and `RIGHT_EYE_VIEW`, hold the same four positions as the mono table;
at every vertex their U is one minus the mono U, the left V is half the mono V and the
right V is one half plus half the mono V; so the V values of the left table lie in
[0, 0.5] and reach both ends, and those of the right table lie in [0.5, 1] and reach
both ends. -/
theorem eye_tables :
    VideoQuadScreen.bufferData VideoQuadScreen.LEFT_EYE_VIEW = some left_vertices ∧
    VideoQuadScreen.bufferData VideoQuadScreen.RIGHT_EYE_VIEW = some right_vertices ∧
    left_vertices.length = 4 * VideoQuadScreen.kVertexStride ∧
    right_vertices.length = 4 * VideoQuadScreen.kVertexStride ∧
    (List.range 4).map (VideoQuadScreen.position left_vertices)
      = (List.range 4).map (VideoQuadScreen.position screen_vertices) ∧
    (List.range 4).map (VideoQuadScreen.position right_vertices)
      = (List.range 4).map (VideoQuadScreen.position screen_vertices) ∧
    (∀ i, i < 4 →
      (VideoQuadScreen.texCoord left_vertices i).1
        = 1 - (VideoQuadScreen.texCoord screen_vertices i).1 ∧
      (VideoQuadScreen.texCoord right_vertices i).1
        = 1 - (VideoQuadScreen.texCoord screen_vertices i).1 ∧
      (VideoQuadScreen.texCoord left_vertices i).2
        = (VideoQuadScreen.texCoord screen_vertices i).2 / 2 ∧
      (VideoQuadScreen.texCoord right_vertices i).2
        = 1/2 + (VideoQuadScreen.texCoord screen_vertices i).2 / 2) ∧
    (∀ i, i < 4 → 0 ≤ (VideoQuadScreen.texCoord left_vertices i).2 ∧
      (VideoQuadScreen.texCoord left_vertices i).2 ≤ 1/2) ∧
    (∀ i, i < 4 → 1/2 ≤ (VideoQuadScreen.texCoord right_vertices i).2 ∧
      (VideoQuadScreen.texCoord right_vertices i).2 ≤ 1) ∧
    (VideoQuadScreen.texCoord left_vertices 1).2 = 0 ∧
    (VideoQuadScreen.texCoord left_vertices 0).2 = 1/2 ∧
    (VideoQuadScreen.texCoord right_vertices 1).2 = 1/2 ∧
    (VideoQuadScreen.texCoord right_vertices 0).2 = 1 := by
  refine ⟨rfl, rfl, rfl, rfl, ?_, ?_, ?_, ?_, ?_, ?_, ?_, ?_, ?_⟩
  · simp [List.range, List.range.loop, VideoQuadScreen.position, screen_vertices,
      left_vertices, VideoQuadScreen.kVertexStride]
  · simp [List.range, List.range.loop, VideoQuadScreen.position, screen_vertices,
      right_vertices, VideoQuadScreen.kVertexStride]
  · intro i hi
    interval_cases i <;>
      norm_num [VideoQuadScreen.texCoord, screen_vertices, left_vertices, right_vertices,
        VideoQuadScreen.kVertexStride, VideoQuadScreen.kTexCoordOffset]
  · intro i hi
    interval_cases i <;>
      norm_num [VideoQuadScreen.texCoord, left_vertices,
        VideoQuadScreen.kVertexStride, VideoQuadScreen.kTexCoordOffset]
  · intro i hi
    interval_cases i <;>
      norm_num [VideoQuadScreen.texCoord, right_vertices,
        VideoQuadScreen.kVertexStride, VideoQuadScreen.kTexCoordOffset]
  · norm_num [VideoQuadScreen.texCoord, left_vertices,
      VideoQuadScreen.kVertexStride, VideoQuadScreen.kTexCoordOffset]
  · norm_num [VideoQuadScreen.texCoord, left_vertices,
      VideoQuadScreen.kVertexStride, VideoQuadScreen.kTexCoordOffset]
  · norm_num [VideoQuadScreen.texCoord, right_vertices,
      VideoQuadScreen.kVertexStride, VideoQuadScreen.kTexCoordOffset]
  · norm_num [VideoQuadScreen.texCoord, right_vertices,
      VideoQuadScreen.kVertexStride, VideoQuadScreen.kTexCoordOffset]

/-! ## Events that run no pipeline operation -/

/-- The dispatch of `OnRenderEvent` for an event id, other than the bare id 6, whose
instance is registered. -/
theorem onRenderEvent_registered {w : World} {id : Int} {pObj : Ptr} (env : EventEnv)
    (hreg : w.g_instances (Int.tdiv id 100) = some pObj) (hne : pObj ≠ 0)
    (h6 : id ≠ EVENT_UE4INITIALIZE) :
    OnRenderEvent w id env =
      if EventOperation id = EVENT_INITIALIZE then
        match w.heap pObj with
        | none => none
        | some p =>
          some ({ w with
            device := (p.CreateVideoTexture w.device w.video_texture_class env.create).2 }.store
              pObj (p.CreateVideoTexture w.device w.video_texture_class env.create).1)
      else if EventOperation id = EVENT_UPDATE then DoVideoUpdate w pObj env.update
      else if EventOperation id = EVENT_SHUTDOWN then some w
      else if EventOperation id = EVENT_RENDER_MONO then
        GetTextureData w pObj VideoQuadScreen.MONO_VIEW env.render
      else if EventOperation id = EVENT_RENDER_LEFT then
        GetTextureData w pObj VideoQuadScreen.LEFT_EYE_VIEW env.render
      else if EventOperation id = EVENT_RENDER_RIGHT then
        GetTextureData w pObj VideoQuadScreen.RIGHT_EYE_VIEW env.render
      else if EventOperation id = EVENT_RENDER_INVERTED_MONO then
        GetTextureData w pObj VideoQuadScreen.INVERTED_MONO_VIEW env.render
      else some w := by
  have hgi : GetInstance w id = (w, pObj) := by
    unfold GetInstance; simp only [hreg]
  unfold OnRenderEvent
  rw [if_neg h6, hgi]
  simp only [if_neg hne]

/-- In a consistent registry no instance is registered under index 0, so the bare
id 6 addresses no instance. -/
theorem registered_ne_ue4 {w : World} {id : Int} {pObj : Ptr} (hok : RegistryOK w)
    (hreg : w.g_instances (Int.tdiv id 100) = some pObj) (hne : pObj ≠ 0) :
    id ≠ EVENT_UE4INITIALIZE := by
  intro e
  subst e
  have h2 := (hok.2.2.2.2 _ pObj hreg hne).1
  have h0 : Int.tdiv EVENT_UE4INITIALIZE 100 = 0 := by decide
  rw [h0] at h2
  exact absurd h2 (by decide)

/-- C11: for an event id whose instance is registered (the id is not the bare
initialisation event 6, or the registry is consistent, in which case no instance is
registered under the index 0 of the id 6) and whose operation code is not one of
0, 1, 2, 3, 4, 5, 7, `OnRenderEvent` returns with the whole process state unchanged:
no player member changes, `InitGL` is not run and the call log gets no entry, so no
draw call is issued. -/
theorem onRenderEvent_unknown (w : World) (id : Int) (env : EventEnv) (pObj : Ptr)
    (hreg : w.g_instances (Int.tdiv id 100) = some pObj) (hne : pObj ≠ 0)
    (h6 : id ≠ EVENT_UE4INITIALIZE ∨ RegistryOK w)
    (hop : EventOperation id ∉ [0, 1, 2, 3, 4, 5, 7]) :
    OnRenderEvent w id env = some w := by
  have hid : id ≠ EVENT_UE4INITIALIZE := by
    rcases h6 with h | h
    · exact h
    · exact registered_ne_ue4 h hreg hne
  simp only [List.mem_cons, List.mem_singleton, List.not_mem_nil, or_false, not_or] at hop
  obtain ⟨h0, h1, h2, h3, h4, h5, h7⟩ := hop
  rw [onRenderEvent_registered env hreg hne hid]
  have e0 : EVENT_INITIALIZE = 0 := rfl
  have e1 : EVENT_UPDATE = 1 := rfl
  have e2 : EVENT_RENDER_MONO = 2 := rfl
  have e3 : EVENT_RENDER_LEFT = 3 := rfl
  have e4 : EVENT_RENDER_RIGHT = 4 := rfl
  have e5 : EVENT_SHUTDOWN = 5 := rfl
  have e7 : EVENT_RENDER_INVERTED_MONO = 7 := rfl
  rw [e0, e1, e2, e3, e4, e5, e7, if_neg h0, if_neg h1, if_neg h5, if_neg h2, if_neg h3,
    if_neg h4, if_neg h7]

/-- Witness of C11: the events 206 (operation 6 in a per-instance id), 250 and 299 for
the player registered under index 2 leave the process as it is. -/
theorem onRenderEvent_unknown_witness :
    OnRenderEvent readyWorld 206 goodEnv = some readyWorld ∧
    OnRenderEvent readyWorld 250 goodEnv = some readyWorld ∧
    OnRenderEvent readyWorld 299 goodEnv = some readyWorld :=
  ⟨onRenderEvent_unknown readyWorld 206 goodEnv 1 rfl (by decide) (Or.inl (by decide))
      (by decide),
    onRenderEvent_unknown readyWorld 250 goodEnv 1 rfl (by decide) (Or.inl (by decide))
      (by decide),
    onRenderEvent_unknown readyWorld 299 goodEnv 1 rfl (by decide) (Or.inl (by decide))
      (by decide)⟩

/-! ## The framebuffer calls in detail -/

theorem issue_issue (dev : Device) (a b : List Call) :
    (dev.issue a).issue b = dev.issue (a ++ b) := by
  simp [Device.issue, List.append_assoc]

theorem issue_nil (dev : Device) : dev.issue [] = dev := by
  simp [Device.issue]

/-- The result of `ReInitialize`: the old framebuffer object, if there is one, is
deleted and a new one is created for the texture, whatever the old texture was. -/
theorem reInitialize_eq (fb : FrameBuffer) (dev : Device) (t : ExternalTexture)
    (env : InitEnv) :
    fb.ReInitialize dev t env =
      (decide (env.status = GL_FRAMEBUFFER_COMPLETE) && decide (env.endError = GL_NO_ERROR),
        { framebufferID := env.genId, externalTexture := t },
        dev.issue ((if fb.framebufferID ≠ 0 then [Call.deleteFramebuffers fb.framebufferID]
          else []) ++ createCalls env.genId t)) := by
  by_cases h : fb.framebufferID = 0
  · simp [FrameBuffer.ReInitialize, FrameBuffer.Initialize, h, createCalls]
  · simp [FrameBuffer.ReInitialize, FrameBuffer.Initialize, h, createCalls, issue_issue]

/-- The calls of `Initialize` are framebuffer calls. -/
theorem initialize_issued (fb : FrameBuffer) (dev : Device) (env : InitEnv) :
    ∃ l, (fb.Initialize dev env).2.2 = dev.issue l ∧ l.all Call.isFramebufferCall = true := by
  unfold FrameBuffer.Initialize
  split
  · exact ⟨_, rfl, rfl⟩
  · exact ⟨[], (issue_nil dev).symm, rfl⟩

/-- The calls of `Bind` are framebuffer calls. -/
theorem bind_issued (fb : FrameBuffer) (dev : Device) (env : BindEnv) :
    ∃ l, (fb.Bind dev env).2.2 = dev.issue l ∧ l.all Call.isFramebufferCall = true := by
  obtain ⟨l, hl, hall⟩ := initialize_issued fb dev env.init
  unfold FrameBuffer.Bind
  split <;> rename_i fb1 dev1 heq <;> rw [heq] at hl <;> simp only at hl <;> subst hl
  · exact ⟨l ++ [Call.bindFramebuffer fb1.framebufferID], by rw [issue_issue],
      by simp [hall, Call.isFramebufferCall]⟩
  · exact ⟨l ++ [Call.deleteFramebuffers fb1.framebufferID], by rw [issue_issue],
      by simp [hall, Call.isFramebufferCall]⟩

/-- The calls of `StartFramebuffer` are framebuffer calls. -/
theorem startFramebuffer_issued {fb : FrameBuffer} {dev : Device} {p : VideoPlayerImpl}
    {env : StartEnv} {b : Bool} {fb1 : FrameBuffer} {dev1 : Device}
    (h : StartFramebuffer fb dev p env = some (b, fb1, dev1)) :
    ∃ l, dev1 = dev.issue l ∧ l.all Call.isFramebufferCall = true := by
  unfold StartFramebuffer at h
  split at h
  · exact absurd h (by simp)
  rename_i texture htex
  by_cases hne : ExternalTexture.opNe fb.GetExternalTexture texture = true
  · simp only [hne, if_true, reInitialize_eq] at h
    have hall : (((if fb.framebufferID ≠ 0 then [Call.deleteFramebuffers fb.framebufferID]
        else []) ++ createCalls env.reinit.genId texture).all Call.isFramebufferCall) = true := by
      by_cases h0 : fb.framebufferID = 0 <;> simp [h0, createCalls, Call.isFramebufferCall]
    split at h <;> rename_i heq
    · simp only [Prod.mk.injEq] at heq
      obtain ⟨-, rfl, rfl⟩ := heq
      simp only [Option.some.injEq] at h
      obtain ⟨l, hl, hl2⟩ := bind_issued
        { framebufferID := env.reinit.genId, externalTexture := texture }
        (dev.issue ((if fb.framebufferID ≠ 0 then [Call.deleteFramebuffers fb.framebufferID]
          else []) ++ createCalls env.reinit.genId texture)) env.bind
      rw [h] at hl
      simp only at hl
      refine ⟨_, by rw [hl, issue_issue], ?_⟩
      rw [List.all_append, hall, hl2]
      rfl
    · simp only [Prod.mk.injEq] at heq
      obtain ⟨-, rfl, rfl⟩ := heq
      simp only [Option.some.injEq, Prod.mk.injEq] at h
      obtain ⟨-, -, rfl⟩ := h
      exact ⟨_, rfl, hall⟩
  · simp only [hne] at h
    simp only [Bool.false_eq_true, if_false, Option.some.injEq] at h
    obtain ⟨l, hl, hl2⟩ := bind_issued fb dev env.bind
    rw [h] at hl
    exact ⟨l, hl, hl2⟩

/-- `StartFramebuffer` is defined whenever the drawable slot exists. -/
theorem startFramebuffer_defined (fb : FrameBuffer) (dev : Device) (p : VideoPlayerImpl)
    (env : StartEnv) (texture : ExternalTexture)
    (htex : p.GetDrawableExternalTexture = some texture) :
    ∃ b fb1 dev1, StartFramebuffer fb dev p env = some (b, fb1, dev1) := by
  unfold StartFramebuffer
  rw [htex]
  simp only
  split
  · exact ⟨_, _, _, rfl⟩
  · exact ⟨_, _, _, rfl⟩

/-! ## `ReInitialize` twice -/

/-- C20, as amended: for every framebuffer state and every texture `t`, a second
consecutive `ReInitialize(t)` deletes the framebuffer object the first call created
(the name `glGenFramebuffers` returned then, if it is not 0) and creates a new one for
`t`: afterwards the framebuffer id is the name `glGenFramebuffers` returns in the
second call, and the bound texture is `t` after both calls. -/
theorem reInitialize_twice (fb : FrameBuffer) (dev : Device) (t : ExternalTexture)
    (env1 env2 : InitEnv) :
    (fb.ReInitialize dev t env1).2.1 = { framebufferID := env1.genId, externalTexture := t } ∧
    ((fb.ReInitialize dev t env1).2.1.ReInitialize (fb.ReInitialize dev t env1).2.2 t env2).2.1
      = { framebufferID := env2.genId, externalTexture := t } ∧
    ((fb.ReInitialize dev t env1).2.1.ReInitialize (fb.ReInitialize dev t env1).2.2 t env2).2.2
      = (fb.ReInitialize dev t env1).2.2.issue
          ((if env1.genId ≠ 0 then [Call.deleteFramebuffers env1.genId] else []) ++
            createCalls env2.genId t) := by
  refine ⟨?_, ?_, ?_⟩
  · rw [reInitialize_eq]
  · rw [reInitialize_eq]
  · rw [reInitialize_eq, reInitialize_eq]

/-- Counterexample to C20 as stated: after a first `ReInitialize` for the texture
(11, 64, 32) has created the framebuffer object 3, a second `ReInitialize` for the
same texture, in which `glGenFramebuffers` returns 4, deletes the object 3, creates
the object 4 and leaves the framebuffer id 4. -/
theorem reInitialize_twice_churns :
    (({ framebufferID := 0, externalTexture := ExternalTexture.default } :
        FrameBuffer).ReInitialize engineDevice ⟨11, 64, 32⟩
      { genId := 3, status := GL_FRAMEBUFFER_COMPLETE, endError := GL_NO_ERROR }).2.1
      = boundFramebuffer ∧
    boundFramebuffer.ReInitialize engineDevice ⟨11, 64, 32⟩ secondInit =
      (true, { framebufferID := 4, externalTexture := ⟨11, 64, 32⟩ },
        engineDevice.issue
          [ Call.deleteFramebuffers 3, Call.genFramebuffers 4, Call.bindFramebuffer 4,
            Call.bindTexture2D 11, Call.framebufferTexture2D 11, Call.drawBuffers ]) := by
  constructor <;> decide

/-! ## The copy pass in detail -/

theorem getVideoTextureId_eq {p : VideoPlayerImpl} {dev : Device} {j : Int} {id : Nat}
    {dev1 : Device} (h : p.GetVideoTextureId dev j = some (id, dev1)) :
    p.video_texture_obj ≠ 0 ∧ id = toGLuint j ∧
    dev1 = dev.issue [textureIdQuery p] := by
  unfold VideoPlayerImpl.GetVideoTextureId at h
  split at h
  · exact absurd h (by simp)
  · rename_i hobj
    simp only [Option.some.injEq, Prod.mk.injEq] at h
    exact ⟨hobj, h.1.symm, h.2.symm⟩

theorem getVideoTextureId_of_ne {p : VideoPlayerImpl} (dev : Device) (j : Int)
    (hobj : p.video_texture_obj ≠ 0) :
    p.GetVideoTextureId dev j = some (toGLuint j, dev.issue [textureIdQuery p]) := by
  unfold VideoPlayerImpl.GetVideoTextureId
  rw [if_neg hobj]
  rfl

/-- The calls of `VideoQuadScreen::Draw`: none for the texture id 0, the seven calls
`drawCalls` for every other id. -/
theorem draw_eq (dev : Device) (id : Nat) (m : List Rat) (view : Int)
    (hview : 0 ≤ view ∧ view < 4) :
    VideoQuadScreen.Draw dev id m view =
      some (dev.issue (if id = 0 then [] else drawCalls id m view)) := by
  unfold VideoQuadScreen.Draw
  by_cases h0 : id = 0
  · subst h0
    simp [issue_nil]
  · have : ¬ id ≤ 0 := by omega
    simp only [this, if_false, hview, and_self, if_true, h0, drawCalls]

/-- The calls of `DrawVideo`: the query of the texture id, then those of `Draw`. -/
theorem drawVideo_eq (p : VideoPlayerImpl) (dev : Device) (view : Int) (t : Int)
    (hobj : p.video_texture_obj ≠ 0) (hview : 0 ≤ view ∧ view < 4) :
    p.DrawVideo dev view t =
      some (dev.issue
        (textureIdQuery p ::
          (if toGLuint t = 0 then [] else drawCalls (toGLuint t) p.videoMatrix view))) := by
  unfold VideoPlayerImpl.DrawVideo
  rw [getVideoTextureId_of_ne dev t hobj]
  simp only
  rw [draw_eq _ _ _ _ hview, issue_issue]
  rfl

/-- Setting a state whose viewport has a non-negative width and height makes it the
current state. -/
theorem setGraphicsState_state (dev : Device) (s : GraphicsState) (o : Option GraphicsState)
    (hw : 0 ≤ s.Viewport.2.2.1) (hh : 0 ≤ s.Viewport.2.2.2) :
    (SetGraphicsState dev s o).1.graphicsState = s := by
  have hv : ¬ (s.Viewport.2.2.1 < 0 ∨ s.Viewport.2.2.2 < 0) := by omega
  simp only [SetGraphicsState, Device.graphicsState, if_neg hv]

theorem setGraphicsState_calls (dev : Device) (s : GraphicsState) (o : Option GraphicsState) :
    (SetGraphicsState dev s o).1.calls =
      dev.calls ++ ((if o.isSome then [Call.getGraphicsState] else []) ++
        [Call.setGraphicsState s]) := by
  cases o <;> simp [SetGraphicsState, Device.issue]

/-- The outcomes of `GetTextureData`: either it returns before the copy pass, having
only asked the surface for its texture id, or the flag is set and the copy pass runs
on the drawable slot: the state is saved and forced, `StartFramebuffer` issues
framebuffer calls only, on failure the saved state is set again, and on success the
buffer is cleared, `DrawVideo` runs once, the framebuffer is unbound, the flag is
cleared and the saved state is set again. -/
theorem getTextureData_cases {w w1 : World} {pObj : Ptr} {view : Int} {env : RenderEnv}
    (h : GetTextureData w pObj view env = some w1) :
    ∃ p, w.heap pObj = some p ∧ p.video_texture_obj ≠ 0 ∧
      (w1 = { w with device := w.device.issue [textureIdQuery p] } ∨
       (p.newFrameAvail = true ∧
        ∃ texture b fb1 l,
          p.GetDrawableExternalTexture = some texture ∧
          l.all Call.isFramebufferCall = true ∧
          StartFramebuffer w.g_framebuffer (copyEntry w p texture) p env.start =
            some (b, fb1, (copyEntry w p texture).issue l) ∧
          ((b = false ∧
            w1 = { w with
              g_GraphicsState := copyState texture
              g_framebuffer := fb1
              device := (SetGraphicsState ((copyEntry w p texture).issue l)
                w.device.graphicsState none).1 }) ∨
           (b = true ∧ ∃ dev3,
            p.DrawVideo (((copyEntry w p texture).issue l).issue [Call.clear])
              view env.drawTextureId = some dev3 ∧
            w1 = { w with
              g_GraphicsState := copyState texture
              g_framebuffer := fb1
              device := (SetGraphicsState (dev3.issue [Call.bindFramebuffer 0])
                w.device.graphicsState none).1 }.store pObj p.FrameDrawn)))) := by
  unfold GetTextureData at h
  split at h
  · exact absurd h (by simp)
  rename_i p hp
  split at h
  · exact absurd h (by simp)
  rename_i id dev0 hid
  obtain ⟨hobj, -, rfl⟩ := getVideoTextureId_eq hid
  refine ⟨p, hp, hobj, ?_⟩
  simp only at h
  split at h
  · simp only [Option.some.injEq] at h; exact Or.inl h.symm
  split at h
  · simp only [Option.some.injEq] at h; exact Or.inl h.symm
  split at h
  · exact absurd h (by simp)
  rename_i texture htex
  split at h
  · simp only [Option.some.injEq] at h; exact Or.inl h.symm
  split at h
  · simp only [Option.some.injEq] at h; exact Or.inl h.symm
  split at h
  · simp only [Option.some.injEq] at h; exact Or.inl h.symm
  rename_i hflag
  have hflag1 : p.newFrameAvail = true := by
    simpa [VideoPlayerImpl.IsNewFrameAvailable] using hflag
  refine Or.inr ⟨hflag1, texture, ?_⟩
  split at h
  · exact absurd h (by simp)
  · rename_i fb1 dev2 hstart
    obtain ⟨l, rfl, hall⟩ := startFramebuffer_issued hstart
    refine ⟨true, fb1, l, htex, hall, hstart, Or.inr ⟨rfl, ?_⟩⟩
    split at h
    · exact absurd h (by simp)
    · rename_i dev3 hdraw
      simp only [Option.some.injEq] at h
      exact ⟨dev3, hdraw, h.symm⟩
  · rename_i fb1 dev2 hstart
    obtain ⟨l, rfl, hall⟩ := startFramebuffer_issued hstart
    simp only [Option.some.injEq] at h
    exact ⟨false, fb1, l, htex, hall, hstart, Or.inl ⟨rfl, h.symm⟩⟩

/-- The copy pass once it has been reached: `StartFramebuffer` is defined and issues
framebuffer calls only; if it fails the saved state is set again and nothing else
happens, if it succeeds the buffer is cleared, `DrawVideo` runs once, the framebuffer
is unbound, `FrameDrawn` runs and the saved state is set again. -/
theorem getTextureData_copy {w : World} {pObj : Ptr} {p : VideoPlayerImpl} (view : Int)
    {env : RenderEnv} {holder : VideoPlayerHolder} {texture : ExternalTexture}
    (hp : w.heap pObj = some p) (hobj : p.video_texture_obj ≠ 0)
    (hid : 0 < toGLint (toGLuint env.videoTextureId))
    (hholder : p.GetVideoPlayer = some holder)
    (hready : holder.IsVideoReady env.jniReady = true)
    (htex : p.GetDrawableExternalTexture = some texture) (hnz : texture.GetTexture ≠ 0)
    (hist : env.isTexture = true) (hflag : p.newFrameAvail = true) :
    ∃ b fb1 l, l.all Call.isFramebufferCall = true ∧
      StartFramebuffer w.g_framebuffer (copyEntry w p texture) p env.start =
        some (b, fb1, (copyEntry w p texture).issue l) ∧
      GetTextureData w pObj view env =
        if b then
          match p.DrawVideo (((copyEntry w p texture).issue l).issue [Call.clear]) view
              env.drawTextureId with
          | none => none
          | some dev3 =>
            some ({ w with
              g_GraphicsState := copyState texture
              g_framebuffer := fb1
              device := (SetGraphicsState (dev3.issue [Call.bindFramebuffer 0])
                w.device.graphicsState none).1 }.store pObj p.FrameDrawn)
        else
          some { w with
            g_GraphicsState := copyState texture
            g_framebuffer := fb1
            device := (SetGraphicsState ((copyEntry w p texture).issue l)
              w.device.graphicsState none).1 } := by
  obtain ⟨b, fb1, dev2, hstart⟩ :=
    startFramebuffer_defined w.g_framebuffer (copyEntry w p texture) p env.start texture htex
  obtain ⟨l, rfl, hall⟩ := startFramebuffer_issued hstart
  refine ⟨b, fb1, l, hall, hstart, ?_⟩
  have hstart2 : StartFramebuffer w.g_framebuffer
      (SetGraphicsState (w.device.issue [textureIdQuery p]) (copyState texture)
        (some (copyState texture))).1 p env.start =
      some (b, fb1, (copyEntry w p texture).issue l) := hstart
  have hle : ¬ toGLint (toGLuint env.videoTextureId) ≤ 0 := by omega
  unfold GetTextureData
  rw [hp]
  simp only
  rw [getVideoTextureId_of_ne w.device env.videoTextureId hobj]
  simp only [hle, if_false, hholder, hready, htex, hnz, hist,
    VideoPlayerImpl.IsNewFrameAvailable, hflag, Bool.not_true, Bool.false_eq_true]
  cases b with
  | true =>
    simp only [if_true]
    have := hstart2
    unfold copyState at this
    rw [this]
    rfl
  | false =>
    have := hstart2
    unfold copyState at this
    simp only [Bool.false_eq_true, if_false]
    rw [this]
    rfl

theorem copyEntry_calls (w : World) (p : VideoPlayerImpl) (texture : ExternalTexture) :
    (copyEntry w p texture).calls = w.device.calls ++
      [textureIdQuery p, Call.getGraphicsState, Call.setGraphicsState (copyState texture)] := by
  simp [copyEntry, setGraphicsState_calls, Device.issue]

/-! ## Claims on the copy pass -/

/-- C17: if the viewport of the engine has a non-negative width and height (GL holds
no other viewport), then after `GetTextureData` returns, whether it returned early,
the copy pass succeeded or `StartFramebuffer` failed, the values of cull-face, blend,
depth-test, depth-mask, depth-func and viewport are those from before the call. -/
theorem getTextureData_restores (w w1 : World) (pObj : Ptr) (view : Int) (env : RenderEnv)
    (hw : 0 ≤ w.device.viewport.2.2.1) (hh : 0 ≤ w.device.viewport.2.2.2)
    (h : GetTextureData w pObj view env = some w1) :
    w1.device.cullFace = w.device.cullFace ∧ w1.device.blend = w.device.blend ∧
    w1.device.depthTest = w.device.depthTest ∧ w1.device.depthMask = w.device.depthMask ∧
    w1.device.depthFunc = w.device.depthFunc ∧ w1.device.viewport = w.device.viewport := by
  have key : w1.device.graphicsState = w.device.graphicsState := by
    obtain ⟨p, -, -, hcase⟩ := getTextureData_cases h
    rcases hcase with rfl | ⟨-, texture, b, fb1, l, -, -, -, hb⟩
    · rfl
    · rcases hb with ⟨-, rfl⟩ | ⟨-, dev3, -, rfl⟩
      · exact setGraphicsState_state _ _ _ hw hh
      · exact setGraphicsState_state _ _ _ hw hh
  have hc := congrArg GraphicsState.Cullface key
  have hb := congrArg GraphicsState.Blend key
  have ht := congrArg GraphicsState.DepthTest key
  have hm := congrArg GraphicsState.DepthMask key
  have hf := congrArg GraphicsState.DepthFunc key
  have hv := congrArg GraphicsState.Viewport key
  exact ⟨hc, hb, ht, hm, hf, hv⟩

/-- Witness of C17: a left-eye copy pass that succeeds and one in which the
framebuffer is incomplete, both in the engine state with culling, blending and a
1920 x 1080 viewport. -/
theorem getTextureData_restores_witness :
    (((GetTextureData rotatedWorld 1 2 goodEnv.render).getD rotatedWorld).device.cullFace
        = rotatedWorld.device.cullFace ∧
      ((GetTextureData rotatedWorld 1 2 goodEnv.render).getD rotatedWorld).device.blend
        = rotatedWorld.device.blend ∧
      ((GetTextureData rotatedWorld 1 2 goodEnv.render).getD rotatedWorld).device.depthTest
        = rotatedWorld.device.depthTest ∧
      ((GetTextureData rotatedWorld 1 2 goodEnv.render).getD rotatedWorld).device.depthMask
        = rotatedWorld.device.depthMask ∧
      ((GetTextureData rotatedWorld 1 2 goodEnv.render).getD rotatedWorld).device.depthFunc
        = rotatedWorld.device.depthFunc ∧
      ((GetTextureData rotatedWorld 1 2 goodEnv.render).getD rotatedWorld).device.viewport
        = rotatedWorld.device.viewport) ∧
    (((GetTextureData rotatedWorld 1 2 incompleteEnv).getD rotatedWorld).device.cullFace
        = rotatedWorld.device.cullFace ∧
      ((GetTextureData rotatedWorld 1 2 incompleteEnv).getD rotatedWorld).device.blend
        = rotatedWorld.device.blend ∧
      ((GetTextureData rotatedWorld 1 2 incompleteEnv).getD rotatedWorld).device.depthTest
        = rotatedWorld.device.depthTest ∧
      ((GetTextureData rotatedWorld 1 2 incompleteEnv).getD rotatedWorld).device.depthMask
        = rotatedWorld.device.depthMask ∧
      ((GetTextureData rotatedWorld 1 2 incompleteEnv).getD rotatedWorld).device.depthFunc
        = rotatedWorld.device.depthFunc ∧
      ((GetTextureData rotatedWorld 1 2 incompleteEnv).getD rotatedWorld).device.viewport
        = rotatedWorld.device.viewport) :=
  ⟨getTextureData_restores rotatedWorld _ 1 2 goodEnv.render (by decide) (by decide)
      (eq_some_getD _ rotatedWorld rfl),
    getTextureData_restores rotatedWorld _ 1 2 incompleteEnv (by decide) (by decide)
      (eq_some_getD _ rotatedWorld rfl)⟩

/-- C18: for a render operation (mono, left, right or inverted mono) on a registered
instance whose new-frame flag is false, the only thing `OnRenderEvent` can do is to
ask the decoder surface for its texture id: every result is the process state with
that one JNI call added to the log (so no GL state is read or set, no framebuffer
call, clear or draw is issued, and the heap with the indices, flag and matrix of every
player, the framebuffer and the registry are unchanged); and this result is produced
whenever the surface object and the drawable slot exist. -/
theorem render_stale_frame (w : World) (id : Int) (env : EventEnv) (pObj : Ptr)
    (p : VideoPlayerImpl)
    (hreg : w.g_instances (Int.tdiv id 100) = some pObj) (hne : pObj ≠ 0)
    (hp : w.heap pObj = some p) (hflag : p.newFrameAvail = false)
    (hop : EventOperation id ∈ [EVENT_RENDER_MONO, EVENT_RENDER_LEFT, EVENT_RENDER_RIGHT,
      EVENT_RENDER_INVERTED_MONO]) :
    (∀ w1, OnRenderEvent w id env = some w1 →
      w1 = { w with device := w.device.issue [textureIdQuery p] }) ∧
    (p.video_texture_obj ≠ 0 → p.GetDrawableExternalTexture.isSome = true →
      OnRenderEvent w id env = some { w with device := w.device.issue [textureIdQuery p] }) := by
  have hid : id ≠ EVENT_UE4INITIALIZE := by
    intro e
    subst e
    revert hop
    decide
  have hstale : ∀ view,
      (∀ w1, GetTextureData w pObj view env.render = some w1 →
        w1 = { w with device := w.device.issue [textureIdQuery p] }) ∧
      (p.video_texture_obj ≠ 0 → p.GetDrawableExternalTexture.isSome = true →
        GetTextureData w pObj view env.render =
          some { w with device := w.device.issue [textureIdQuery p] }) := by
    intro view
    constructor
    · intro w1 h
      obtain ⟨q, hq, -, hcase⟩ := getTextureData_cases h
      rw [hp] at hq
      simp only [Option.some.injEq] at hq
      subst hq
      rcases hcase with h1 | ⟨h1, -⟩
      · exact h1
      · rw [hflag] at h1
        exact absurd h1 (by simp)
    · intro hobj hslot
      obtain ⟨texture, htex⟩ := Option.isSome_iff_exists.mp hslot
      unfold GetTextureData
      rw [hp]
      simp only
      rw [getVideoTextureId_of_ne w.device env.render.videoTextureId hobj]
      simp only [htex, VideoPlayerImpl.IsNewFrameAvailable, hflag, Bool.not_false, if_true,
        ite_self]
  rw [onRenderEvent_registered env hreg hne hid]
  simp only [List.mem_cons, List.mem_singleton, List.not_mem_nil, or_false] at hop
  rcases hop with h | h | h | h
  · rw [h, if_neg (by decide), if_neg (by decide), if_neg (by decide), if_pos rfl]
    exact hstale _
  · rw [h, if_neg (by decide), if_neg (by decide), if_neg (by decide), if_neg (by decide),
      if_pos rfl]
    exact hstale _
  · rw [h, if_neg (by decide), if_neg (by decide), if_neg (by decide), if_neg (by decide),
      if_neg (by decide), if_pos rfl]
    exact hstale _
  · rw [h, if_neg (by decide), if_neg (by decide), if_neg (by decide), if_neg (by decide),
      if_neg (by decide), if_neg (by decide), if_pos rfl]
    exact hstale _

/-- Witness of C18: the four render events 202, 203, 204 and 207 for the player of
`readyWorld`, whose flag is false, only ask the surface for its texture id. -/
theorem render_stale_frame_witness :
    OnRenderEvent readyWorld 202 goodEnv
      = some { readyWorld with device := readyWorld.device.issue [textureIdQuery readyPlayer] } ∧
    OnRenderEvent readyWorld 203 goodEnv
      = some { readyWorld with device := readyWorld.device.issue [textureIdQuery readyPlayer] } ∧
    OnRenderEvent readyWorld 204 goodEnv
      = some { readyWorld with device := readyWorld.device.issue [textureIdQuery readyPlayer] } ∧
    OnRenderEvent readyWorld 207 goodEnv
      = some { readyWorld with device := readyWorld.device.issue [textureIdQuery readyPlayer] } :=
  ⟨(render_stale_frame readyWorld 202 goodEnv 1 readyPlayer rfl (by decide) rfl rfl
      (by decide)).2 (by decide) rfl,
    (render_stale_frame readyWorld 203 goodEnv 1 readyPlayer rfl (by decide) rfl rfl
      (by decide)).2 (by decide) rfl,
    (render_stale_frame readyWorld 204 goodEnv 1 readyPlayer rfl (by decide) rfl rfl
      (by decide)).2 (by decide) rfl,
    (render_stale_frame readyWorld 207 goodEnv 1 readyPlayer rfl (by decide) rfl rfl
      (by decide)).2 (by decide) rfl⟩

/-- C19: in a render operation that reaches the copy pass (live player with a surface
object, positive texture id, ready decoder, a valid texture in the drawable slot, the
flag set and a view `0 ≤ view < 4`), `StartFramebuffer` returns a boolean `b` after
framebuffer calls `l` only, `GetTextureData` returns, and the flag afterwards is the
negation of `b`, so `FrameDrawn` has run exactly when `b` is true.  If `b` is false the
heap is unchanged and the calls are the texture id query, the save and forcing of the
GL state, `l` and the setting of the saved state: no clear and no draw.  If `b` is
true the player is replaced by `FrameDrawn` of itself and after `l` come one clear,
the calls of one `DrawVideo` (the seven calls of `Draw` unless the surface then
reports texture 0), the binding of framebuffer 0 and the setting of the saved state.
In both cases the saved state is the current one again if its viewport is valid. -/
theorem copyPass_frameDrawn (w : World) (pObj : Ptr) (p : VideoPlayerImpl) (view : Int)
    (env : RenderEnv) (holder : VideoPlayerHolder) (texture : ExternalTexture)
    (hp : w.heap pObj = some p) (hobj : p.video_texture_obj ≠ 0)
    (hid : 0 < toGLint (toGLuint env.videoTextureId))
    (hholder : p.GetVideoPlayer = some holder)
    (hready : holder.IsVideoReady env.jniReady = true)
    (htex : p.GetDrawableExternalTexture = some texture) (hnz : texture.GetTexture ≠ 0)
    (hist : env.isTexture = true) (hflag : p.newFrameAvail = true)
    (hview : 0 ≤ view ∧ view < 4) :
    ∃ b fb1 l w1, l.all Call.isFramebufferCall = true ∧
      StartFramebuffer w.g_framebuffer (copyEntry w p texture) p env.start =
        some (b, fb1, (copyEntry w p texture).issue l) ∧
      GetTextureData w pObj view env = some w1 ∧
      w1.g_framebuffer = fb1 ∧
      (w1.heap pObj).map VideoPlayerImpl.newFrameAvail = some (!b) ∧
      (b = false →
        w1.heap = w.heap ∧
        w1.device.calls = w.device.calls ++
          [textureIdQuery p, Call.getGraphicsState, Call.setGraphicsState (copyState texture)]
          ++ l ++ [Call.setGraphicsState w.device.graphicsState]) ∧
      (b = true →
        w1.heap = Function.update w.heap pObj (some p.FrameDrawn) ∧
        w1.device.calls = w.device.calls ++
          [textureIdQuery p, Call.getGraphicsState, Call.setGraphicsState (copyState texture)]
          ++ l ++ [Call.clear, textureIdQuery p]
          ++ (if toGLuint env.drawTextureId = 0 then []
              else drawCalls (toGLuint env.drawTextureId) p.videoMatrix view)
          ++ [Call.bindFramebuffer 0, Call.setGraphicsState w.device.graphicsState]) ∧
      (0 ≤ w.device.viewport.2.2.1 → 0 ≤ w.device.viewport.2.2.2 →
        w1.device.graphicsState = w.device.graphicsState) := by
  obtain ⟨b, fb1, l, hall, hstart, hres⟩ :=
    getTextureData_copy view hp hobj hid hholder hready htex hnz hist hflag
  cases b with
  | false =>
    simp only [Bool.false_eq_true, if_false] at hres
    refine ⟨false, fb1, l, _, hall, hstart, hres, rfl, ?_, fun _ => ⟨rfl, ?_⟩,
      fun h => absurd h (by simp), fun hw hh => setGraphicsState_state _ _ _ hw hh⟩
    · show (w.heap pObj).map VideoPlayerImpl.newFrameAvail = some (!false)
      rw [hp]
      simp [hflag]
    · show (SetGraphicsState ((copyEntry w p texture).issue l) w.device.graphicsState
        none).1.calls = _
      rw [setGraphicsState_calls]
      simp [Device.issue, copyEntry_calls]
  | true =>
    simp only [if_true] at hres
    rw [drawVideo_eq p _ view env.drawTextureId hobj hview] at hres
    simp only at hres
    refine ⟨true, fb1, l, _, hall, hstart, hres, rfl, ?_, fun h => absurd h (by simp),
      fun _ => ⟨rfl, ?_⟩, fun hw hh => setGraphicsState_state _ _ _ hw hh⟩
    · show (Function.update w.heap pObj (some p.FrameDrawn) pObj).map
        VideoPlayerImpl.newFrameAvail = some (!true)
      simp [VideoPlayerImpl.FrameDrawn]
    · show (SetGraphicsState _ w.device.graphicsState none).1.calls = _
      rw [setGraphicsState_calls]
      simp [Device.issue, copyEntry_calls]

/-- Witness of C19: the left-eye render event on `rotatedWorld` with a complete
framebuffer, and the same event when the framebuffer object is incomplete. -/
theorem copyPass_frameDrawn_witness :
    (∃ b fb1 l w1, l.all Call.isFramebufferCall = true ∧
      StartFramebuffer rotatedWorld.g_framebuffer
          (copyEntry rotatedWorld rotatedPlayer ⟨12, 64, 32⟩) rotatedPlayer
          goodEnv.render.start =
        some (b, fb1, (copyEntry rotatedWorld rotatedPlayer ⟨12, 64, 32⟩).issue l) ∧
      GetTextureData rotatedWorld 1 2 goodEnv.render = some w1 ∧
      w1.g_framebuffer = fb1 ∧
      (w1.heap 1).map VideoPlayerImpl.newFrameAvail = some (!b) ∧
      (b = false →
        w1.heap = rotatedWorld.heap ∧
        w1.device.calls = rotatedWorld.device.calls ++
          [textureIdQuery rotatedPlayer, Call.getGraphicsState,
            Call.setGraphicsState (copyState ⟨12, 64, 32⟩)]
          ++ l ++ [Call.setGraphicsState rotatedWorld.device.graphicsState]) ∧
      (b = true →
        w1.heap = Function.update rotatedWorld.heap 1 (some rotatedPlayer.FrameDrawn) ∧
        w1.device.calls = rotatedWorld.device.calls ++
          [textureIdQuery rotatedPlayer, Call.getGraphicsState,
            Call.setGraphicsState (copyState ⟨12, 64, 32⟩)]
          ++ l ++ [Call.clear, textureIdQuery rotatedPlayer]
          ++ (if toGLuint goodEnv.render.drawTextureId = 0 then []
              else drawCalls (toGLuint goodEnv.render.drawTextureId)
                rotatedPlayer.videoMatrix 2)
          ++ [Call.bindFramebuffer 0,
              Call.setGraphicsState rotatedWorld.device.graphicsState]) ∧
      (0 ≤ rotatedWorld.device.viewport.2.2.1 → 0 ≤ rotatedWorld.device.viewport.2.2.2 →
        w1.device.graphicsState = rotatedWorld.device.graphicsState)) ∧
    ((GetTextureData rotatedWorld 1 2 goodEnv.render).map fun w1 =>
        ((w1.heap 1).map VideoPlayerImpl.newFrameAvail,
          (w1.device.calls.drop rotatedWorld.device.calls.length).count Call.clear,
          (w1.device.calls.drop rotatedWorld.device.calls.length).countP Call.isDraw))
      = some (some false, 1, 1) ∧
    ((GetTextureData rotatedWorld 1 2 incompleteEnv).map fun w1 =>
        ((w1.heap 1).map VideoPlayerImpl.newFrameAvail,
          (w1.device.calls.drop rotatedWorld.device.calls.length).count Call.clear,
          (w1.device.calls.drop rotatedWorld.device.calls.length).countP Call.isDraw))
      = some (some true, 0, 0) :=
  ⟨copyPass_frameDrawn rotatedWorld 1 rotatedPlayer 2 goodEnv.render ⟨7⟩ ⟨12, 64, 32⟩
      rfl (by decide) (by decide) rfl rfl rfl (by decide) rfl rfl (by decide),
    by decide, by decide⟩

/-! ## The texture id guard of `Draw` -/

/-- The guard `videoTextureId <= 0` of `VideoQuadScreen::Draw` compares an unsigned
value, so among the ids `Draw` can be given it holds for 0 only: a negative `int`
converted to `GLuint` is at least 2^31 and `Draw` runs in full.  `Draw` gets its id
from the query inside `DrawVideo`, which `GetTextureData` reaches only after the
query on entry has answered with a positive id. -/
theorem draw_unsigned_guard (p : VideoPlayerImpl) (dev : Device) (view : Int)
    (t : Int) (hobj : p.video_texture_obj ≠ 0) (hview : 0 ≤ view ∧ view < 4)
    (hlo : -2147483648 ≤ t) (hneg : t < 0) :
    toGLuint t = (t + 4294967296).toNat ∧ 2147483648 ≤ toGLuint t ∧
    VideoQuadScreen.Draw dev (toGLuint t) p.videoMatrix view =
      some (dev.issue (drawCalls (toGLuint t) p.videoMatrix view)) ∧
    p.DrawVideo dev view t =
      some (dev.issue (textureIdQuery p :: drawCalls (toGLuint t) p.videoMatrix view)) := by
  have hmod : t % 4294967296 = t + 4294967296 := by omega
  have hu : toGLuint t = (t + 4294967296).toNat := by
    unfold toGLuint
    rw [hmod]
  have hbig : 2147483648 ≤ toGLuint t := by
    rw [hu]
    omega
  have hnz : toGLuint t ≠ 0 := by omega
  refine ⟨hu, hbig, ?_, ?_⟩
  · rw [draw_eq _ _ _ _ hview, if_neg hnz]
  · rw [drawVideo_eq p dev view t hobj hview, if_neg hnz]

/-- C13 (the code departs from the claim): on a null handle the exported functions
that test the handle and return do what the claim says: the void ones and
`DestroyVideoPlayer` leave the process as it is, the others return their sentinel
(0 for `GetRenderableTextureId`, `GetExternalSurfaceTextureId`, `InitVideoPlayer` and
`GetVideoPlayerEventBase`, -1 for `GetVideoTimestampNs` and `GetPlayerState`, false for
`IsVideoReady` and `IsVideoPaused`, -2 for the remaining getters and for `PlayVideo`
and `PauseVideo`).  The eight other functions call a member function through the null
pointer, which is undefined: `SetVideoPlayerSupportClassname` and `GetRawPlayer` have
no test at all, and `SetCurrentVolume`, `GetTrackCount`, `GetTrackInfo`,
`GetStereoMode`, `HasProjectionData` and `ReleaseTrackInfo` write the log message and
go on to `pObj->GetVideoPlayer()`. -/
theorem null_handle_entry_points (w : World) (jni : PlayerEnv) (callback cb_data : Ptr)
    (texture_ids : List Int) (size tw th : Int) (jniResult : Int) (vMat : List Rat)
    (useExisting : Bool) (env : InitPlayerEnv) (initialResolution : Int)
    (clzname created : Ptr) (rendererIndex : Int) (info : TrackInfoPtr) (ct : Int) :
    (SetOnVideoEventCallback w 0 callback cb_data = some w ∧
      SetOnExceptionCallback w 0 callback cb_data = some w ∧
      SetExternalTextures w 0 texture_ids size tw th = some w ∧
      GetRenderableTextureId w 0 = some 0 ∧
      GetExternalSurfaceTextureId w 0 jniResult = some (0, w) ∧
      GetVideoMatrix w 0 vMat = some vMat ∧
      GetVideoTimestampNs w 0 = some (-1) ∧
      DestroyVideoPlayer w 0 = some w ∧
      InitVideoPlayer w 0 useExisting env = some (0, w) ∧
      SetInitialResolution w 0 initialResolution = some w ∧
      GetVideoPlayerEventBase w 0 = some 0 ∧
      IsVideoReady w 0 jni = some false ∧
      IsVideoPaused w 0 jni = some false ∧
      GetPlayerState w 0 jni = some (-1) ∧
      GetDuration w 0 jni = some (-2) ∧
      GetBufferedPosition w 0 jni = some (-2) ∧
      GetCurrentPosition w 0 jni = some (-2) ∧
      SetCurrentPosition w 0 = some w ∧
      GetBufferedPercentage w 0 jni = some (-2) ∧
      PlayVideo w 0 jni = some (-2) ∧
      PauseVideo w 0 jni = some (-2) ∧
      GetWidth w 0 jni = some (-2) ∧
      GetHeight w 0 jni = some (-2) ∧
      GetMaxVolume w 0 jni = some (-2) ∧
      GetCurrentVolume w 0 jni = some (-2)) ∧
    (SetVideoPlayerSupportClassname w 0 clzname created = none ∧
      GetRawPlayer w 0 = none ∧
      SetCurrentVolume w 0 = none ∧
      GetTrackCount w 0 jni rendererIndex = none ∧
      GetTrackInfo w 0 jni rendererIndex = none ∧
      GetStereoMode w 0 jni = none ∧
      HasProjectionData w 0 jni = none ∧
      ReleaseTrackInfo w 0 info ct = none) := by
  refine ⟨⟨rfl, rfl, rfl, rfl, rfl, rfl, rfl, rfl, rfl, rfl, rfl, rfl, rfl, rfl, rfl, rfl,
    rfl, rfl, rfl, rfl, rfl, rfl, rfl, rfl, rfl⟩, rfl, rfl, rfl, rfl, rfl, rfl, rfl, rfl⟩

/-! ## Event ids without a live player -/

/-- An index at or below the counter that holds no player keeps holding none through
a call of the exported interface: creation registers under a new index, destruction
only erases, and a render event only inserts null entries. -/
theorem apiCall_dead {w w1 : World} {c : ApiCall} {n : Int} (hok : RegistryOK w)
    (hb : w.g_instanceNumber + creations [c] ≤ 21474836) (h : c.apply w = some w1)
    (hn : n ≤ w.g_instanceNumber)
    (hd : w.g_instances n = none ∨ w.g_instances n = some 0) :
    w1.g_instances n = none ∨ w1.g_instances n = some 0 := by
  cases c with
  | createVideoPlayer addr u =>
    simp only [ApiCall.apply] at h
    cases hc : CreateVideoPlayer w addr u with
    | none => rw [hc] at h; exact absurd h (by simp)
    | some r =>
      obtain ⟨w2, r2⟩ := r
      rw [hc] at h
      simp only [Option.map_some', Option.some.injEq] at h; subst h
      simp only [creations, zero_add, Nat.cast_one] at hb
      obtain ⟨-, -, -, -, -, hother⟩ := createVideoPlayer_ok hok hb hc
      rw [hother n (by omega)]
      exact hd
  | destroyVideoPlayer ptr =>
    simp only [ApiCall.apply] at h
    unfold DestroyVideoPlayer at h
    split at h
    · simp only [Option.some.injEq] at h; subst h; exact hd
    split at h
    · exact absurd h (by simp)
    rename_i p hp
    simp only [Option.some.injEq] at h; subst h
    by_cases hidx : n = Int.tdiv p.eventBase 100
    · left
      simp [VideoPlayerImpl.dtor, hidx]
    · simp only [VideoPlayerImpl.dtor, Function.update_noteq hidx]
      exact hd
  | setExternalTextures ptr ids size tw th =>
    simp only [ApiCall.apply] at h
    unfold SetExternalTextures at h
    split at h
    · simp only [Option.some.injEq] at h; subst h; exact hd
    split at h
    · exact absurd h (by simp)
    rename_i p hp
    cases hset : p.SetExternalTextures ids size tw th with
    | none => rw [hset] at h; exact absurd h (by simp)
    | some p1 =>
      rw [hset] at h
      simp only [Option.map_some', Option.some.injEq] at h; subst h
      exact hd
  | onRenderEvent id env =>
    simp only [ApiCall.apply] at h
    obtain ⟨-, hreg, -⟩ := onRenderEvent_addressed h
    rcases hreg n with e | ⟨-, e⟩
    · rw [e]; exact hd
    · exact Or.inr e
  | playerMethod ptr p1 =>
    simp only [ApiCall.apply] at h
    split at h
    · exact absurd h (by simp)
    split at h
    · simp only [Option.some.injEq] at h; subst h; exact hd
    · exact absurd h (by simp)

theorem runApi_dead (calls : List ApiCall) {n : Int} :
    ∀ (w w1 : World), RegistryOK w → w.g_instanceNumber + creations calls ≤ 21474836 →
      runApi w calls = some w1 → n ≤ w.g_instanceNumber →
      (w.g_instances n = none ∨ w.g_instances n = some 0) →
      (w1.g_instances n = none ∨ w1.g_instances n = some 0) := by
  induction calls with
  | nil =>
    intro w w1 _ _ hrun _ hd
    simp only [runApi, Option.some.injEq] at hrun; subst hrun
    exact hd
  | cons c rest ih =>
    intro w w1 hok hb hrun hn hd
    simp only [runApi] at hrun
    rw [creations_cons] at hb
    push_cast at hb
    cases hc : c.apply w with
    | none => rw [hc] at hrun; exact absurd hrun (by simp)
    | some w2 =>
      rw [hc] at hrun
      simp only at hrun
      obtain ⟨hok2, hnum2⟩ := apiCall_ok hok (by omega) hc
      exact ih w2 w1 hok2 (by rw [hnum2]; omega) hrun (by rw [hnum2]; omega)
        (apiCall_dead hok (by omega) hc hn hd)

/-- An event id, other than the bare id 6, whose index holds no entry or a null
entry: `GetInstance` returns null and `OnRenderEvent` only inserts the null entry. -/
theorem onRenderEvent_null {w : World} {id : Int} (env : EventEnv)
    (h6 : id ≠ EVENT_UE4INITIALIZE)
    (hd : w.g_instances (Int.tdiv id 100) = none ∨ w.g_instances (Int.tdiv id 100) = some 0) :
    (GetInstance w id).2 = 0 ∧
    OnRenderEvent w id env =
      some { w with g_instances := Function.update w.g_instances (Int.tdiv id 100) (some 0) } := by
  have hnull : (GetInstance w id).2 = 0 := by
    rw [getInstance_snd]
    rcases hd with e | e <;> rw [e] <;> rfl
  refine ⟨hnull, ?_⟩
  unfold OnRenderEvent
  rw [if_neg h6]
  simp only [hnull, if_true]
  congr 1
  unfold GetInstance
  rcases hd with e | e
  · simp only [e]
  · simp only [e]
    have : Function.update w.g_instances (Int.tdiv id 100) (some 0) = w.g_instances := by
      rw [← e]
      exact Function.update_eq_self _ _
    rw [this]

theorem creations_append (a b : List ApiCall) :
    creations (a ++ b) = creations a + creations b := by
  induction a with
  | nil => simp [creations]
  | cons c cs ih =>
    rw [List.cons_append, creations_cons, creations_cons c cs, ih]
    omega

/-- In a consistent registry an index without live player holds no entry or a null
entry. -/
theorem entry_of_noLivePlayer {w : World} {id : Int} (hok : RegistryOK w)
    (hdead : NoLivePlayer w id) :
    w.g_instances (Int.tdiv id 100) = none ∨ w.g_instances (Int.tdiv id 100) = some 0 := by
  cases he : w.g_instances (Int.tdiv id 100) with
  | none => exact Or.inl rfl
  | some ptr =>
    right
    by_contra hne
    have hp : ptr ≠ 0 := fun e => hne (by rw [e])
    obtain ⟨-, -, s, hs, -⟩ := hok.2.2.2.2 _ ptr he hp
    rw [hdead ptr he] at hs
    exact absurd hs (by simp)

/-- C12, as amended: in every process state reached from library load by calls of the
exported interface with at most 21474835 `CreateVideoPlayer` calls, for every event
id other than 6 whose instance index holds no live player, `GetInstance` returns null
and `OnRenderEvent` does nothing but leave a null entry under that index (the heap
with every player, the call log, the framebuffer and the counter are unchanged),
whatever the operation code; and every id `base + op`, `0 ≤ op ≤ 99`, built from the
event base of a player destroyed earlier in the run is such an id. -/
theorem onRenderEvent_no_player (cls : Ptr) (fb : FrameBuffer) (gs : GraphicsState)
    (dev : Device) (calls : List ApiCall) (w : World)
    (hrun : runApi (World.initial cls fb gs dev) calls = some w)
    (hb : creations calls ≤ 21474835) :
    (∀ (id : Int) (env : EventEnv), id ≠ EVENT_UE4INITIALIZE → NoLivePlayer w id →
      (GetInstance w id).2 = 0 ∧
      OnRenderEvent w id env =
        some { w with
          g_instances := Function.update w.g_instances (Int.tdiv id 100) (some 0) }) ∧
    (∀ (pre post : List ApiCall) (ptr : Ptr) (w0 : World) (s : VideoPlayerImpl) (op : Int),
      calls = pre ++ ApiCall.destroyVideoPlayer ptr :: post →
      runApi (World.initial cls fb gs dev) pre = some w0 → w0.heap ptr = some s →
      0 ≤ op → op ≤ 99 →
      s.GetEventBase + op ≠ EVENT_UE4INITIALIZE ∧ NoLivePlayer w (s.GetEventBase + op)) := by
  obtain ⟨hok, -⟩ := runApi_ok calls _ w (initial_ok cls fb gs dev)
    (by show (1 : Int) + (creations calls : Int) ≤ 21474836; omega) hrun
  refine ⟨fun id env h6 hdead => onRenderEvent_null env h6 (entry_of_noLivePlayer hok hdead),
    ?_⟩
  intro pre post ptr w0 s op hcalls hpre hs h0 h99
  subst hcalls
  have hcr : creations (pre ++ ApiCall.destroyVideoPlayer ptr :: post)
      = creations pre + creations post := by
    rw [creations_append, creations_cons]
    simp [creations]
  rw [hcr] at hb
  obtain ⟨hok0, hnum0⟩ := runApi_ok pre _ w0 (initial_ok cls fb gs dev)
    (by show (1 : Int) + (creations pre : Int) ≤ 21474836; omega) hpre
  have hnum0' : w0.g_instanceNumber = 1 + (creations pre : Int) := hnum0
  rw [runApi_append, hpre] at hrun
  simp only [Option.some_bind, runApi, ApiCall.apply] at hrun
  cases hd : DestroyVideoPlayer w0 ptr with
  | none => rw [hd] at hrun; exact absurd hrun (by simp)
  | some w2 =>
    rw [hd] at hrun
    simp only at hrun
    obtain ⟨hok2, hnum2⟩ := destroyVideoPlayer_ok hok0 hd
    obtain ⟨n, hn2, hnle, hbase, hg⟩ := hok0.2.2.2.1 ptr s hs
    have hidx0 : Int.tdiv s.eventBase 100 = n := by
      rw [hbase]; exact tdiv_eventBase (by omega)
    have hidx : Int.tdiv (s.GetEventBase + op) 100 = n := by
      unfold VideoPlayerImpl.GetEventBase
      rw [hbase, Int.tdiv_eq_ediv (by omega) (by omega)]
      omega
    have hptr : ptr ≠ 0 := by
      intro e
      rw [e, hok0.2.2.1] at hs
      exact absurd hs (by simp)
    have hgone : w2.g_instances n = none := by
      unfold DestroyVideoPlayer at hd
      rw [if_neg hptr, hs] at hd
      simp only [Option.some.injEq] at hd
      subst hd
      simp [VideoPlayerImpl.dtor, hidx0]
    have hfinal := runApi_dead post w2 w hok2 (by rw [hnum2]; omega) hrun
      (by rw [hnum2]; exact hnle) (Or.inl hgone)
    constructor
    · unfold VideoPlayerImpl.GetEventBase
      rw [hbase]
      intro e
      have : EVENT_UE4INITIALIZE = 6 := rfl
      omega
    · intro q hq
      rw [hidx] at hq
      rcases hfinal with e | e
      · rw [e] at hq; exact absurd hq (by simp)
      · rw [e] at hq
        simp only [Option.some.injEq] at hq
        rw [← hq]
        exact hok.2.2.1

/-- Witness of C12: after two players have been created and the first, with event base
200, destroyed, the event 207 finds no player and only leaves a null entry. -/
theorem onRenderEvent_no_player_witness :
    (GetInstance twoPlayersWorld 207).2 = 0 ∧
    OnRenderEvent twoPlayersWorld 207 goodEnv =
      some { twoPlayersWorld with
        g_instances := Function.update twoPlayersWorld.g_instances (Int.tdiv 207 100)
          (some 0) } :=
  (onRenderEvent_no_player 8 { framebufferID := 0, externalTexture := ExternalTexture.default }
      engineDevice.graphicsState engineDevice twoPlayers twoPlayersWorld
      (eq_some_getD _ freshWorld rfl) (by decide)).1 207 goodEnv (by decide)
    ((onRenderEvent_no_player 8
        { framebufferID := 0, externalTexture := ExternalTexture.default }
        engineDevice.graphicsState engineDevice twoPlayers twoPlayersWorld
        (eq_some_getD _ freshWorld rfl) (by decide)).2
      [ApiCall.createVideoPlayer 1 someUninit, ApiCall.createVideoPlayer 2 someUninit] [] 1
      ((runApi freshWorld [ApiCall.createVideoPlayer 1 someUninit,
        ApiCall.createVideoPlayer 2 someUninit]).getD freshWorld)
      (VideoPlayerImpl.construct 200 someUninit) 7 rfl (eq_some_getD _ freshWorld rfl) rfl
      (by decide) (by decide)).2

/-! ### Event bases that have overflowed -/

/-- The index the destructor erases for the instance number `k`, `4 ≤ k ≤ 42949674`,
is never 3: the event base is `100 * k` or, once that exceeds 32 bits, at most 104. -/
theorem erased_index_ne_three {k : Int} (h4 : 4 ≤ k) (hk : k ≤ 42949674) :
    Int.tdiv (wrapInt32 (k * 100)) 100 ≠ 3 := by
  by_cases hsmall : k ≤ 21474836
  · have hw : wrapInt32 (k * 100) = k * 100 := wrapInt32_of_range (by omega) (by omega)
    rw [hw, Int.tdiv_eq_ediv (by omega) (by omega)]
    omega
  · have hw : wrapInt32 (k * 100) = k * 100 - 4294967296 := by
      unfold wrapInt32
      omega
    rw [hw]
    by_cases hpos : 0 ≤ k * 100 - 4294967296
    · rw [Int.tdiv_eq_ediv hpos (by omega)]
      omega
    · intro e
      have hneg : k * 100 - 4294967296 = -(4294967296 - k * 100) := by omega
      rw [hneg, Int.neg_tdiv] at e
      have hge : 0 ≤ Int.tdiv (4294967296 - k * 100) 100 :=
        Int.tdiv_nonneg (by omega) (by omega)
      omega

/-- Creating a player at the free address 1 and destroying it again, for instance
numbers up to 42949674: the counter advances, the heap is as before and the entry of
index 3 is untouched. -/
theorem runApi_churn_far (u : Uninit) (n : Nat) :
    ∀ w : World, w.heap 1 = none → 3 ≤ w.g_instanceNumber →
      w.g_instanceNumber + n ≤ 42949674 →
      ∃ w1, runApi w (churn u n) = some w1 ∧
        w1.g_instanceNumber = w.g_instanceNumber + n ∧ w1.heap = w.heap ∧
        w1.g_instances 3 = w.g_instances 3 := by
  induction n with
  | zero =>
    intro w _ _ _
    exact ⟨w, rfl, by simp, rfl, rfl⟩
  | succ n ih =>
    intro w hfree h3 hb
    push_cast at hb
    have hcreate : CreateVideoPlayer w 1 u = some (VideoPlayerImpl.ctor w 1 u, 1) := by
      unfold CreateVideoPlayer
      rw [if_neg]
      rw [hfree]; simp
    have hn : wrapInt32 (w.g_instanceNumber + 1) = w.g_instanceNumber + 1 :=
      wrapInt32_of_range (by omega) (by omega)
    have hne3 := erased_index_ne_three (k := w.g_instanceNumber + 1) (by omega) (by omega)
    have hdestroy : ∃ w2, DestroyVideoPlayer (VideoPlayerImpl.ctor w 1 u) 1 = some w2 ∧
        w2.g_instanceNumber = w.g_instanceNumber + 1 ∧ w2.heap = w.heap ∧
        w2.g_instances 3 = w.g_instances 3 := by
      unfold DestroyVideoPlayer
      rw [if_neg (by decide)]
      simp only [VideoPlayerImpl.ctor, hn, Function.update_same]
      refine ⟨_, rfl, rfl, ?_, ?_⟩
      · funext q
        by_cases hq : q = 1
        · subst hq
          simp [VideoPlayerImpl.dtor, hfree]
        · simp [VideoPlayerImpl.dtor, Function.update_noteq hq]
      · have h1 : (3 : Int) ≠ Int.tdiv (wrapInt32 ((w.g_instanceNumber + 1) * 100)) 100 :=
          fun e => hne3 e.symm
        have h2 : (3 : Int) ≠ w.g_instanceNumber + 1 := by omega
        simp only [VideoPlayerImpl.dtor, VideoPlayerImpl.construct,
          Function.update_noteq h1, Function.update_noteq h2]
    obtain ⟨w2, hd, hnum2, hheap2, hreg2⟩ := hdestroy
    obtain ⟨w3, hrun3, hnum3, hheap3, hreg3⟩ :=
      ih w2 (by rw [hheap2]; exact hfree) (by omega) (by rw [hnum2]; omega)
    refine ⟨w3, ?_, ?_, ?_, ?_⟩
    · simp only [churn, runApi, ApiCall.apply, hcreate, Option.map_some', hd]
      exact hrun3
    · rw [hnum3, hnum2]; push_cast; ring
    · rw [hheap3, hheap2]
    · rw [hreg3, hreg2]

/-- Counterexample to C12 as stated: players are created at the addresses 5 and 6,
then 42949671 players are created and destroyed, and the next player, whose instance
number is 42949675, gets the event base 204, since 4294967500 does not fit 32 bits.
After this player has been destroyed, the id 204 + 96 = 300 built from its event base
is not 6, and `GetInstance` returns for it the live player at address 6. -/
theorem destroyed_id_reaches_player :
    ∃ w0 w1, runApi freshWorld manyPlayers = some w0 ∧
      (w0.heap 1).map VideoPlayerImpl.GetEventBase = some 204 ∧
      DestroyVideoPlayer w0 1 = some w1 ∧ w1.heap 1 = none ∧
      (204 : Int) + 96 ≠ EVENT_UE4INITIALIZE ∧
      (GetInstance w1 (204 + 96)).2 = 6 ∧
      w1.heap 6 = some (VideoPlayerImpl.construct 300 someUninit) ∧
      ¬ NoLivePlayer w1 (204 + 96) := by
  have hfirst : runApi freshWorld
      [ApiCall.createVideoPlayer 5 someUninit, ApiCall.createVideoPlayer 6 someUninit] =
      some ((runApi freshWorld [ApiCall.createVideoPlayer 5 someUninit,
        ApiCall.createVideoPlayer 6 someUninit]).getD freshWorld) :=
    eq_some_getD _ freshWorld rfl
  generalize hwa : (runApi freshWorld [ApiCall.createVideoPlayer 5 someUninit,
    ApiCall.createVideoPlayer 6 someUninit]).getD freshWorld = wa at hfirst
  have ha1 : wa.heap 1 = none := by rw [← hwa]; rfl
  have ha3 : wa.g_instanceNumber = 3 := by rw [← hwa]; rfl
  have ha6 : wa.heap 6 = some (VideoPlayerImpl.construct 300 someUninit) := by
    rw [← hwa]; rfl
  have hareg : wa.g_instances 3 = some 6 := by rw [← hwa]; rfl
  obtain ⟨wb, hrunb, hnumb, hheapb, hregb⟩ :=
    runApi_churn_far someUninit 42949671 wa ha1 (by rw [ha3])
      (by rw [ha3]; decide)
  have hnumb' : wb.g_instanceNumber = 42949674 := by rw [hnumb, ha3]; rfl
  have hcreate : CreateVideoPlayer wb 1 someUninit =
      some (VideoPlayerImpl.ctor wb 1 someUninit, 1) := by
    unfold CreateVideoPlayer
    rw [if_neg]
    rw [hheapb, ha1]; simp
  have hn : wrapInt32 (wb.g_instanceNumber + 1) = 42949675 := by rw [hnumb']; decide
  have hbase : wrapInt32 ((42949675 : Int) * 100) = 204 := by decide
  have hrun : runApi freshWorld manyPlayers = some (VideoPlayerImpl.ctor wb 1 someUninit) := by
    unfold manyPlayers
    rw [runApi_append, runApi_append, hfirst, Option.some_bind, hrunb, Option.some_bind]
    simp only [runApi, ApiCall.apply, hcreate, Option.map_some']
  have hheap0 : (VideoPlayerImpl.ctor wb 1 someUninit).heap 1 =
      some (VideoPlayerImpl.construct 204 someUninit) := by
    simp only [VideoPlayerImpl.ctor, hn, hbase, Function.update_same]
  have h23 : (3 : Int) ≠ Int.tdiv 204 100 := by decide
  have h3n : (3 : Int) ≠ 42949675 := by decide
  have hidx : Int.tdiv ((204 : Int) + 96) 100 = 3 := by decide
  refine ⟨_, VideoPlayerImpl.dtor (VideoPlayerImpl.ctor wb 1 someUninit) 1
    (VideoPlayerImpl.construct 204 someUninit), hrun, ?_, ?_, ?_, by decide, ?_, ?_, ?_⟩
  · rw [hheap0]; rfl
  · unfold DestroyVideoPlayer
    rw [if_neg (by decide), hheap0]
  · simp [VideoPlayerImpl.dtor]
  · rw [getInstance_snd, hidx]
    simp only [VideoPlayerImpl.dtor, VideoPlayerImpl.construct, VideoPlayerImpl.ctor, hn,
      Function.update_noteq h23, Function.update_noteq h3n, hregb, hareg]
    rfl
  · have h61 : (6 : Ptr) ≠ 1 := by decide
    simp only [VideoPlayerImpl.dtor, VideoPlayerImpl.ctor, Function.update_noteq h61, hheapb,
      ha6]
  · intro hno
    have hentry : (VideoPlayerImpl.dtor (VideoPlayerImpl.ctor wb 1 someUninit) 1
        (VideoPlayerImpl.construct 204 someUninit)).g_instances (Int.tdiv (204 + 96) 100)
        = some 6 := by
      rw [hidx]
      simp only [VideoPlayerImpl.dtor, VideoPlayerImpl.construct, VideoPlayerImpl.ctor, hn,
        Function.update_noteq h23, Function.update_noteq h3n, hregb, hareg]
    have h61 : (6 : Ptr) ≠ 1 := by decide
    have := hno 6 hentry
    simp only [VideoPlayerImpl.dtor, VideoPlayerImpl.ctor, Function.update_noteq h61, hheapb,
      ha6] at this
    exact absurd this (by simp)

/-! ## The life cycle of the framebuffer object -/

/-- The result of `Initialize` on a framebuffer without object: an object is created
for the bound texture. -/
theorem initialize_create (fb : FrameBuffer) (dev : Device) (env : InitEnv)
    (h0 : fb.framebufferID = 0) :
    fb.Initialize dev env =
      (decide (env.status = GL_FRAMEBUFFER_COMPLETE) && decide (env.endError = GL_NO_ERROR),
        { fb with framebufferID := env.genId },
        dev.issue (createCalls env.genId fb.externalTexture)) := by
  simp [FrameBuffer.Initialize, h0, createCalls]

/-- The result of `Initialize` on a framebuffer with an object: nothing happens. -/
theorem initialize_keep (fb : FrameBuffer) (dev : Device) (env : InitEnv)
    (h0 : fb.framebufferID ≠ 0) : fb.Initialize dev env = (true, fb, dev) := by
  have hpos : fb.framebufferID > 0 := Nat.pos_of_ne_zero h0
  simp [FrameBuffer.Initialize, h0, hpos]

/-- The result of `Bind` on a framebuffer with an object: it is bound and kept. -/
theorem bind_keep (fb : FrameBuffer) (dev : Device) (env : BindEnv)
    (h0 : fb.framebufferID ≠ 0) :
    fb.Bind dev env =
      (decide (env.bindError = GL_NO_ERROR), fb,
        dev.issue [Call.bindFramebuffer fb.framebufferID]) := by
  unfold FrameBuffer.Bind
  rw [initialize_keep fb dev env.init h0]

/-- C21: `StartFramebuffer` on a player whose drawable slot holds `texture` tests
`g_framebuffer.GetExternalTexture() != texture`, which is true exactly if the handle,
the width or the height differs.  If it is true, `ReInitialize(texture)` runs first:
the existing framebuffer object, if any, is deleted and a new one created, and `Bind`
follows only if that succeeded.  If it is false, the result is that of `Bind` alone,
and an existing framebuffer object is kept: the only call is `glBindFramebuffer` on
it. -/
theorem startFramebuffer_reinit (fb : FrameBuffer) (dev : Device) (p : VideoPlayerImpl)
    (env : StartEnv) (texture : ExternalTexture)
    (htex : p.GetDrawableExternalTexture = some texture) :
    (ExternalTexture.opNe fb.GetExternalTexture texture = true ↔
      (fb.GetExternalTexture.GetTexture ≠ texture.GetTexture ∨
        fb.GetExternalTexture.GetWidth ≠ texture.GetWidth ∨
        fb.GetExternalTexture.GetHeight ≠ texture.GetHeight)) ∧
    (ExternalTexture.opNe fb.GetExternalTexture texture = true →
      fb.ReInitialize dev texture env.reinit =
        (decide (env.reinit.status = GL_FRAMEBUFFER_COMPLETE) &&
            decide (env.reinit.endError = GL_NO_ERROR),
          { framebufferID := env.reinit.genId, externalTexture := texture },
          dev.issue ((if fb.framebufferID ≠ 0 then
            [Call.deleteFramebuffers fb.framebufferID] else []) ++
              createCalls env.reinit.genId texture)) ∧
      StartFramebuffer fb dev p env =
        some (if (fb.ReInitialize dev texture env.reinit).1 = true then
          (fb.ReInitialize dev texture env.reinit).2.1.Bind
            (fb.ReInitialize dev texture env.reinit).2.2 env.bind
          else (false, (fb.ReInitialize dev texture env.reinit).2.1,
            (fb.ReInitialize dev texture env.reinit).2.2))) ∧
    (ExternalTexture.opNe fb.GetExternalTexture texture = false →
      StartFramebuffer fb dev p env = some (fb.Bind dev env.bind) ∧
      (fb.framebufferID ≠ 0 →
        fb.Bind dev env.bind =
          (decide (env.bind.bindError = GL_NO_ERROR), fb,
            dev.issue [Call.bindFramebuffer fb.framebufferID]))) := by
  refine ⟨?_, fun hne => ⟨reInitialize_eq fb dev texture env.reinit, ?_⟩,
    fun heq => ⟨?_, fun h0 => bind_keep fb dev env.bind h0⟩⟩
  · cases hfb : fb.GetExternalTexture
    cases texture
    simp only [ExternalTexture.opNe, ExternalTexture.opEq, ExternalTexture.GetTexture,
      ExternalTexture.GetWidth, ExternalTexture.GetHeight, Bool.not_eq_true',
      Bool.and_eq_false_iff, beq_eq_false_iff_ne, ne_eq]
    tauto
  · unfold StartFramebuffer
    rw [htex]
    simp only [hne, if_true, reInitialize_eq]
    generalize (decide (env.reinit.status = GL_FRAMEBUFFER_COMPLETE) &&
      decide (env.reinit.endError = GL_NO_ERROR)) = b
    cases b <;> rfl
  · unfold StartFramebuffer
    rw [htex]
    simp only [heq, Bool.false_eq_true, if_false]

/-- Witness of C21: the framebuffer is bound to the texture (11, 64, 32).  For
`readyPlayer`, whose drawable slot holds that texture, the object 3 is bound and
kept; for `rotatedPlayer`, whose drawable slot holds (12, 64, 32), the object 3 is
deleted and the object that `glGenFramebuffers` names 3 again is created and bound. -/
theorem startFramebuffer_reinit_witness :
    StartFramebuffer boundFramebuffer engineDevice readyPlayer goodEnv.render.start =
      some (true, boundFramebuffer, engineDevice.issue [Call.bindFramebuffer 3]) ∧
    StartFramebuffer boundFramebuffer engineDevice rotatedPlayer goodEnv.render.start =
      some (true, { framebufferID := 3, externalTexture := ⟨12, 64, 32⟩ },
        engineDevice.issue
          [ Call.deleteFramebuffers 3, Call.genFramebuffers 3, Call.bindFramebuffer 3,
            Call.bindTexture2D 12, Call.framebufferTexture2D 12, Call.drawBuffers,
            Call.bindFramebuffer 3 ]) :=
  ⟨((startFramebuffer_reinit boundFramebuffer engineDevice readyPlayer goodEnv.render.start
      ⟨11, 64, 32⟩ rfl).2.2 rfl).1.trans (by decide),
    ((startFramebuffer_reinit boundFramebuffer engineDevice rotatedPlayer
      goodEnv.render.start ⟨12, 64, 32⟩ rfl).2.1 rfl).2.trans (by decide)⟩

/-- C22, as amended: `Initialize` on a framebuffer that has an object (a non-zero id)
creates nothing and returns true.  So a second consecutive `Initialize()` is a no-op
that returns true whenever the first call left a non-zero id: this is the case if the
framebuffer had an object before, and also if the first call created one, whether it
then returned true or, for an incomplete framebuffer or a GL error, false.  Only if
`glGenFramebuffers` produced the name 0 does the second call create again. -/
theorem initialize_twice (fb : FrameBuffer) (dev : Device) (env1 env2 : InitEnv) :
    ((fb.Initialize dev env1).2.1.framebufferID ≠ 0 →
      (fb.Initialize dev env1).2.1.Initialize (fb.Initialize dev env1).2.2 env2 =
        (true, (fb.Initialize dev env1).2.1, (fb.Initialize dev env1).2.2)) ∧
    (fb.framebufferID ≠ 0 → fb.Initialize dev env1 = (true, fb, dev)) ∧
    (fb.framebufferID = 0 →
      fb.Initialize dev env1 =
        (decide (env1.status = GL_FRAMEBUFFER_COMPLETE) &&
            decide (env1.endError = GL_NO_ERROR),
          { fb with framebufferID := env1.genId },
          dev.issue (createCalls env1.genId fb.externalTexture))) ∧
    ((fb.Initialize dev env1).2.1.framebufferID = 0 →
      (fb.Initialize dev env1).2.1.Initialize (fb.Initialize dev env1).2.2 env2 =
        (decide (env2.status = GL_FRAMEBUFFER_COMPLETE) &&
            decide (env2.endError = GL_NO_ERROR),
          { fb with framebufferID := env2.genId },
          (fb.Initialize dev env1).2.2.issue (createCalls env2.genId fb.externalTexture))) := by
  refine ⟨fun h => initialize_keep _ _ _ h, fun h => initialize_keep _ _ _ h,
    fun h => initialize_create _ _ _ h, fun h => ?_⟩
  rw [initialize_create _ _ _ h]
  by_cases h0 : fb.framebufferID = 0
  · rw [initialize_create fb dev env1 h0]
  · rw [initialize_keep fb dev env1 h0]

/-- Witness of C22: on a framebuffer without object the first `Initialize` creates the
object 4 and returns true; the second does nothing and returns true. -/
theorem initialize_twice_witness :
    (emptyFramebuffer.Initialize engineDevice secondInit).1 = true ∧
    (emptyFramebuffer.Initialize engineDevice secondInit).2.1.Initialize
        (emptyFramebuffer.Initialize engineDevice secondInit).2.2 incompleteInit =
      (true, (emptyFramebuffer.Initialize engineDevice secondInit).2.1,
        (emptyFramebuffer.Initialize engineDevice secondInit).2.2) :=
  ⟨by decide,
    (initialize_twice emptyFramebuffer engineDevice secondInit incompleteInit).1 (by decide)⟩

/-- Counterexample to C22 as stated: on a framebuffer without object, `Initialize`
creates the object 3, finds it incomplete and returns false; the second consecutive
`Initialize` creates nothing and returns true, not false. -/
theorem initialize_forgets_failure :
    emptyFramebuffer.Initialize engineDevice incompleteInit =
      (false, { framebufferID := 3, externalTexture := ⟨11, 64, 32⟩ },
        engineDevice.issue
          [ Call.genFramebuffers 3, Call.bindFramebuffer 3, Call.bindTexture2D 11,
            Call.framebufferTexture2D 11, Call.drawBuffers ]) ∧
    (emptyFramebuffer.Initialize engineDevice incompleteInit).2.1.Initialize
        (emptyFramebuffer.Initialize engineDevice incompleteInit).2.2 incompleteInit =
      (true, { framebufferID := 3, externalTexture := ⟨11, 64, 32⟩ },
        (emptyFramebuffer.Initialize engineDevice incompleteInit).2.2) := by
  constructor <;> decide

/-- C23, as amended: if `Bind` returns false because `Initialize` failed, the
framebuffer object that `Initialize` created has been deleted with
`glDeleteFramebuffers` and `framebufferID` is 0 afterwards, so the next `Initialize`
creates a new object.  If `Initialize` succeeded and `glBindFramebuffer` raised a GL
error, `Bind` returns false as well, but nothing is deleted: the framebuffer object
and `framebufferID` are kept, and the next `Bind` binds the same object again. -/
theorem bind_failure (fb : FrameBuffer) (dev : Device) (env : BindEnv) :
    ((fb.Initialize dev env.init).1 = false →
      fb.framebufferID = 0 ∧
      fb.Bind dev env =
        (false, { fb with framebufferID := 0 },
          dev.issue (createCalls env.init.genId fb.externalTexture ++
            [Call.deleteFramebuffers env.init.genId])) ∧
      ∀ (dev2 : Device) (env2 : InitEnv),
        (fb.Bind dev env).2.1.Initialize dev2 env2 =
          (decide (env2.status = GL_FRAMEBUFFER_COMPLETE) &&
              decide (env2.endError = GL_NO_ERROR),
            { fb with framebufferID := env2.genId },
            dev2.issue (createCalls env2.genId fb.externalTexture))) ∧
    ((fb.Initialize dev env.init).1 = true → env.bindError ≠ GL_NO_ERROR →
      fb.Bind dev env =
        (false, (fb.Initialize dev env.init).2.1,
          (fb.Initialize dev env.init).2.2.issue
            [Call.bindFramebuffer (fb.Initialize dev env.init).2.1.framebufferID]) ∧
      (fb.framebufferID ≠ 0 →
        fb.Bind dev env = (false, fb, dev.issue [Call.bindFramebuffer fb.framebufferID]) ∧
        ∀ (dev2 : Device) (env2 : BindEnv),
          ((fb.Bind dev env).2.1.Bind dev2 env2).2.2 =
            dev2.issue [Call.bindFramebuffer fb.framebufferID])) := by
  constructor
  · intro hfail
    have h0 : fb.framebufferID = 0 := by
      by_contra hne
      rw [initialize_keep fb dev env.init hne] at hfail
      exact absurd hfail (by simp)
    have hinit := initialize_create fb dev env.init h0
    rw [hinit] at hfail
    simp only at hfail
    have hbind : fb.Bind dev env =
        (false, { fb with framebufferID := 0 },
          dev.issue (createCalls env.init.genId fb.externalTexture ++
            [Call.deleteFramebuffers env.init.genId])) := by
      unfold FrameBuffer.Bind
      rw [hinit, hfail]
      simp only [issue_issue]
    refine ⟨h0, hbind, fun dev2 env2 => ?_⟩
    rw [hbind]
    exact initialize_create _ _ _ rfl
  · intro hok herr
    have hdec : decide (env.bindError = GL_NO_ERROR) = false := by simp [herr]
    have hbind : fb.Bind dev env =
        (false, (fb.Initialize dev env.init).2.1,
          (fb.Initialize dev env.init).2.2.issue
            [Call.bindFramebuffer (fb.Initialize dev env.init).2.1.framebufferID]) := by
      unfold FrameBuffer.Bind
      have : fb.Initialize dev env.init =
          (true, (fb.Initialize dev env.init).2.1, (fb.Initialize dev env.init).2.2) := by
        rw [← hok]
      rw [this]
      simp only [hdec]
    refine ⟨hbind, fun h0 => ?_⟩
    have hkeep := bind_keep fb dev env h0
    rw [hdec] at hkeep
    refine ⟨hkeep, fun dev2 env2 => ?_⟩
    rw [hkeep]
    simp only
    rw [bind_keep fb dev2 env2 h0]

/-- Witness of C23: `Bind` on a framebuffer without object whose new object 3 is
incomplete deletes the object and zeroes the id; `Bind` on the framebuffer with the
object 3 when `glBindFramebuffer` raises `GL_INVALID_OPERATION` keeps both. -/
theorem bind_failure_witness :
    emptyFramebuffer.Bind engineDevice { init := incompleteInit, bindError := GL_NO_ERROR } =
      (false, { emptyFramebuffer with framebufferID := 0 },
        engineDevice.issue (createCalls 3 emptyFramebuffer.externalTexture ++
          [Call.deleteFramebuffers 3])) ∧
    boundFramebuffer.Bind engineDevice bindErrorEnv =
      (false, boundFramebuffer, engineDevice.issue [Call.bindFramebuffer 3]) :=
  ⟨((bind_failure emptyFramebuffer engineDevice
      { init := incompleteInit, bindError := GL_NO_ERROR }).1 (by decide)).2.1,
    (((bind_failure boundFramebuffer engineDevice bindErrorEnv).2 (by decide)
      (by decide)).2 (by decide)).1⟩

/-- Counterexample to C23 as stated: the framebuffer object 3 exists and
`glBindFramebuffer` raises `GL_INVALID_OPERATION`; `Bind` returns false, no
`glDeleteFramebuffers` call is made and `framebufferID` is still 3. -/
theorem bind_error_keeps_object :
    boundFramebuffer.Bind engineDevice bindErrorEnv =
      (false, { framebufferID := 3, externalTexture := ⟨11, 64, 32⟩ },
        engineDevice.issue [Call.bindFramebuffer 3]) ∧
    (boundFramebuffer.Bind engineDevice bindErrorEnv).2.1.framebufferID = 3 ∧
    Call.deleteFramebuffers 3 ∉ (boundFramebuffer.Bind engineDevice bindErrorEnv).2.2.calls := by
  refine ⟨?_, ?_, ?_⟩ <;> decide

/-! ## The update step -/

theorem store_self {w : World} {ptr : Ptr} {p : VideoPlayerImpl} (hp : w.heap ptr = some p) :
    w.store ptr p = w := by
  unfold World.store
  rw [← hp, Function.update_eq_self]

/-- `UpdateVideo` without surface object: nothing is called. -/
theorem updateVideo_null (p : VideoPlayerImpl) (dev : Device) (env : UpdateEnv)
    (hobj : p.video_texture_obj = 0) : p.UpdateVideo dev env = some (false, p, dev) := by
  simp [VideoPlayerImpl.UpdateVideo, hobj]

/-- `UpdateVideo` when the surface has not advanced: only `updateTexture` is called. -/
theorem updateVideo_idle (p : VideoPlayerImpl) (dev : Device) (env : UpdateEnv)
    (hobj : p.video_texture_obj ≠ 0) (hadv : env.updateTexture = false) :
    p.UpdateVideo dev env =
      some (false, p, dev.issue [updateQuery p]) := by
  simp [VideoPlayerImpl.UpdateVideo, hobj, hadv, updateQuery]

/-- `UpdateVideo` when the surface has advanced: the timestamp is stored, and the
matrix is the one read, the identity if the elements cannot be read, and the one
from before if there is no matrix object. -/
theorem updateVideo_advance (p : VideoPlayerImpl) (dev : Device) (env : UpdateEnv)
    (hobj : p.video_texture_obj ≠ 0) (hadv : env.updateTexture = true)
    (hlen : ∀ arr, env.jmat = some (some arr) → 16 ≤ arr.length) :
    p.UpdateVideo dev env =
      some (true,
        { p with
          videoTimestampNs := env.timestampNs
          videoMatrix :=
            match env.jmat with
            | some (some arr) => arr.take 16
            | some none => Mat4Identity
            | none => p.videoMatrix },
        dev.issue (updateQuery p :: readbackCalls p)) := by
  unfold VideoPlayerImpl.UpdateVideo
  rw [if_neg hobj]
  simp only [hadv, if_true, issue_issue]
  cases hj : env.jmat with
  | none => rfl
  | some o =>
    cases o with
    | none => rfl
    | some arr =>
      have := hlen arr hj
      simp only [if_neg (show ¬ arr.length < 16 by omega)]
      rfl

/-- C24, as amended: `DoVideoUpdate` with a null handle does nothing.  For a live player without
surface object `UpdateVideo` returns false and calls nothing; if the surface object
exists and reports no new frame, `UpdateVideo` returns false after the one call
`updateTexture`; in both cases the process state, with the indices, flag, matrix and
timestamp of the player, is unchanged apart from that log entry.  If the surface
object exists and reports that it advanced (and the matrix array, if any, has its 16
floats), `UpdateVideo` returns true after reading timestamp and matrix, leaves ring,
indices and flag alone, and `DoVideoUpdate` replaces the player by
`SwapExternalTexture` of the result: on a ring that is not empty the indices rotate
and the flag is set, on an empty ring `SwapExternalTexture` changes nothing. -/
theorem doVideoUpdate_rotation (w : World) (pObj : Ptr) (env : UpdateEnv) :
    (pObj = 0 → DoVideoUpdate w pObj env = some w) ∧
    (∀ p : VideoPlayerImpl, pObj ≠ 0 → w.heap pObj = some p →
      (p.video_texture_obj = 0 →
        p.UpdateVideo w.device env = some (false, p, w.device) ∧
        DoVideoUpdate w pObj env = some w) ∧
      (p.video_texture_obj ≠ 0 → env.updateTexture = false →
        p.UpdateVideo w.device env =
          some (false, p, w.device.issue [updateQuery p]) ∧
        DoVideoUpdate w pObj env =
          some { w with device := w.device.issue [updateQuery p] }) ∧
      (p.video_texture_obj ≠ 0 → env.updateTexture = true →
        (∀ arr, env.jmat = some (some arr) → 16 ≤ arr.length) →
        ∃ p1 dev1,
          p.UpdateVideo w.device env = some (true, p1, dev1) ∧
          dev1 = w.device.issue (updateQuery p :: readbackCalls p) ∧
          Agree p p1 ∧
          DoVideoUpdate w pObj env =
            some ({ w with device := dev1 }.store pObj p1.SwapExternalTexture) ∧
          (0 < p.num_textures →
            p1.SwapExternalTexture.renderableTexture = p.drawableTexture ∧
            p1.SwapExternalTexture.drawableTexture =
              Int.tmod (wrapInt32 (p.drawableTexture + 1)) p.num_textures ∧
            p1.SwapExternalTexture.newFrameAvail = true) ∧
          (p.num_textures ≤ 0 → p1.SwapExternalTexture = p1))) := by
  constructor
  · intro h0
    simp [DoVideoUpdate, h0]
  intro p hne hp
  refine ⟨fun hobj => ?_, fun hobj hadv => ?_, fun hobj hadv hlen => ?_⟩
  · refine ⟨updateVideo_null p w.device env hobj, ?_⟩
    unfold DoVideoUpdate
    rw [if_neg hne, hp]
    simp only [updateVideo_null p w.device env hobj]
    exact congrArg some (store_self hp)
  · refine ⟨updateVideo_idle p w.device env hobj hadv, ?_⟩
    unfold DoVideoUpdate
    rw [if_neg hne, hp]
    simp only [updateVideo_idle p w.device env hobj hadv]
    congr 1
    exact store_self (w := { w with device := w.device.issue [updateQuery p] }) hp
  · have hu := updateVideo_advance p w.device env hobj hadv hlen
    refine ⟨_, _, hu, rfl, ⟨rfl, rfl, rfl, rfl, rfl, rfl⟩, ?_, fun hN => ?_, fun hN => ?_⟩
    · unfold DoVideoUpdate
      rw [if_neg hne, hp]
      simp only [hu]
    · refine ⟨?_, ?_, ?_⟩ <;> simp [SwapExternalTexture, hN]
    · have : ¬ 0 < p.num_textures := by omega
      simp only [SwapExternalTexture, this, if_false]

/-- Witness of C24: the UPDATE step on `readyWorld`, whose player has a ring of two
with both indices 0, when the surface has advanced: the drawable index becomes 1, the
renderable index stays 0 and the flag is set. -/
theorem doVideoUpdate_rotation_witness :
    (DoVideoUpdate readyWorld 1 goodEnv.update).map (fun w1 =>
      (w1.heap 1).map fun s => (s.renderableTexture, s.drawableTexture, s.newFrameAvail))
    = some (some (0, 1, true)) := by
  obtain ⟨p1, dev1, -, -, -, hdo, hrot, -⟩ :=
    ((doVideoUpdate_rotation readyWorld 1 goodEnv.update).2 readyPlayer (by decide) rfl).2.2
      (by decide) rfl (by intro arr h; cases h; decide)
  obtain ⟨hr, hd, hf⟩ := hrot (by decide)
  rw [hdo]
  simp [World.store, hr, hd, hf]
  decide

/-- Counterexample to C24 as stated: the handle is not null, the surface object exists
and reports that it advanced, so `UpdateVideo` returns true and `SwapExternalTexture`
is called; but the player has no ring yet, and nothing rotates: both indices are
still 0 and the flag is still false. -/
theorem update_without_ring :
    (ringlessPlayer.UpdateVideo ringlessWorld.device goodEnv.update).map (fun r => r.1)
      = some true ∧
    (ringlessWorld.heap 1).map (fun s =>
        (s.video_texture_obj, s.renderableTexture, s.drawableTexture, s.newFrameAvail))
      = some (5, 0, 0, false) ∧
    (DoVideoUpdate ringlessWorld 1 goodEnv.update).map (fun w1 =>
      (w1.heap 1).map fun s => (s.renderableTexture, s.drawableTexture, s.newFrameAvail))
      = some (some (0, 0, false)) := by
  refine ⟨?_, ?_, ?_⟩ <;> decide

/-- C25, as amended: whenever `UpdateVideo` observes that the surface advanced (the
surface object exists and `updateTexture` returns true) it returns true, and the cached
matrix afterwards is the 16 floats of the array the surface supplies; the 4x4 identity
if the surface returns an array object whose elements cannot be read; and the matrix
cached before the call, whatever it was, if the surface returns no array object. -/
theorem updateVideo_matrix (p : VideoPlayerImpl) (dev : Device) (env : UpdateEnv)
    (hobj : p.video_texture_obj ≠ 0) (hadv : env.updateTexture = true) :
    (∀ arr, env.jmat = some (some arr) → 16 ≤ arr.length →
      ∃ p1 dev1, p.UpdateVideo dev env = some (true, p1, dev1) ∧
        p1.videoMatrix = arr.take 16) ∧
    (env.jmat = some none →
      ∃ p1 dev1, p.UpdateVideo dev env = some (true, p1, dev1) ∧
        p1.videoMatrix = Mat4Identity) ∧
    (env.jmat = none →
      ∃ p1 dev1, p.UpdateVideo dev env = some (true, p1, dev1) ∧
        p1.videoMatrix = p.videoMatrix) := by
  refine ⟨fun arr hj hlen => ?_, fun hj => ?_, fun hj => ?_⟩
  · refine ⟨_, _, updateVideo_advance p dev env hobj hadv ?_, ?_⟩
    · intro a ha
      rw [hj] at ha
      simp only [Option.some.injEq] at ha
      rw [← ha]; exact hlen
    · simp only [hj]
  · refine ⟨_, _, updateVideo_advance p dev env hobj hadv ?_, ?_⟩
    · intro a ha
      rw [hj] at ha
      exact absurd ha (by simp)
    · simp only [hj]
  · refine ⟨_, _, updateVideo_advance p dev env hobj hadv ?_, ?_⟩
    · intro a ha
      rw [hj] at ha
      exact absurd ha (by simp)
    · simp only [hj]

/-- Witness of C25: for `readyPlayer` the matrix the surface supplies is cached, and
the identity is cached if its elements cannot be read. -/
theorem updateVideo_matrix_witness :
    (∃ p1 dev1, readyPlayer.UpdateVideo engineDevice
        { updateTexture := true, timestampNs := 1000,
          jmat := some (some [2, 0, 0, 0, 0, 2, 0, 0, 0, 0, 2, 0, 0, 0, 0, 1]) }
          = some (true, p1, dev1) ∧
      p1.videoMatrix = List.take 16 [2, 0, 0, 0, 0, 2, 0, 0, 0, 0, 2, 0, 0, 0, 0, 1]) ∧
    (∃ p1 dev1, scaledPlayer.UpdateVideo engineDevice
        { updateTexture := true, timestampNs := 1000, jmat := some none }
          = some (true, p1, dev1) ∧
      p1.videoMatrix = Mat4Identity) :=
  ⟨(updateVideo_matrix readyPlayer engineDevice
      { updateTexture := true, timestampNs := 1000,
        jmat := some (some [2, 0, 0, 0, 0, 2, 0, 0, 0, 0, 2, 0, 0, 0, 0, 1]) }
      (by decide) rfl).1 _ rfl (by decide),
    (updateVideo_matrix scaledPlayer engineDevice
      { updateTexture := true, timestampNs := 1000, jmat := some none }
      (by decide) rfl).2.1 rfl⟩

/-- Counterexample to C25 as stated: the cache of `scaledPlayer` holds a scaling by 2,
the surface has advanced and returns no matrix object; `UpdateVideo` returns true and
the cached matrix is still the scaling, not the identity. -/
theorem updateVideo_keeps_stale_matrix :
    (scaledPlayer.UpdateVideo engineDevice noMatrixEnv).map (fun r => (r.1, r.2.1.videoMatrix))
      = some (true, [2, 0, 0, 0, 0, 2, 0, 0, 0, 0, 2, 0, 0, 0, 0, 1]) ∧
    ([2, 0, 0, 0, 0, 2, 0, 0, 0, 0, 2, 0, 0, 0, 0, 1] : List Rat) ≠ Mat4Identity := by
  constructor
  · rfl
  · decide

/-! ## The timestamp accessor -/

/-- C26 (the code departs from the claim): `GetVideoTimestampNs` returns -1 for a null
handle, and for a live player it returns the member `videoTimestampNs`.  After an
`UpdateVideo` that returned true this is the timestamp read from the surface in that
call.  The constructor does not assign the member, so for a player that has just been
created the result is whatever the memory of the object held: no sentinel -2 is
returned, and no other statement of the code produces one. -/
theorem getVideoTimestampNs_cases :
    (∀ w : World, GetVideoTimestampNs w 0 = some (-1)) ∧
    (∀ (w : World) (ptr : Ptr) (p : VideoPlayerImpl), ptr ≠ 0 → w.heap ptr = some p →
      GetVideoTimestampNs w ptr = some p.videoTimestampNs) ∧
    (∀ (w w1 : World) (addr : Ptr) (u : Uninit),
      CreateVideoPlayer w addr u = some (w1, addr) →
      GetVideoTimestampNs w1 addr = some u.videoTimestampNs) ∧
    (∀ (w w1 : World) (ptr : Ptr) (p p1 : VideoPlayerImpl) (dev1 : Device) (env : UpdateEnv),
      ptr ≠ 0 → w.heap ptr = some p → p.UpdateVideo w.device env = some (true, p1, dev1) →
      DoVideoUpdate w ptr env = some w1 →
      GetVideoTimestampNs w1 ptr = some env.timestampNs) := by
  refine ⟨fun w => rfl, fun w ptr p hne hp => ?_, fun w w1 addr u hc => ?_,
    fun w w1 ptr p p1 dev1 env hne hp hu hdo => ?_⟩
  · unfold GetVideoTimestampNs
    rw [if_neg hne, hp]
    rfl
  · unfold CreateVideoPlayer at hc
    split at hc
    · exact absurd hc (by simp)
    rename_i hfresh
    simp only [not_or] at hfresh
    simp only [Option.some.injEq, Prod.mk.injEq, and_true] at hc
    subst hc
    unfold GetVideoTimestampNs
    rw [if_neg hfresh.1]
    simp [VideoPlayerImpl.ctor, VideoPlayerImpl.construct, VideoPlayerImpl.GetVideoTimestampNs]
  · have hts : p1.videoTimestampNs = env.timestampNs := by
      unfold VideoPlayerImpl.UpdateVideo at hu
      split at hu
      · simp at hu
      split at hu
      · split at hu
        · split at hu
          · exact absurd hu (by simp)
          · simp only [Option.some.injEq, Prod.mk.injEq, true_and] at hu
            rw [← hu.1]
        · simp only [Option.some.injEq, Prod.mk.injEq, true_and] at hu
          rw [← hu.1]
        · simp only [Option.some.injEq, Prod.mk.injEq, true_and] at hu
          rw [← hu.1]
      · simp at hu
    unfold DoVideoUpdate at hdo
    rw [if_neg hne, hp] at hdo
    simp only [hu, Option.some.injEq] at hdo
    subst hdo
    unfold GetVideoTimestampNs
    rw [if_neg hne]
    simp only [World.store, Function.update_same, Option.map_some',
      VideoPlayerImpl.GetVideoTimestampNs]
    have : p1.SwapExternalTexture.videoTimestampNs = p1.videoTimestampNs := by
      unfold SwapExternalTexture
      split <;> rfl
    rw [this, hts]

/-- Witness of C26: in a process that has just created its first player, with the value
0 in the memory the constructor leaves alone, `GetVideoTimestampNs` returns 0; and
after the UPDATE step on `readyWorld` it returns the timestamp 1000 of the surface. -/
theorem getVideoTimestampNs_cases_witness :
    GetVideoTimestampNs (VideoPlayerImpl.ctor freshWorld 1 someUninit) 1 = some 0 ∧
    GetVideoTimestampNs rotatedWorld 1 = some 1000 :=
  ⟨getVideoTimestampNs_cases.2.2.1 freshWorld _ 1 someUninit rfl,
    getVideoTimestampNs_cases.2.2.2 readyWorld rotatedWorld 1 readyPlayer
      ((readyPlayer.UpdateVideo readyWorld.device goodEnv.update).getD
        (false, readyPlayer, engineDevice)).2.1
      ((readyPlayer.UpdateVideo readyWorld.device goodEnv.update).getD
        (false, readyPlayer, engineDevice)).2.2
      goodEnv.update (by decide) rfl rfl rfl⟩

/-! ## The ring as a circular buffer -/

theorem swap_iterate_ring (s : VideoPlayerImpl) (k : Nat) :
    (SwapExternalTexture^[k] s).externalTexture = s.externalTexture := by
  induction k with
  | zero => rfl
  | succ k ih =>
    rw [Function.iterate_succ_apply', ← ih]
    unfold SwapExternalTexture
    split <;> rfl

/-- Slot `i` of the ring that `SetExternalTextures` builds. -/
theorem ring_slot (ids : List Int) (n w h : Int) (i : Int) (h0 : 0 ≤ i) (hi : i < n) :
    arrayAt (some ((List.range n.toNat).map fun j =>
        ((ExternalTexture.default.SetTexture (toGLuint (ids.getD j 0))).SetWidth w).SetHeight h))
      i = some ⟨toGLuint (ids.getD i.toNat 0), w, h⟩ := by
  have hlt : i.toNat < n.toNat := by omega
  simp only [arrayAt, if_pos h0, List.get?_eq_getElem?, List.getElem?_map,
    List.getElem?_range hlt, Option.map_some']
  rfl

/-- C27: on a fresh instance, `SetExternalTextures(ids, n, w, h)` with `1 ≤ n` (an
`int`, with at least `n` ids supplied) builds a ring whose slot `i` is the texture
with handle `(GLuint) ids[i]`, width `w` and height `h` for every `0 ≤ i < n`.  After
`K ≥ 0` rotations the drawable texture is slot `K mod n`; the renderable texture,
whose handle `GetRenderableTextureId` returns, is slot 0 before any rotation and slot
`(K - 1) mod n` after `K ≥ 1` rotations.  The conversion to `GLuint` leaves a handle
`0 ≤ id < 2^32` as it is. -/
theorem ring_is_circular (eventBase : Int) (u : Uninit) (ids : List Int) (n w h : Int)
    (K : Nat) (hn1 : 1 ≤ n) (hn : n < 2147483648) (hlen : n ≤ ids.length) :
    ∃ p, (VideoPlayerImpl.construct eventBase u).SetExternalTextures ids n w h = some p ∧
      p.num_textures = n ∧
      (∀ i : Int, 0 ≤ i → i < n →
        arrayAt p.externalTexture i = some ⟨toGLuint (ids.getD i.toNat 0), w, h⟩) ∧
      (SwapExternalTexture^[K] p).GetDrawableExternalTexture =
        some ⟨toGLuint (ids.getD ((K : Int) % n).toNat 0), w, h⟩ ∧
      (K = 0 → (SwapExternalTexture^[K] p).GetRenderableExternalTexture =
        some ⟨toGLuint (ids.getD 0 0), w, h⟩) ∧
      (1 ≤ K → (SwapExternalTexture^[K] p).GetRenderableExternalTexture =
        some ⟨toGLuint (ids.getD (((K : Int) - 1) % n).toNat 0), w, h⟩) ∧
      (∀ (wd : World) (ptr : Ptr), ptr ≠ 0 →
        wd.heap ptr = some (SwapExternalTexture^[K] p) →
        GetRenderableTextureId wd ptr =
          some (toGLuint (ids.getD (if K = 0 then 0 else (((K : Int) - 1) % n).toNat) 0))) ∧
      (∀ id : Int, 0 ≤ id → id < 4294967296 → toGLuint id = id.toNat) := by
  have hset : (VideoPlayerImpl.construct eventBase u).SetExternalTextures ids n w h =
      some { VideoPlayerImpl.construct eventBase u with
        num_textures := n
        externalTexture := some ((List.range n.toNat).map fun i =>
          ((ExternalTexture.default.SetTexture (toGLuint (ids.getD i 0))).SetWidth w).SetHeight
            h) } := by
    unfold VideoPlayerImpl.SetExternalTextures
    rw [if_neg (by omega)]
  refine ⟨_, hset, rfl, fun i h0 hi => ring_slot ids n w h i h0 hi, ?_⟩
  generalize hp : ({ VideoPlayerImpl.construct eventBase u with
        num_textures := n
        externalTexture := some ((List.range n.toNat).map fun i =>
          ((ExternalTexture.default.SetTexture (toGLuint (ids.getD i 0))).SetWidth w).SetHeight
            h) } : VideoPlayerImpl) = p
  have hN : p.num_textures = n := by rw [← hp]
  have hd : p.drawableTexture = 0 := by rw [← hp]; rfl
  have hr : p.renderableTexture = 0 := by rw [← hp]; rfl
  have hx : p.externalTexture = some ((List.range n.toNat).map fun i =>
      ((ExternalTexture.default.SetTexture (toGLuint (ids.getD i 0))).SetWidth w).SetHeight
        h) := by rw [← hp]
  have hiter : ∀ k : Nat, (SwapExternalTexture^[k] p).num_textures = n ∧
      (SwapExternalTexture^[k] p).drawableTexture = (k : Int) % n := by
    intro k
    have := swap_iterate_aux p (by omega) (by omega) (by omega) (by omega) k
    rw [hN, hd, zero_add] at this
    exact this
  have hdraw : (SwapExternalTexture^[K] p).GetDrawableExternalTexture =
      some ⟨toGLuint (ids.getD ((K : Int) % n).toNat 0), w, h⟩ := by
    unfold VideoPlayerImpl.GetDrawableExternalTexture
    rw [swap_iterate_ring, hx, (hiter K).2]
    exact ring_slot ids n w h _ (Int.emod_nonneg _ (by omega)) (Int.emod_lt_of_pos _ (by omega))
  have hrend0 : K = 0 → (SwapExternalTexture^[K] p).GetRenderableExternalTexture =
      some ⟨toGLuint (ids.getD 0 0), w, h⟩ := by
    intro hK
    subst hK
    unfold VideoPlayerImpl.GetRenderableExternalTexture
    rw [Function.iterate_zero, id_eq, hx, hr]
    exact ring_slot ids n w h 0 (by omega) (by omega)
  have hrend : 1 ≤ K → (SwapExternalTexture^[K] p).GetRenderableExternalTexture =
      some ⟨toGLuint (ids.getD (((K : Int) - 1) % n).toNat 0), w, h⟩ := by
    intro hK
    obtain ⟨k, rfl⟩ : ∃ k, K = k + 1 := ⟨K - 1, by omega⟩
    unfold VideoPlayerImpl.GetRenderableExternalTexture
    rw [swap_iterate_ring, hx, Function.iterate_succ_apply',
      swap_renderable _ (by rw [(hiter k).1]; omega), (hiter k).2]
    have hk : ((k + 1 : Nat) : Int) - 1 = (k : Int) := by push_cast; ring
    rw [hk]
    exact ring_slot ids n w h _ (Int.emod_nonneg _ (by omega)) (Int.emod_lt_of_pos _ (by omega))
  refine ⟨hdraw, hrend0, hrend, fun wd ptr hne hheap => ?_, fun id h0 h1 => ?_⟩
  · simp only [GetRenderableTextureId, if_neg hne, hheap]
    by_cases hK : K = 0
    · rw [hrend0 hK, if_pos hK]
      rfl
    · rw [hrend (by omega), if_neg hK]
      rfl
  · unfold toGLuint
    rw [Int.emod_eq_of_lt h0 h1]

/-- Witness of C27: a ring of three textures 11, 12, 13 of size 64 x 32 after four
rotations: the drawable slot is 4 mod 3 = 1 and the renderable slot 3 mod 3 = 0. -/
theorem ring_is_circular_witness :
    ∃ p, (VideoPlayerImpl.construct 200 someUninit).SetExternalTextures [11, 12, 13] 3 64 32
        = some p ∧
      (SwapExternalTexture^[4] p).GetDrawableExternalTexture = some ⟨12, 64, 32⟩ ∧
      (SwapExternalTexture^[4] p).GetRenderableExternalTexture = some ⟨11, 64, 32⟩ := by
  obtain ⟨p, hset, -, -, hd, -, hr, -⟩ :=
    ring_is_circular 200 someUninit [11, 12, 13] 3 64 32 4 (by decide) (by decide) (by decide)
  exact ⟨p, hset, hd, hr (by decide)⟩

/-! ## The release of a track-info buffer -/

theorem releaseString_issue (dev : Device) (s : Ptr) :
    ReleaseString dev s = dev.issue (if s ≠ 0 then [Call.releaseString s] else []) := by
  unfold ReleaseString
  split
  · rfl
  · exact (issue_nil dev).symm

/-- One round of the loop of `ReleaseTrackInfo` issues the calls `releaseCalls`. -/
theorem releaseRound_issue (first : ExoTrackInfo) (dev : Device) :
    VideoPlayerHolder.releaseRound first dev = dev.issue (releaseCalls first) := by
  unfold VideoPlayerHolder.releaseRound releaseCalls
  simp only [releaseString_issue, issue_issue]
  congr 1
  by_cases h1 : first.Name = 0 <;> by_cases h2 : first.Language = 0 <;>
    by_cases h3 : first.DisplayName = 0 <;> by_cases h4 : first.MimeType = 0 <;>
    simp [h1, h2, h3, h4, List.filter]

theorem releaseRound_iterate (first : ExoTrackInfo) (k : Nat) (dev : Device) :
    (VideoPlayerHolder.releaseRound first)^[k] dev =
      dev.issue (List.replicate k (releaseCalls first)).flatten := by
  induction k generalizing dev with
  | zero => simp [issue_nil]
  | succ k ih =>
    rw [Function.iterate_succ_apply, releaseRound_issue, ih, issue_issue,
      List.replicate_succ, List.flatten_cons]

theorem count_rounds (c : Call) (l : List Call) (k : Nat) :
    (List.replicate k l).flatten.count c = k * l.count c := by
  induction k with
  | zero => simp
  | succ k ih =>
    rw [List.replicate_succ, List.flatten_cons, List.count_append, ih]
    ring

/-- C28 (the code departs from the claim): for a buffer of `ct ≥ 1` entries returned by
`GetTrackInfo`, whose entry `i` holds the strings of track `i`, the loop of
`ReleaseTrackInfo(info, ct)` runs `ct` times and each time releases `info->Name`,
`info->Language`, `info->DisplayName` and `info->MimeType`, the strings of entry 0;
`delete info` follows.  So every string is released `ct` times the number of times it
occurs among the four non-null strings of entry 0: the strings of entry 0 are released
`ct` times each, and a string that only the entries `1 .. ct - 1` hold is never
released. -/
theorem releaseTrackInfo_first_entry (h : VideoPlayerHolder) (jni : PlayerEnv)
    (rendererIndex : Int) (dev : Device) (ct : Int) (hobj : h.playerObj ≠ 0)
    (hct : jni.trackCount rendererIndex = ct) (h1 : 1 ≤ ct) :
    ∃ arr first, h.GetTrackInfo jni rendererIndex = some arr ∧
      arr.length = ct.toNat ∧
      (∀ i : Nat, i < ct.toNat →
        arr.get? i = some { jni.track rendererIndex i with Index := (i : Int) }) ∧
      first = { jni.track rendererIndex 0 with Index := 0 } ∧
      h.ReleaseTrackInfo dev (some arr) ct =
        some (dev.issue ((List.replicate ct.toNat (releaseCalls first)).flatten ++
          [Call.deleteTrackInfo])) ∧
      ∀ s : Ptr,
        ((List.replicate ct.toNat (releaseCalls first)).flatten ++
            [Call.deleteTrackInfo]).count (Call.releaseString s)
          = ct.toNat * (releaseCalls first).count (Call.releaseString s) := by
  have hget : h.GetTrackInfo jni rendererIndex =
      some ((List.range ct.toNat).map fun i =>
        { jni.track rendererIndex i with Index := (i : Int) }) := by
    unfold VideoPlayerHolder.GetTrackInfo VideoPlayerHolder.GetTrackCount
    simp only [hobj, ne_eq, not_false_eq_true, if_true, hct]
    rw [if_pos (by omega)]
  refine ⟨_, { jni.track rendererIndex 0 with Index := 0 }, hget, by simp, ?_, rfl, ?_, ?_⟩
  · intro i hi
    simp [List.getElem?_range hi]
  · obtain ⟨k, hk⟩ : ∃ k, ct.toNat = k + 1 := ⟨ct.toNat - 1, by omega⟩
    unfold VideoPlayerHolder.ReleaseTrackInfo
    simp only
    rw [if_neg (by omega), if_neg (by omega), hk, List.range_succ_eq_map]
    simp only [List.map_cons, List.head?_cons, releaseRound_iterate, issue_issue]
    rfl
  · intro s
    rw [List.count_append, count_rounds]
    simp

/-- Witness of C28: a player with two tracks whose strings are 41 to 44 and 51 to 54.
`ReleaseTrackInfo` on the buffer of the two entries releases the name 44 of entry 0
twice and the name 54 of entry 1 never. -/
theorem releaseTrackInfo_first_entry_witness :
    ∃ arr first, VideoPlayerHolder.GetTrackInfo ⟨7⟩ twoTrackEnv 0 = some arr ∧
      arr.length = (2 : Int).toNat ∧
      (∀ i : Nat, i < (2 : Int).toNat →
        arr.get? i = some { twoTrackEnv.track 0 i with Index := (i : Int) }) ∧
      first = { twoTrackEnv.track 0 0 with Index := 0 } ∧
      VideoPlayerHolder.ReleaseTrackInfo ⟨7⟩ engineDevice (some arr) 2 =
        some (engineDevice.issue ((List.replicate (2 : Int).toNat (releaseCalls first)).flatten ++
          [Call.deleteTrackInfo])) ∧
      ∀ s : Ptr,
        ((List.replicate (2 : Int).toNat (releaseCalls first)).flatten ++
            [Call.deleteTrackInfo]).count (Call.releaseString s)
          = (2 : Int).toNat * (releaseCalls first).count (Call.releaseString s) :=
  releaseTrackInfo_first_entry ⟨7⟩ twoTrackEnv 0 engineDevice 2 (by decide) rfl (by decide)

/-- The release of a buffer of two tracks, call by call: the four strings of entry 0
are released in both rounds, those of entry 1 in none. -/
theorem releaseTrackInfo_two_tracks :
    (VideoPlayerHolder.ReleaseTrackInfo ⟨7⟩ engineDevice
        (VideoPlayerHolder.GetTrackInfo ⟨7⟩ twoTrackEnv 0) 2).map Device.calls =
      some [ Call.releaseString 44, Call.releaseString 43, Call.releaseString 42,
        Call.releaseString 41, Call.releaseString 44, Call.releaseString 43,
        Call.releaseString 42, Call.releaseString 41, Call.deleteTrackInfo ] := by
  decide

/-! ## The ring indices after the ring has been replaced -/

/-- C29 (the code departs from the claim): `SetExternalTextures` replaces the ring and
its size and leaves both indices as they are.  So when the new size is at most the
drawable index (the ring was rotated, then replaced by a shorter one),
`drawable < num_textures` fails afterwards and `GetDrawableExternalTexture` indexes
past the end of the new array; likewise for the renderable index. -/
theorem shrunk_ring_out_of_bounds (p p1 : VideoPlayerImpl) (ids : List Int)
    (size w h : Int) (hset : p.SetExternalTextures ids size w h = some p1) :
    p1.num_textures = size ∧ p1.drawableTexture = p.drawableTexture ∧
    p1.renderableTexture = p.renderableTexture ∧
    (size ≤ p.drawableTexture →
      ¬ p1.drawableTexture < p1.num_textures ∧ p1.GetDrawableExternalTexture = none) ∧
    (size ≤ p.renderableTexture →
      ¬ p1.renderableTexture < p1.num_textures ∧ p1.GetRenderableExternalTexture = none) := by
  unfold VideoPlayerImpl.SetExternalTextures at hset
  split at hset
  · exact absurd hset (by simp)
  rename_i hok
  simp only [Option.some.injEq] at hset
  subst hset
  have hoob : ∀ i : Int, size ≤ i →
      arrayAt (some ((List.range size.toNat).map fun j =>
        ((ExternalTexture.default.SetTexture (toGLuint (ids.getD j 0))).SetWidth w).SetHeight
          h)) i = none := by
    intro i hi
    have h0 : 0 ≤ i := by omega
    have hge : size.toNat ≤ i.toNat := by omega
    simp only [arrayAt, if_pos h0, List.get?_eq_getElem?]
    rw [List.getElem?_eq_none]
    simpa using hge
  refine ⟨rfl, rfl, rfl, fun hd => ⟨?_, hoob _ hd⟩, fun hr => ⟨?_, hoob _ hr⟩⟩
  · show ¬ p.drawableTexture < size
    omega
  · show ¬ p.renderableTexture < size
    omega

/-- Witness of C29: a fresh player gets a ring of three, is rotated twice (drawable 2,
renderable 1) and gets a ring of one: afterwards `num_textures` is 1, drawable is 2
and renderable is 1, and both accessors index past the end of the ring. -/
theorem shrunk_ring_out_of_bounds_witness :
    (runRingOps shrinkOps (VideoPlayerImpl.construct 200 someUninit, none)).map
        (fun x => (x.1.num_textures, x.1.drawableTexture, x.1.renderableTexture,
          x.1.GetDrawableExternalTexture, x.1.GetRenderableExternalTexture))
      = some (1, 2, 1, none, none) ∧
    (twiceRotated.drawableTexture = 2 ∧ twiceRotated.renderableTexture = 1) ∧
    ∃ p1, twiceRotated.SetExternalTextures [11] 1 64 32 = some p1 ∧
      p1.num_textures = 1 ∧ ¬ p1.drawableTexture < p1.num_textures ∧
      p1.GetDrawableExternalTexture = none ∧
      ¬ p1.renderableTexture < p1.num_textures ∧
      p1.GetRenderableExternalTexture = none :=
  ⟨by decide, by decide,
    (twiceRotated.SetExternalTextures [11] 1 64 32).getD twiceRotated,
    eq_some_getD _ twiceRotated rfl,
    (shrunk_ring_out_of_bounds twiceRotated _ [11] 1 64 32
      (eq_some_getD _ twiceRotated rfl)).1,
    ((shrunk_ring_out_of_bounds twiceRotated _ [11] 1 64 32
      (eq_some_getD _ twiceRotated rfl)).2.2.2.1 (by decide)).1,
    ((shrunk_ring_out_of_bounds twiceRotated _ [11] 1 64 32
      (eq_some_getD _ twiceRotated rfl)).2.2.2.1 (by decide)).2,
    ((shrunk_ring_out_of_bounds twiceRotated _ [11] 1 64 32
      (eq_some_getD _ twiceRotated rfl)).2.2.2.2 (by decide)).1,
    ((shrunk_ring_out_of_bounds twiceRotated _ [11] 1 64 32
      (eq_some_getD _ twiceRotated rfl)).2.2.2.2 (by decide)).2⟩

/-! ## One copy pass per rotation -/

/-- A render event that issues a draw call is a copy pass on the addressed player,
whose flag was set and is cleared by `FrameDrawn`. -/
theorem onRenderEvent_drew {w w1 : World} {id : Int} {env : EventEnv}
    (h : OnRenderEvent w id env = some w1) (hdraw : issuedDraw w w1 = true) :
    ∃ p, (GetInstance w id).2 ≠ 0 ∧ w.heap (GetInstance w id).2 = some p ∧
      p.newFrameAvail = true ∧
      w1.heap = Function.update w.heap (GetInstance w id).2 (some p.FrameDrawn) := by
  have hnogrow : ∀ {a : World}, Grows a.device w1.device → a.device = w.device → False := by
    intro a hg ha
    have hg2 : Grows w.device w1.device := by rw [← ha]; exact hg
    rw [issuedDraw_of_grows hg2] at hdraw
    exact absurd hdraw (by simp)
  by_cases h6 : id = EVENT_UE4INITIALIZE
  · exfalso
    unfold OnRenderEvent at h
    rw [if_pos h6] at h
    simp only [Option.some.injEq] at h
    subst h
    exact hnogrow (a := w) (Grows.issue _ _ (by rfl)) rfl
  by_cases hnull : (GetInstance w id).2 = 0
  · exfalso
    unfold OnRenderEvent at h
    rw [if_neg h6] at h
    simp only [hnull, if_true, Option.some.injEq] at h
    subst h
    exact hnogrow (a := w) (Grows.of_calls_eq (by rw [(getInstance_fst w id).2.1])) rfl
  have hreg : w.g_instances (Int.tdiv id 100) = some (GetInstance w id).2 := by
    have hs := getInstance_snd w id
    cases he : w.g_instances (Int.tdiv id 100) with
    | none => rw [he] at hs; exact absurd hs hnull
    | some q => rw [he] at hs; rw [hs]; rfl
  generalize hptr : (GetInstance w id).2 = ptr at hreg hnull ⊢
  rw [onRenderEvent_registered env hreg hnull h6] at h
  have hrender : ∀ view, GetTextureData w ptr view env.render = some w1 →
      ∃ p, ptr ≠ 0 ∧ w.heap ptr = some p ∧ p.newFrameAvail = true ∧
        w1.heap = Function.update w.heap ptr (some p.FrameDrawn) := by
    intro view hgt
    obtain ⟨-, -, -, p, hp, hcase⟩ := getTextureData_effect hgt
    rcases hcase with ⟨-, hg⟩ | ⟨hflag, hheap, -⟩
    · exact (hnogrow (a := w) hg rfl).elim
    · exact ⟨p, hnull, hp, hflag, hheap⟩
  split at h
  · exfalso
    split at h
    · exact absurd h (by simp)
    rename_i p hp
    simp only [Option.some.injEq] at h
    subst h
    obtain ⟨-, hg⟩ := createVideoTexture_effect p w.device w.video_texture_class env.create
    exact hnogrow (a := w) hg rfl
  split at h
  · exfalso
    obtain ⟨-, -, -, hg, -⟩ := doVideoUpdate_effect h hnull
    exact hnogrow (a := w) hg rfl
  split at h
  · exfalso
    simp only [Option.some.injEq] at h
    subst h
    exact hnogrow (a := w) (Grows.same _) rfl
  split at h
  · exact hrender _ h
  split at h
  · exact hrender _ h
  split at h
  · exact hrender _ h
  split at h
  · exact hrender _ h
  · exfalso
    simp only [Option.some.injEq] at h
    subst h
    exact hnogrow (a := w) (Grows.same _) rfl

/-- A render event addressed to a player whose flag is false issues no draw call. -/
theorem onRenderEvent_stale {w w1 : World} {id : Int} {env : EventEnv} {s : VideoPlayerImpl}
    (h : OnRenderEvent w id env = some w1) (hs : w.heap (GetInstance w id).2 = some s)
    (hflag : s.newFrameAvail = false) : issuedDraw w w1 = false := by
  cases hd : issuedDraw w w1 with
  | false => rfl
  | true =>
    obtain ⟨p, -, hp, hf, -⟩ := onRenderEvent_drew h hd
    rw [hs] at hp
    simp only [Option.some.injEq] at hp
    rw [hp, hf] at hflag
    exact absurd hflag (by simp)

/-- C30: once a render event addressed to an instance has issued a draw call, and
whatever operations follow (render events of any mode and for any instance,
`SetExternalTextures`, `FrameDrawn`) as long as none of them rotates the ring of that
instance, every later render event addressed to the instance issues no draw call. -/
theorem one_copy_per_rotation (ptr : Ptr) (w0 w w1 w2 : World) (id0 id : Int)
    (env0 env : EventEnv) (steps : List Step)
    (hfirst : OnRenderEvent w0 id0 env0 = some w) (haddr0 : (GetInstance w0 id0).2 = ptr)
    (hdrew : issuedDraw w0 w = true)
    (hrun : runSteps w steps = some w1) (hno : noRotation ptr w steps = true)
    (hlater : OnRenderEvent w1 id env = some w2) (haddr : (GetInstance w1 id).2 = ptr) :
    issuedDraw w1 w2 = false := by
  obtain ⟨p, -, -, -, hheap⟩ := onRenderEvent_drew hfirst hdrew
  rw [haddr0] at hheap
  have hs : w.heap ptr = some p.FrameDrawn := by
    rw [hheap, Function.update_same]
  obtain ⟨s1, hs1, hf1⟩ := runSteps_flag ptr steps w w1 p.FrameDrawn hs rfl hrun hno
  exact onRenderEvent_stale hlater (by rw [haddr]; exact hs1) hf1

/-- Witness of C30: after one rotation, RENDER_LEFT (event 203) draws with the
left-eye buffer; RENDER_RIGHT (event 204) follows, directly or after a RENDER_MONO and
an UPDATE without new frame, and issues no draw call. -/
theorem one_copy_per_rotation_witness :
    issuedDraw
      ((runSteps ((OnRenderEvent rotatedWorld 203 goodEnv).getD rotatedWorld)
        [Step.renderEvent 202 goodEnv, Step.renderEvent 201 idleEnv]).getD rotatedWorld)
      ((OnRenderEvent
        ((runSteps ((OnRenderEvent rotatedWorld 203 goodEnv).getD rotatedWorld)
          [Step.renderEvent 202 goodEnv, Step.renderEvent 201 idleEnv]).getD rotatedWorld)
        204 goodEnv).getD rotatedWorld) = false :=
  one_copy_per_rotation 1 rotatedWorld
    ((OnRenderEvent rotatedWorld 203 goodEnv).getD rotatedWorld) _ _ 203 204 goodEnv goodEnv
    [Step.renderEvent 202 goodEnv, Step.renderEvent 201 idleEnv]
    (eq_some_getD _ rotatedWorld rfl) rfl (by decide)
    (eq_some_getD _ rotatedWorld rfl) (by decide)
    (eq_some_getD _ rotatedWorld rfl) rfl

/-- RENDER_LEFT and RENDER_RIGHT after one rotation, call by call: RENDER_LEFT issues
one `glDrawArrays` on the buffer of `LEFT_EYE_VIEW` (2); the RENDER_RIGHT that follows
it only asks the surface for its texture id. -/
theorem left_then_right :
    ((OnRenderEvent rotatedWorld 203 goodEnv).map fun w =>
      ((w.device.calls.drop rotatedWorld.device.calls.length).filter fun c =>
        c.isDraw || decide (c = Call.bindArrayBuffer 2) || decide (c = Call.bindArrayBuffer 1)))
      = some [Call.bindArrayBuffer 2, Call.drawArrays 4] ∧
    (((OnRenderEvent rotatedWorld 203 goodEnv).bind fun w =>
      (OnRenderEvent w 204 goodEnv).map fun w2 =>
        w2.device.calls.drop w.device.calls.length))
      = some [textureIdQuery rotatedPlayer] := by
  constructor <;> decide

end gvrvideo
